import Mathlib

/-!
# Sonic Pi GUI: the session with the runtime server

A shallow embedding of the session logic of `app/gui/qt/mainwindow.cpp`: the
start-up (`MainWindow::MainWindow`, `initAndCheckPorts`, `checkPort`,
`startRubyServer`, `waitForServiceSync`, `invokeStartupError`, `startupError`),
the operations that send messages (`sendOSC`, `runCode` and the other message
builders), the shutdown (`onExitCleanup`), the workspace names (`number_name`,
`filenameToWorkspace`) and the tab functions (`tabNext`, `tabPrev`), with the
properties proved about them.

The C++ code talks to the outside world (sockets, processes, files, the OSC
transport).  Every such interaction is recorded as an `Event`, and every answer
the outside world gives is read from an environment record `Env`.  A call either
returns a value, ends the process through `exit`, or runs into behaviour the
language leaves undefined; `Run` carries the events emitted so far together with
that outcome.
-/

namespace SonicPi

/-! ## Part 1: definitions -/

/-! ### Messages, events and outcomes -/

/-- One argument of an OSC message (`pushStr`, `pushInt32`, `pushFloat`).  A float
argument is kept as the exact rational value before rounding. -/
inductive Arg where
  | str (s : String)
  | int32 (i : Int)
  | float (x : Rat)
  deriving DecidableEq

/-- An `oscpkt::Message`: the address pattern and the ordered argument list. -/
structure Message where
  address : String
  args : List Arg
  deriving DecidableEq

/-- The five log sections of the error report assembled by `startupError`. -/
structure ErrorReport where
  gui_log : String
  server_error_log : String
  server_output_log : String
  scsynth_log : String
  processes_log : String
  deriving DecidableEq

/-- Observable interactions of the GUI process with the outside world. -/
inductive Event where
  /-- A helper script run with `QProcess::start` and waited for. -/
  | runScript (script : String)
  /-- Call `sock.bindTo(port)` on a fresh `oscpkt::UdpSocket`. -/
  | bindTo (port : Int)
  /-- The line `[GUI] -    port: N [OK]` (`available = true`) or
  `[GUI] -    port: N [Not Available]` (`available = false`). -/
  | portStatus (port : Int) (available : Bool)
  /-- The modal error box of `startupError` with its message and report. -/
  | startupError (msg : String) (report : ErrorReport)
  /-- Call `serverProcess->start(ruby_path, args)`. -/
  | launchServer (args : List String)
  /-- Construction and start of `sonicPiOSCServer`. -/
  | createTransport
  /-- Call `sonicPiOSCServer->stop()`. -/
  | stopTransport
  /-- Call `QMetaObject::invokeMethod(this, "startupError", Qt::QueuedConnection, msg)`. -/
  | queueStartupError (msg : String)
  /-- Call `qApp->processEvents()`. -/
  | processEvents
  /-- Call `readFile(path)`. -/
  | readFile (path : String)
  /-- Call `sleep(seconds)`. -/
  | sleep (seconds : Nat)
  /-- Call `oscSender->sendOSC(m)`. -/
  | send (m : Message)
  /-- Call `clientSock->close()`. -/
  | closeClientSocket
  /-- Call `osc_thread.waitForFinished()`. -/
  | waitForOscThread
  /-- Call `showError(html)`. -/
  | showError (html : String)
  /-- Call `statusBar()->showMessage(text, ...)`, recorded where a claim speaks of it. -/
  | statusMessage (text : String)
  deriving DecidableEq

/-- How a call ends: it returns a value, the process ends through
`exit(EXIT_FAILURE)`, an `assert` fails, or the call runs into undefined
behaviour (null pointer dereference, list index out of range). -/
inductive Outcome (α : Type) where
  | ret (a : α)
  | exited
  | assertFailed
  | undefined
  deriving DecidableEq

/-- The events emitted by a call, in order, together with its outcome. -/
structure Run (α : Type) where
  events : List Event
  outcome : Outcome α

/-- Sequencing: the second call runs only when the first one returned. -/
def Run.bind {α β : Type} (x : Run α) (f : α → Run β) : Run β :=
  match x.outcome with
  | .ret a => ⟨x.events ++ (f a).events, (f a).outcome⟩
  | .exited => ⟨x.events, .exited⟩
  | .assertFailed => ⟨x.events, .assertFailed⟩
  | .undefined => ⟨x.events, .undefined⟩

instance : Monad Run where
  pure a := ⟨[], .ret a⟩
  bind := Run.bind

/-- Record one event and go on. -/
def emit (e : Event) : Run Unit := ⟨[e], .ret ()⟩

/-- The call `exit(EXIT_FAILURE)`. -/
def exitProcess {α : Type} : Run α := ⟨[], .exited⟩

/-- A step whose behaviour C++ leaves undefined. -/
def undefinedBehaviour {α : Type} : Run α := ⟨[], .undefined⟩

/-- The value returned by a call, when it returned. -/
def Run.result {α : Type} (x : Run α) : Option α :=
  match x.outcome with
  | .ret a => some a
  | _ => none

/-! ### Qt string functions used by the port parser -/

/-- The predicate `QChar::isSpace`: U+0020, U+0009..U+000D, U+0085, U+00A0 and
the characters of the Unicode separator categories Zs, Zl and Zp. -/
def isSpace (c : Char) : Bool :=
  c.toNat = 0x20 || (0x09 ≤ c.toNat && c.toNat ≤ 0x0D) || c.toNat = 0x85 ||
  c.toNat = 0xA0 || c.toNat = 0x1680 || (0x2000 ≤ c.toNat && c.toNat ≤ 0x200A) ||
  c.toNat = 0x2028 || c.toNat = 0x2029 || c.toNat = 0x202F || c.toNat = 0x205F ||
  c.toNat = 0x3000

/-- The characters of `QString::trimmed()`: whitespace removed at both ends. -/
def trimmedChars (s : List Char) : List Char :=
  ((s.dropWhile isSpace).reverse.dropWhile isSpace).reverse

/-- The function `QString::trimmed()`. -/
def trimmed (s : String) : String := ⟨trimmedChars s.data⟩

/-- Worker of `split`: `skip` counts the characters of a separator just found
that are still to be passed over, `acc` holds the current field reversed. -/
def splitGo (sep : List Char) : List Char → Nat → List Char → List (List Char)
  | [], _, acc => [acc.reverse]
  | _ :: cs, skip + 1, acc => splitGo sep cs skip acc
  | c :: cs, 0, acc =>
    if sep ≠ [] ∧ sep <+: (c :: cs) then
      acc.reverse :: splitGo sep cs (sep.length - 1) []
    else
      splitGo sep cs 0 (c :: acc)

/-- The function `QString::split(sep)` with its default `Qt::KeepEmptyParts`:
the fields between the successive non-overlapping occurrences of `sep`. -/
def split (s sep : String) : List String :=
  (splitGo sep.data s.data 0 []).map String.mk

/-- ASCII decimal digit. -/
def isDigit (c : Char) : Bool := 48 ≤ c.toNat && c.toNat ≤ 57

/-- A non-empty run of ASCII decimal digits. -/
def isDigits (ds : List Char) : Bool := !ds.isEmpty && ds.all isDigit

/-- Value of a run of decimal digits. -/
def decVal (ds : List Char) : Nat := ds.foldl (fun a c => 10 * a + (c.toNat - 48)) 0

/-- The characters form a decimal integer: an optional sign and one or more digits. -/
def isDecimalInt (s : List Char) : Bool :=
  match s with
  | '-' :: ds => isDigits ds
  | '+' :: ds => isDigits ds
  | ds => isDigits ds

/-- The function `QString::toInt()` in base 10 on a string without surrounding
whitespace (every call site trims first): the value of a decimal integer that
fits the 32-bit `int`, and 0 when the conversion fails. -/
def toInt (s : String) : Int :=
  match s.data with
  | '-' :: ds => if isDigits ds ∧ decVal ds ≤ 2 ^ 31 then - (decVal ds : Int) else 0
  | '+' :: ds => if isDigits ds ∧ decVal ds < 2 ^ 31 then (decVal ds : Int) else 0
  | ds => if isDigits ds ∧ decVal ds < 2 ^ 31 then (decVal ds : Int) else 0

/-- The type `QMap<QString, int>` as an association list. -/
abbrev PortMap := List (String × Int)

/-- Assignment `m[key] = value`: replaces the value of an existing key, adds a new
key otherwise. -/
def PortMap.set : PortMap → String → Int → PortMap
  | [], key, value => [(key, value)]
  | (k, v) :: rest, key, value =>
    if k = key then (k, value) :: rest else (k, v) :: PortMap.set rest key value

/-- Read `m[key]`: the stored value, and the default-constructed `int` 0 for a key
that is not in the map (`QMap::operator[]` also inserts that default, which no
later read can tell apart). -/
def PortMap.get : PortMap → String → Int
  | [], _ => 0
  | (k, v) :: rest, key => if k = key then v else PortMap.get rest key

/-! ### checkPort -/

/-- The function `MainWindow::checkPort`.  `sockOk` is the answer of `sock.isOk()`
after `sock.bindTo(port)`. -/
def checkPort (port : Int) (sockOk : Bool) : Run Bool := do
  emit (.bindTo port)
  if port < 1024 ∨ sockOk = false then
    emit (.portStatus port false)
    pure false
  else
    emit (.portStatus port true)
    pure true

/-! ### The environment and the window state -/

/-- The enumeration of transports (`protocol` is set to `UDP` by the constructor). -/
inductive Protocol where
  | UDP
  | TCP
  deriving DecidableEq

/-- The fields of `SonicPiSettings` read by the code at hand. -/
structure Settings where
  check_updates : Bool
  midi_enabled : Bool
  osc_server_enabled : Bool
  osc_public : Bool
  main_volume : Int
  mixer_invert_stereo : Bool
  mixer_force_mono : Bool
  print_output : Bool
  log_cues : Bool
  check_args : Bool
  enable_external_synths : Bool
  synth_trigger_timing_guarantees : Bool
  midi_default_channel_str : String
  auto_indent_on_run : Bool
  clear_output_on_run : Bool

/-- Everything the outside world decides during start-up. -/
structure Env where
  /-- Value of `QUuid::createUuid().toString()`. -/
  guiID : String
  /-- Value of `rootPath()`. -/
  root_path : String
  /-- Value of `sonicPiHomePath()`. -/
  home_path : String
  /-- Whether the bundled ruby binary exists (`initPaths`). -/
  nativeRuby : Bool
  /-- Whether the build targets macOS or Windows (`Q_OS_MAC`, `Q_OS_WIN`). -/
  macOrWin : Bool
  /-- Whether the tester file in the home directory could be opened for writing. -/
  homeDirWritable : Bool
  /-- The lines `readLine()` yields from the output of the port discovery script. -/
  discovery : List String
  /-- Answer of `sock.isOk()` in the k-th call of `checkPort`, which binds `port`. -/
  sockOk : Nat → Int → Bool
  /-- Answer of `serverProcess->waitForStarted()`. -/
  waitForStarted : Bool
  /-- The file system as seen by the i-th log poll of `waitForServiceSync`
  (`none` for a file that cannot be opened). -/
  fsAtPoll : Nat → String → Option String
  /-- The file system as seen by `startupError`. -/
  fsAtError : String → Option String
  /-- The flag `server_started` of the transport after t ticks of the ping phase. -/
  server_started : Nat → Bool
  /-- The flag `osc_incoming_port_open` of the transport after t ticks of the ping phase. -/
  osc_incoming_port_open : Nat → Bool
  /-- Answer of `oscSender->sendOSC(m)`. -/
  oscSend : Message → Bool
  /-- The settings object `piSettings`. -/
  settings : Settings
  /-- The constant `workspace_max` of `mainwindow.h`. -/
  workspace_max : Nat

/-- The member variables of `MainWindow` that the start-up logic reads or writes. -/
structure MainWindow where
  /-- False stands for the `NULL` pointer, true for a constructed transport. -/
  sonicPiOSCServer : Bool
  /-- Value of `startup_error_reported->isChecked()`. -/
  startup_error_reported : Bool
  protocol : Protocol
  guiID : String
  homeDirWritable : Bool
  ruby_path : String
  ruby_server_path : String
  port_discovery_path : String
  init_script_path : String
  exit_script_path : String
  gui_log_path : String
  server_error_log_path : String
  server_output_log_path : String
  scsynth_log_path : String
  process_log_path : String
  port_map : PortMap
  gui_send_to_server_port : Int
  gui_listen_to_server_port : Int
  server_listen_to_gui_port : Int
  server_osc_cues_port : Int
  server_send_to_gui_port : Int
  scsynth_port : Int
  scsynth_send_port : Int
  erlang_router_port : Int
  osc_midi_out_port : Int
  osc_midi_in_port : Int
  websocket_port : Int
  /-- Messages of the `startupError` invocations waiting in the Qt event queue. -/
  queued : List String
  is_recording : Bool
  loaded_workspaces : Bool
  deriving DecidableEq

/-- The state after the first part of the constructor (lines 98 to 150): the
member initialisations and `initPaths`.  The port variables are not initialised
by the C++ code before `initAndCheckPorts` assigns them; they are 0 here. -/
def initialWindow (env : Env) : MainWindow :=
  let log_path := env.home_path ++ "/.sonic-pi" ++ "/log"
  { sonicPiOSCServer := false
    startup_error_reported := false
    protocol := .UDP
    guiID := env.guiID
    homeDirWritable := env.homeDirWritable
    ruby_path := if env.nativeRuby then env.root_path ++ "/app/server/native/ruby/bin/ruby" else "ruby"
    ruby_server_path := env.root_path ++ "/app/server/ruby/bin/sonic-pi-server.rb"
    port_discovery_path := env.root_path ++ "/app/server/ruby/bin/port-discovery.rb"
    init_script_path := env.root_path ++ "/app/server/ruby/bin/init-script.rb"
    exit_script_path := env.root_path ++ "/app/server/ruby/bin/exit-script.rb"
    gui_log_path := log_path ++ "/gui.log"
    server_error_log_path := log_path ++ "/server-errors.log"
    server_output_log_path := log_path ++ "/server-output.log"
    scsynth_log_path := log_path ++ "/scsynth.log"
    process_log_path := log_path ++ "/processes.log"
    port_map := []
    gui_send_to_server_port := 0
    gui_listen_to_server_port := 0
    server_listen_to_gui_port := 0
    server_osc_cues_port := 0
    server_send_to_gui_port := 0
    scsynth_port := 0
    scsynth_send_port := 0
    erlang_router_port := 0
    osc_midi_out_port := 0
    osc_midi_in_port := 0
    websocket_port := 0
    queued := []
    is_recording := false
    loaded_workspaces := false }

/-! ### Error reporting -/

/-- The function `MainWindow::readFile`: the content of the file, and the empty
string when the file cannot be opened. -/
def readFile (fs : String → Option String) (name : String) : Run String := do
  emit (.readFile name)
  match fs name with
  | some content => pure content
  | none => pure ""

/-- The function `MainWindow::startupError`: collects the logs, shows the error
box and ends the process with `exit(EXIT_FAILURE)`; it never returns. -/
def startupError (env : Env) (w : MainWindow) (msg : String) : Run Unit := do
  let report ←
    if w.homeDirWritable then do
      let gui_log ← readFile env.fsAtError w.gui_log_path
      let scsynth_log ← readFile env.fsAtError w.scsynth_log_path
      let processes_log ← readFile env.fsAtError w.process_log_path
      let server_output_log ← readFile env.fsAtError w.server_output_log_path
      let server_error_log ← readFile env.fsAtError w.server_error_log_path
      pure (ErrorReport.mk gui_log server_error_log server_output_log scsynth_log processes_log)
    else
      pure (ErrorReport.mk "Permissions error: unable to access log"
        "Permissions error: unable to access log" "Permissions error: unable to access log"
        "Permissions error: unable to access log" "Permissions error: unable to access log")
  emit (.startupError msg report)
  exitProcess

/-- The function `MainWindow::invokeStartupError`.  The call
`sonicPiOSCServer->stop()` through a `NULL` pointer is undefined behaviour. -/
def invokeStartupError (w : MainWindow) (msg : String) : Run MainWindow := do
  if w.startup_error_reported then
    pure w
  else
    let w := { w with startup_error_reported := true }
    if w.sonicPiOSCServer = false then undefinedBehaviour
    emit .stopTransport
    emit (.queueStartupError msg)
    pure { w with queued := w.queued ++ [msg] }

/-- The call `processEvents()`: a queued `startupError` invocation is delivered. -/
def processEvents (env : Env) (w : MainWindow) : Run Unit := do
  emit .processEvents
  match w.queued with
  | [] => pure ()
  | msg :: _ => startupError env w msg

/-! ### Port resolution and validation -/

/-- One round of the parsing loop of `initAndCheckPorts` (lines 258 to 260).
Indexing `parts[1]` when the split yields a single field is out of range. -/
def parsePortLine (port_map : PortMap) (line : String) : Run PortMap :=
  match split line ": " with
  | p0 :: p1 :: _ => pure (port_map.set (trimmed p0) (toInt (trimmed p1)))
  | _ => undefinedBehaviour

/-- The parsing loop of `initAndCheckPorts` (lines 256 to 262). -/
def parsePortLines (port_map : PortMap) : List String → Run PortMap
  | [] => pure port_map
  | line :: rest => do
    let port_map ← parsePortLine port_map line
    parsePortLines port_map rest

/-- The assignments of lines 264 to 274: each port variable takes the entry of
its role in `port_map`. -/
def assignPorts (w : MainWindow) (port_map : PortMap) : MainWindow :=
  { w with
    port_map := port_map
    gui_send_to_server_port := port_map.get "gui-send-to-server"
    gui_listen_to_server_port := port_map.get "gui-listen-to-server"
    server_listen_to_gui_port := port_map.get "server-listen-to-gui"
    server_osc_cues_port := port_map.get "server-osc-cues"
    server_send_to_gui_port := port_map.get "server-send-to-gui"
    scsynth_port := port_map.get "scsynth"
    scsynth_send_port := port_map.get "scsynth-send"
    erlang_router_port := port_map.get "erlang-router"
    osc_midi_out_port := port_map.get "osc-midi-out"
    osc_midi_in_port := port_map.get "osc-midi-in"
    websocket_port := port_map.get "websocket" }

/-- The first half of `initAndCheckPorts` (lines 248 to 274): run the discovery
script, parse its output into `port_map` and assign the eleven port variables. -/
def resolvePorts (env : Env) (w : MainWindow) : Run MainWindow := do
  emit (.runScript w.port_discovery_path)
  let port_map ← parsePortLines w.port_map env.discovery
  pure (assignPorts w port_map)

/-- The second half of `initAndCheckPorts` (lines 276 to 330): probe the eleven
ports one after the other, then report the start-up error unless all are free.
The `return false` that follows `startupError` is kept as in the source. -/
def validatePorts (env : Env) (w : MainWindow) : Run Bool := do
  let glts_available ← checkPort w.gui_listen_to_server_port (env.sockOk 0 w.gui_listen_to_server_port)
  let sltg_available ← checkPort w.server_listen_to_gui_port (env.sockOk 1 w.server_listen_to_gui_port)
  let soc_available ← checkPort w.server_osc_cues_port (env.sockOk 2 w.server_osc_cues_port)
  let s_available ← checkPort w.scsynth_port (env.sockOk 3 w.scsynth_port)
  let sstg_available ← checkPort w.server_send_to_gui_port (env.sockOk 4 w.server_send_to_gui_port)
  let gsts_available ← checkPort w.gui_send_to_server_port (env.sockOk 5 w.gui_send_to_server_port)
  let ss_available ← checkPort w.scsynth_send_port (env.sockOk 6 w.scsynth_send_port)
  let er_available ← checkPort w.erlang_router_port (env.sockOk 7 w.erlang_router_port)
  let omo_available ← checkPort w.osc_midi_out_port (env.sockOk 8 w.osc_midi_out_port)
  let omi_available ← checkPort w.osc_midi_in_port (env.sockOk 9 w.osc_midi_in_port)
  let ws_available ← checkPort w.websocket_port (env.sockOk 10 w.websocket_port)
  if !(glts_available && sltg_available && soc_available && s_available &&
      sstg_available && gsts_available && ss_available && er_available &&
      omo_available && omi_available && ws_available) then
    startupError env w "One or more ports is not available. Is Sonic Pi already running? If not, please reboot your machine and try again."
    pure false
  else
    pure true

/-- The function `MainWindow::initAndCheckPorts`. -/
def initAndCheckPorts (env : Env) (w : MainWindow) : Run (Bool × MainWindow) := do
  let w ← resolvePorts env w
  let ok ← validatePorts env w
  pure (ok, w)

/-! ### Launching the server -/

/-- The function `MainWindow::startRubyServer`. -/
def startRubyServer (env : Env) (w : MainWindow) : Run MainWindow := do
  let args : List String :=
    (if env.macOrWin then ["--enable-frozen-string-literal"] else []) ++
    ["-E", "utf-8", w.ruby_server_path] ++
    [if w.protocol = .TCP then "-t" else "-u"] ++
    [toString w.server_listen_to_gui_port, toString w.server_send_to_gui_port,
     toString w.scsynth_port, toString w.scsynth_send_port,
     toString w.server_osc_cues_port, toString w.erlang_router_port,
     toString w.osc_midi_out_port, toString w.osc_midi_in_port,
     toString w.websocket_port]
  emit (.launchServer args)
  emit (.runScript (env.root_path ++ "/app/server/ruby/bin/task-register.rb"))
  if env.waitForStarted = false then
    invokeStartupError w "The Sonic Pi Server could not be started!"
  else
    pure w

/-! ### Sending messages -/

/-- The function `MainWindow::sendOSC`: hands the message to the sender and
returns its answer. -/
def sendOSC (env : Env) (m : Message) : Run Bool := do
  emit (.send m)
  pure (env.oscSend m)

/-- The function `MainWindow::enableCheckUpdates`. -/
def enableCheckUpdates (env : Env) (w : MainWindow) : Run Unit := do
  let _ ← sendOSC env ⟨"/enable-update-checking", [.str w.guiID]⟩

/-- The function `MainWindow::disableCheckUpdates`. -/
def disableCheckUpdates (env : Env) (w : MainWindow) : Run Unit := do
  let _ ← sendOSC env ⟨"/disable-update-checking", [.str w.guiID]⟩

/-- The function `MainWindow::update_check_updates`. -/
def update_check_updates (env : Env) (w : MainWindow) : Run Unit :=
  if env.settings.check_updates then enableCheckUpdates env w else disableCheckUpdates env w

/-- The function `MainWindow::toggleMidi`. -/
def toggleMidi (env : Env) (w : MainWindow) (silent : Int) : Run Unit := do
  if env.settings.midi_enabled then
    let _ ← sendOSC env ⟨"/midi-start", [.str w.guiID, .int32 silent]⟩
  else
    let _ ← sendOSC env ⟨"/midi-stop", [.str w.guiID, .int32 silent]⟩

/-- The function `MainWindow::toggleOSCServer`. -/
def toggleOSCServer (env : Env) (w : MainWindow) (silent : Int) : Run Unit := do
  if env.settings.osc_server_enabled then
    let isOpen : Int := if env.settings.osc_public then 1 else 0
    let _ ← sendOSC env ⟨"/osc-port-start", [.str w.guiID, .int32 silent, .int32 isOpen]⟩
  else
    let _ ← sendOSC env ⟨"/osc-port-stop", [.str w.guiID, .int32 silent]⟩

/-- The function `MainWindow::honourPrefs`; the calls that only touch widgets
(`updateLogAutoScroll`, `changeGUITransparency`, `toggleScopeAxes`,
`toggleIcons`, `scope`) leave no trace. -/
def honourPrefs (env : Env) (w : MainWindow) : Run Unit := do
  update_check_updates env w
  toggleMidi env w 1
  toggleOSCServer env w 1

/-- The function `MainWindow::number_name`; `none` stands for the failed
`assert(false)` of the default branch. -/
def number_name (i : Nat) : Option String :=
  match i with
  | 0 => some "zero"
  | 1 => some "one"
  | 2 => some "two"
  | 3 => some "three"
  | 4 => some "four"
  | 5 => some "five"
  | 6 => some "six"
  | 7 => some "seven"
  | 8 => some "eight"
  | 9 => some "nine"
  | _ => none

/-- The loop of `MainWindow::loadWorkspaces` from index `i` on, with `n` rounds left. -/
def loadWorkspacesFrom (env : Env) (w : MainWindow) : Nat → Nat → Run Unit
  | 0, _ => pure ()
  | n + 1, i => do
    match number_name i with
    | some name =>
      let _ ← sendOSC env ⟨"/load-buffer", [.str w.guiID, .str ("workspace_" ++ name)]⟩
    | none => (⟨[], .assertFailed⟩ : Run Unit)
    loadWorkspacesFrom env w n (i + 1)

/-- The function `MainWindow::loadWorkspaces`. -/
def loadWorkspaces (env : Env) (w : MainWindow) : Run Unit :=
  loadWorkspacesFrom env w env.workspace_max 0

/-- The loop of `MainWindow::setupWindowStructure` that builds the editor widgets
(lines 545 to 668) from index `ws` on, with `n` rounds left; returns the file
names given to the widgets built. -/
def setupWindowStructureFrom : Nat → Nat → Run (List String)
  | 0, _ => pure []
  | n + 1, ws => do
    match number_name ws with
    | some name =>
      let fileName := "workspace_" ++ name
      let rest ← setupWindowStructureFrom n (ws + 1)
      pure (fileName :: rest)
    | none => (⟨[], .assertFailed⟩ : Run (List String))

/-- The function `MainWindow::setupWindowStructure`, as far as it calls
`number_name`: the file names of the editor widgets it builds. -/
def setupWindowStructure (env : Env) : Run (List String) :=
  setupWindowStructureFrom env.workspace_max 0

/-- The function `MainWindow::requestVersion`. -/
def requestVersion (env : Env) (w : MainWindow) : Run Unit := do
  let _ ← sendOSC env ⟨"/version", [.str w.guiID]⟩

/-- The function `MainWindow::changeSystemPreAmp`. -/
def changeSystemPreAmp (env : Env) (w : MainWindow) (val silent : Int) : Run Unit := do
  let v : Rat := ((val : Rat) / 100) * 2
  let _ ← sendOSC env ⟨"/mixer-amp", [.str w.guiID, .float v, .int32 silent]⟩

/-! ### The boot synchroniser -/

/-- The function `QString::contains(str)`: `sub` occurs in `s`. -/
def contains (s sub : String) : Bool := decide (sub.data <:+: s.data)

/-- The marker the server writes to its output log once it has booted. -/
def bootMarker : String := "Sonic Pi Server successfully booted."

/-- Modelled from the spec: `SonicPiOSCServer::isServerStarted()` is not in the
sources at hand; the spec has the transport report that the peer has acknowledged
by its server-started flag, so the call reads that flag. -/
def isServerStarted (env : Env) (tick : Nat) : Bool := env.server_started tick

/-- Modelled from the spec: `SonicPiOSCServer::waitForServer()` is not in the
sources at hand; the spec has the synchroniser wait until the server-started
flag is observed true, so the call answers true while the flag is still false. -/
def waitForServer (env : Env) (tick : Nat) : Bool := !env.server_started tick

/-- Modelled from the spec: `SonicPiOSCServer::isIncomingPortOpen()` is not in
the sources at hand; the spec has a ping sent when the incoming channel of the
transport is open, so the call reads that flag. -/
def isIncomingPortOpen (env : Env) (tick : Nat) : Bool := env.osc_incoming_port_open tick

/-- The i-th log poll finds the boot marker in the server output log. -/
def markerAt (env : Env) (w : MainWindow) (i : Nat) : Bool :=
  contains ((env.fsAtPoll i w.server_output_log_path).getD "") bootMarker

/-- The log polling loop of `waitForServiceSync` (lines 1104 to 1115) with `n`
rounds left, `i` polls done; returns `server_booted`. -/
def pollLog (env : Env) (w : MainWindow) : Nat → Nat → Run Bool
  | 0, _ => pure false
  | n + 1, i => do
    processEvents env w
    let contents ← readFile (env.fsAtPoll i) w.server_output_log_path
    if contains contents bootMarker then
      pure true
    else
      emit (.sleep 1)
      pollLog env w n (i + 1)

/-- The message built in the ping loop. -/
def pingMessage (w : MainWindow) : Message :=
  ⟨"/ping", [.str w.guiID, .str "QtClient/1/hello"]⟩

/-- The ping loop of `waitForServiceSync` (lines 1126 to 1135) with the value of
`timeout` and the number of ticks slept so far; returns the number of ticks slept
when the loop is left.  With `timeout` at 0 the loop is left whatever
`waitForServer()` answers. -/
def pingLoop (env : Env) (w : MainWindow) : Nat → Nat → Run Nat
  | 0, tick => pure tick
  | timeout + 1, tick =>
    if waitForServer env tick then do
      emit (.sleep 1)
      if isIncomingPortOpen env (tick + 1) then
        let _ ← sendOSC env (pingMessage w)
      pingLoop env w timeout (tick + 1)
    else
      pure tick

/-- The function `MainWindow::waitForServiceSync`.  The transport is used through
the pointer `sonicPiOSCServer`, which must not be `NULL`. -/
def waitForServiceSync (env : Env) (w : MainWindow) : Run (Bool × MainWindow) := do
  let server_booted ←
    if w.homeDirWritable = false then do
      emit (.sleep 15)
      pure true
    else
      pollLog env w 60 0
  if server_booted = false then
    let w ← invokeStartupError w "Critical error! - Could not boot Sonic Pi Server."
    pure (false, w)
  else
    if w.sonicPiOSCServer = false then undefinedBehaviour
    let tick ← pingLoop env w 60 0
    if isServerStarted env tick = false then
      let w ← invokeStartupError w "Critical server error - could not connect to Sonic Pi Server!"
      pure (false, w)
    else
      pure (true, w)

/-- The boot marker is observed in one of the 60 log polls. -/
def markerObserved (env : Env) (w : MainWindow) : Prop :=
  ∃ i, i < 60 ∧ markerAt env w i = true

/-- The server-started acknowledgment is observed within the 60-tick countdown of
the ping phase. -/
def ackObserved (env : Env) : Prop :=
  ∃ t, t ≤ 60 ∧ env.server_started t = true

/-! ### The constructor -/

/-- The constructor `MainWindow::MainWindow` from line 98 to line 241; the calls
that only build widgets leave no trace (`setupWindowStructure` is kept for its
calls of `number_name`).  The value returned by `initAndCheckPorts` is not looked
at, as in the source. -/
def MainWindow_MainWindow (env : Env) : Run MainWindow := do
  let w := initialWindow env
  let (_, w) ← initAndCheckPorts env w
  emit (.runScript w.init_script_path)
  let _ ← setupWindowStructure env
  let w ← startRubyServer env w
  emit .createTransport
  let w := { w with sonicPiOSCServer := true }
  honourPrefs env w
  let (ready, w) ← waitForServiceSync env w
  if ready then
    loadWorkspaces env w
    requestVersion env w
    changeSystemPreAmp env w env.settings.main_volume 1
    processEvents env w
    pure w
  else
    startupError env w "GUI was unable to connect to the Ruby server."
    pure w

/-! ### Operations after start-up -/

/-- What a call reads from one editor widget (`SonicPiScintilla`). -/
structure Workspace where
  fileName : String
  text : String
  point_line : Int
  point_index : Int
  hasSelectedText : Bool
  selection_start_line : Int
  selection_finish_line : Int
  firstVisibleLine : Int
  isListActive : Bool

/-- The widgets, the user and the server process as a call finds them. -/
structure Gui where
  /-- The widget `tabs->currentWidget()`. -/
  currentWidget : Workspace
  /-- The array `workspaces`. -/
  workspaces : Nat → Workspace
  /-- Answer of `QFileDialog::getSaveFileName`. -/
  saveFileName : String
  /-- Whether `serverProcess->state() == QProcess::NotRunning`. -/
  serverNotRunning : Bool

/-- The function `MainWindow::completeSnippetOrIndentCurrentLineOrSelection`. -/
def completeSnippetOrIndentCurrentLineOrSelection (env : Env) (w : MainWindow)
    (ws : Workspace) : Run Unit := do
  let start_line := if ws.hasSelectedText then ws.selection_start_line else ws.point_line
  let finish_line := if ws.hasSelectedText then ws.selection_finish_line else ws.point_line
  let _ ← sendOSC env ⟨"/buffer-section-complete-snippet-or-indent-selection",
    [.str w.guiID, .str ws.fileName, .str ws.text, .int32 start_line, .int32 finish_line,
     .int32 ws.point_line, .int32 ws.point_index]⟩

/-- The function `MainWindow::completeSnippetListOrIndentLine`. -/
def completeSnippetListOrIndentLine (env : Env) (w : MainWindow) (ws : Workspace) : Run Unit :=
  if ws.isListActive then pure ()
  else completeSnippetOrIndentCurrentLineOrSelection env w ws

/-- The function `MainWindow::toggleComment`. -/
def toggleComment (env : Env) (w : MainWindow) (ws : Workspace) : Run Unit := do
  let start_line := if ws.hasSelectedText then ws.selection_start_line else ws.point_line
  let finish_line := if ws.hasSelectedText then ws.selection_finish_line else ws.point_line
  let _ ← sendOSC env ⟨"/buffer-section-toggle-comment",
    [.str w.guiID, .str ws.fileName, .str ws.text, .int32 start_line, .int32 finish_line,
     .int32 ws.point_line, .int32 ws.point_index]⟩

/-- The function `MainWindow::toggleCommentInCurrentWorkspace`. -/
def toggleCommentInCurrentWorkspace (env : Env) (gui : Gui) (w : MainWindow) : Run Unit :=
  toggleComment env w gui.currentWidget

/-- The loop of `MainWindow::saveWorkspaces` from index `i` on, with `n` rounds left. -/
def saveWorkspacesFrom (env : Env) (gui : Gui) (w : MainWindow) : Nat → Nat → Run Unit
  | 0, _ => pure ()
  | n + 1, i => do
    match number_name i with
    | some name =>
      let _ ← sendOSC env ⟨"/save-buffer",
        [.str w.guiID, .str ("workspace_" ++ name), .str (gui.workspaces i).text]⟩
    | none => (⟨[], .assertFailed⟩ : Run Unit)
    saveWorkspacesFrom env gui w n (i + 1)

/-- The function `MainWindow::saveWorkspaces`. -/
def saveWorkspaces (env : Env) (gui : Gui) (w : MainWindow) : Run Unit :=
  saveWorkspacesFrom env gui w env.workspace_max 0

/-- The function `MainWindow::beautifyCode`. -/
def beautifyCode (env : Env) (gui : Gui) (w : MainWindow) : Run Unit := do
  let ws := gui.currentWidget
  let _ ← sendOSC env ⟨"/buffer-beautify",
    [.str w.guiID, .str ws.fileName, .str ws.text, .int32 ws.point_line,
     .int32 ws.point_index, .int32 ws.firstVisibleLine]⟩

/-- The text `runCode` sends: the buffer text behind the lines that carry the
user preferences (lines 1438 to 1460). -/
def codeWithPreferences (s : Settings) (text : String) : String :=
  let code := text
  let code := if !s.print_output then
    "use_debug false #__nosave__ set by Qt GUI user preferences.\n" ++ code else code
  let code := if !s.log_cues then
    "use_cue_logging false #__nosave__ set by Qt GUI user preferences.\n" ++ code else code
  let code := if s.check_args then
    "use_arg_checks true #__nosave__ set by Qt GUI user preferences.\n" ++ code else code
  let code := if s.enable_external_synths then
    "use_external_synths true #__nosave__ set by Qt GUI user preferences.\n" ++ code else code
  let code := if s.synth_trigger_timing_guarantees then
    "use_timing_guarantees true #__nosave__ set by Qt GUI user preferences.\n" ++ code else code
  "use_midi_defaults channel: \"" ++ s.midi_default_channel_str ++
    "\" #__nosave__ set by Qt GUI user preferences.\n" ++ code

/-- The page shown by `MainWindow::showBufferCapacityError`. -/
def bufferCapacityError : String :=
  "<h2 class=\"syntax_error_description\"><pre>GUI Error: Buffer Full</pre></h2><pre class=\"error_msg\"> Your code buffer has reached capacity. <br/> Please remove some code before continuing. <br/><span class=\"error_line\"> For working with very large buffers use: <br/> run_file \"/path/to/buffer.rb\"</span></pre>"

/-- The function `MainWindow::runCode`. -/
def runCode (env : Env) (gui : Gui) (w : MainWindow) : Run Unit := do
  let ws := gui.currentWidget
  let code := codeWithPreferences env.settings ws.text
  if env.settings.auto_indent_on_run then
    beautifyCode env gui w
  let filename := gui.currentWidget.fileName
  let res ← sendOSC env ⟨"/save-and-run-buffer",
    [.str w.guiID, .str filename, .str code, .str filename]⟩
  if res = false then
    emit (.showError bufferCapacityError)
  else
    emit (.statusMessage "Running Code...")

/-- The function `MainWindow::runBufferIdx`: the tab is made current, then its
code is run; `gui.currentWidget` stands for the widget that is current by then. -/
def runBufferIdx (env : Env) (gui : Gui) (w : MainWindow) : Run Unit :=
  runCode env gui w

/-- The function `MainWindow::reloadServerCode`. -/
def reloadServerCode (env : Env) (w : MainWindow) : Run Unit := do
  let _ ← sendOSC env ⟨"/reload", [.str w.guiID]⟩

/-- The function `MainWindow::check_for_updates_now`. -/
def check_for_updates_now (env : Env) (w : MainWindow) : Run Unit := do
  let _ ← sendOSC env ⟨"/check-for-updates-now", [.str w.guiID]⟩

/-- The function `MainWindow::mixerHpfEnable`. -/
def mixerHpfEnable (env : Env) (w : MainWindow) (freq : Rat) : Run Unit := do
  let _ ← sendOSC env ⟨"/mixer-hpf-enable", [.str w.guiID, .float freq]⟩

/-- The function `MainWindow::mixerHpfDisable`. -/
def mixerHpfDisable (env : Env) (w : MainWindow) : Run Unit := do
  let _ ← sendOSC env ⟨"/mixer-hpf-disable", [.str w.guiID]⟩

/-- The function `MainWindow::mixerLpfEnable`. -/
def mixerLpfEnable (env : Env) (w : MainWindow) (freq : Rat) : Run Unit := do
  let _ ← sendOSC env ⟨"/mixer-lpf-enable", [.str w.guiID, .float freq]⟩

/-- The function `MainWindow::mixerLpfDisable`. -/
def mixerLpfDisable (env : Env) (w : MainWindow) : Run Unit := do
  let _ ← sendOSC env ⟨"/mixer-lpf-disable", [.str w.guiID]⟩

/-- The function `MainWindow::mixerInvertStereo`. -/
def mixerInvertStereo (env : Env) (w : MainWindow) : Run Unit := do
  let _ ← sendOSC env ⟨"/mixer-invert-stereo", [.str w.guiID]⟩

/-- The function `MainWindow::mixerStandardStereo`. -/
def mixerStandardStereo (env : Env) (w : MainWindow) : Run Unit := do
  let _ ← sendOSC env ⟨"/mixer-standard-stereo", [.str w.guiID]⟩

/-- The function `MainWindow::mixerMonoMode`. -/
def mixerMonoMode (env : Env) (w : MainWindow) : Run Unit := do
  let _ ← sendOSC env ⟨"/mixer-mono-mode", [.str w.guiID]⟩

/-- The function `MainWindow::mixerStereoMode`. -/
def mixerStereoMode (env : Env) (w : MainWindow) : Run Unit := do
  let _ ← sendOSC env ⟨"/mixer-stereo-mode", [.str w.guiID]⟩

/-- The function `MainWindow::mixerSettingsChanged`. -/
def mixerSettingsChanged (env : Env) (w : MainWindow) : Run Unit := do
  if env.settings.mixer_invert_stereo then mixerInvertStereo env w
  else mixerStandardStereo env w
  if env.settings.mixer_force_mono then mixerMonoMode env w
  else mixerStereoMode env w

/-- The function `MainWindow::stopRunningSynths`. -/
def stopRunningSynths (env : Env) (w : MainWindow) : Run Unit := do
  let _ ← sendOSC env ⟨"/stop-all-jobs", [.str w.guiID]⟩

/-- The function `MainWindow::stopCode`. -/
def stopCode (env : Env) (w : MainWindow) : Run Unit :=
  stopRunningSynths env w

/-- The function `MainWindow::toggleRecording`. -/
def toggleRecording (env : Env) (gui : Gui) (w : MainWindow) : Run MainWindow := do
  let w := { w with is_recording := !w.is_recording }
  if w.is_recording then
    let _ ← sendOSC env ⟨"/start-recording", [.str w.guiID]⟩
  else
    let _ ← sendOSC env ⟨"/stop-recording", [.str w.guiID]⟩
    if gui.saveFileName ≠ "" then
      let _ ← sendOSC env ⟨"/save-recording", [.str w.guiID, .str gui.saveFileName]⟩
    else
      let _ ← sendOSC env ⟨"/delete-recording", [.str w.guiID]⟩
  pure w

/-- The function `MainWindow::resetMidi`. -/
def resetMidi (env : Env) (w : MainWindow) : Run Unit := do
  if env.settings.midi_enabled then
    let _ ← sendOSC env ⟨"/midi-reset", [.str w.guiID]⟩

/-- The function `MainWindow::onExitCleanup`.  The transport is stopped through
the pointer `sonicPiOSCServer`, which must not be `NULL`. -/
def onExitCleanup (env : Env) (gui : Gui) (w : MainWindow) : Run Unit := do
  if w.sonicPiOSCServer = false then undefinedBehaviour
  emit .stopTransport
  if w.protocol = .TCP then
    emit .closeClientSocket
  if gui.serverNotRunning then
    pure ()
  else
    if w.loaded_workspaces then
      saveWorkspaces env gui w
    emit (.sleep 1)
    let _ ← sendOSC env ⟨"/exit", [.str w.guiID]⟩
  if w.protocol = .UDP then
    emit .waitForOscThread
  emit (.sleep 2)
  emit (.runScript w.exit_script_path)

/-- The loop of `MainWindow::filenameToWorkspace` from index `i` on, with `n`
rounds left; the value is the index into `workspaces` of the widget returned. -/
def filenameToWorkspaceFrom (filename : String) : Nat → Nat → Run Nat
  | 0, _ => pure 0
  | n + 1, i =>
    match number_name i with
    | some name =>
      if filename = "workspace_" ++ name then pure i
      else filenameToWorkspaceFrom filename n (i + 1)
    | none => (⟨[], .assertFailed⟩ : Run Nat)

/-- The function `MainWindow::filenameToWorkspace`. -/
def filenameToWorkspace (env : Env) (filename : String) : Run Nat :=
  filenameToWorkspaceFrom filename env.workspace_max 0

/-- The value a C++ `int` holds when the exact result of an operation is `x`:
the representative of `x` modulo 2^32 in the range from -2^31 to 2^31 - 1. -/
def wrapInt (x : Int) : Int := (x + 2147483648) % 4294967296 - 2147483648

/-- What the tab functions read from and write to the widget `tabs`. -/
structure Tabs where
  /-- Value of `tabs->count()`. -/
  count : Int
  /-- Value of `tabs->currentIndex()`. -/
  currentIndex : Int
  deriving DecidableEq

/-- The slot `QTabWidget::setCurrentIndex`: the tab at `index` becomes the
current one; an index that names no tab is ignored. -/
def Tabs.setCurrentIndex (t : Tabs) (index : Int) : Tabs :=
  if 0 ≤ index ∧ index < t.count then { t with currentIndex := index } else t

/-- The function `MainWindow::tabNext`. -/
def tabNext (t : Tabs) : Tabs :=
  let index := t.currentIndex
  let index := if index = wrapInt (t.count - 1) then 0 else wrapInt (index + 1)
  t.setCurrentIndex index

/-- The function `MainWindow::tabPrev`. -/
def tabPrev (t : Tabs) : Tabs :=
  let index := t.currentIndex
  let index := if index = 0 then wrapInt (t.count - 1) else wrapInt (index - 1)
  t.setCurrentIndex index

/-- The operations of `MainWindow` that build a `Message` and hand it to
`sendOSC`, alone or through the operations they call. -/
inductive Operation where
  | completeSnippetListOrIndentLine (ws : Workspace)
  | completeSnippetOrIndentCurrentLineOrSelection (ws : Workspace)
  | toggleCommentInCurrentWorkspace
  | toggleComment (ws : Workspace)
  | waitForServiceSync
  | mixerSettingsChanged
  | update_check_updates
  | honourPrefs
  | loadWorkspaces
  | saveWorkspaces
  | runBufferIdx
  | runCode
  | beautifyCode
  | reloadServerCode
  | check_for_updates_now
  | enableCheckUpdates
  | disableCheckUpdates
  | mixerHpfEnable (freq : Rat)
  | mixerHpfDisable
  | mixerLpfEnable (freq : Rat)
  | mixerLpfDisable
  | mixerInvertStereo
  | mixerStandardStereo
  | mixerMonoMode
  | mixerStereoMode
  | stopCode
  | changeSystemPreAmp (val silent : Int)
  | stopRunningSynths
  | toggleRecording
  | onExitCleanup
  | requestVersion
  | toggleMidi (silent : Int)
  | resetMidi
  | toggleOSCServer (silent : Int)

/-- Run an operation on a window and return the window it leaves. -/
def Operation.run (env : Env) (gui : Gui) (w : MainWindow) : Operation → Run MainWindow
  | .completeSnippetListOrIndentLine ws => do
    SonicPi.completeSnippetListOrIndentLine env w ws; pure w
  | .completeSnippetOrIndentCurrentLineOrSelection ws => do
    SonicPi.completeSnippetOrIndentCurrentLineOrSelection env w ws; pure w
  | .toggleCommentInCurrentWorkspace => do
    SonicPi.toggleCommentInCurrentWorkspace env gui w; pure w
  | .toggleComment ws => do SonicPi.toggleComment env w ws; pure w
  | .waitForServiceSync => do let r ← SonicPi.waitForServiceSync env w; pure r.2
  | .mixerSettingsChanged => do SonicPi.mixerSettingsChanged env w; pure w
  | .update_check_updates => do SonicPi.update_check_updates env w; pure w
  | .honourPrefs => do SonicPi.honourPrefs env w; pure w
  | .loadWorkspaces => do SonicPi.loadWorkspaces env w; pure w
  | .saveWorkspaces => do SonicPi.saveWorkspaces env gui w; pure w
  | .runBufferIdx => do SonicPi.runBufferIdx env gui w; pure w
  | .runCode => do SonicPi.runCode env gui w; pure w
  | .beautifyCode => do SonicPi.beautifyCode env gui w; pure w
  | .reloadServerCode => do SonicPi.reloadServerCode env w; pure w
  | .check_for_updates_now => do SonicPi.check_for_updates_now env w; pure w
  | .enableCheckUpdates => do SonicPi.enableCheckUpdates env w; pure w
  | .disableCheckUpdates => do SonicPi.disableCheckUpdates env w; pure w
  | .mixerHpfEnable freq => do SonicPi.mixerHpfEnable env w freq; pure w
  | .mixerHpfDisable => do SonicPi.mixerHpfDisable env w; pure w
  | .mixerLpfEnable freq => do SonicPi.mixerLpfEnable env w freq; pure w
  | .mixerLpfDisable => do SonicPi.mixerLpfDisable env w; pure w
  | .mixerInvertStereo => do SonicPi.mixerInvertStereo env w; pure w
  | .mixerStandardStereo => do SonicPi.mixerStandardStereo env w; pure w
  | .mixerMonoMode => do SonicPi.mixerMonoMode env w; pure w
  | .mixerStereoMode => do SonicPi.mixerStereoMode env w; pure w
  | .stopCode => do SonicPi.stopCode env w; pure w
  | .changeSystemPreAmp val silent => do SonicPi.changeSystemPreAmp env w val silent; pure w
  | .stopRunningSynths => do SonicPi.stopRunningSynths env w; pure w
  | .toggleRecording => SonicPi.toggleRecording env gui w
  | .onExitCleanup => do SonicPi.onExitCleanup env gui w; pure w
  | .requestVersion => do SonicPi.requestVersion env w; pure w
  | .toggleMidi silent => do SonicPi.toggleMidi env w silent; pure w
  | .resetMidi => do SonicPi.resetMidi env w; pure w
  | .toggleOSCServer silent => do SonicPi.toggleOSCServer env w silent; pure w

/-! ### Vocabulary of the statements -/

/-- The eleven required roles with the port variable each one is assigned to
(lines 264 to 274), in the order of the assignments. -/
def requiredPorts (w : MainWindow) : List (String × Int) :=
  [("gui-send-to-server", w.gui_send_to_server_port),
   ("gui-listen-to-server", w.gui_listen_to_server_port),
   ("server-listen-to-gui", w.server_listen_to_gui_port),
   ("server-osc-cues", w.server_osc_cues_port),
   ("server-send-to-gui", w.server_send_to_gui_port),
   ("scsynth", w.scsynth_port),
   ("scsynth-send", w.scsynth_send_port),
   ("erlang-router", w.erlang_router_port),
   ("osc-midi-out", w.osc_midi_out_port),
   ("osc-midi-in", w.osc_midi_in_port),
   ("websocket", w.websocket_port)]

/-- The names of the eleven required roles. -/
def requiredRoles : List String :=
  ["gui-send-to-server", "gui-listen-to-server", "server-listen-to-gui", "server-osc-cues",
   "server-send-to-gui", "scsynth", "scsynth-send", "erlang-router", "osc-midi-out",
   "osc-midi-in", "websocket"]

/-- The eleven ports in the order in which `initAndCheckPorts` probes them
(lines 280 to 310), each with the index of its probe. -/
def probeOrder (w : MainWindow) : List (Nat × Int) :=
  [(0, w.gui_listen_to_server_port), (1, w.server_listen_to_gui_port),
   (2, w.server_osc_cues_port), (3, w.scsynth_port), (4, w.server_send_to_gui_port),
   (5, w.gui_send_to_server_port), (6, w.scsynth_send_port), (7, w.erlang_router_port),
   (8, w.osc_midi_out_port), (9, w.osc_midi_in_port), (10, w.websocket_port)]

/-- The k-th probe, of port `p`, passes `checkPort`: the call returns true. -/
def probePasses (env : Env) (kp : Nat × Int) : Bool :=
  decide ((checkPort kp.2 (env.sockOk kp.1 kp.2)).outcome = .ret true)

/-- What one probe leaves in the trace: the bind, then the status line, which
reads `[OK]` when the probe passed and `[Not Available]` when it failed. -/
def probeReport (env : Env) (kp : Nat × Int) : List Event :=
  [.bindTo kp.2, .portStatus kp.2 (probePasses env kp)]

/-- An event of a port probe: a bind or a status line. -/
def isProbeEvent : Event → Bool
  | .bindTo _ => true
  | .portStatus _ _ => true
  | _ => false

/-- The first field of a discovery line, trimmed: the key under which the parsing
loop stores the port of the line. -/
def lineRole (line : String) : String := trimmed ((split line ": ").headD "")

/-- The second field of a discovery line, trimmed, when the line has one. -/
def lineNumber (line : String) : String := trimmed ((split line ": ").getD 1 "")

/-- The events of `startupError` before the error box: the log files read. -/
def startupErrorReads (w : MainWindow) : List Event :=
  if w.homeDirWritable then
    [.readFile w.gui_log_path, .readFile w.scsynth_log_path, .readFile w.process_log_path,
     .readFile w.server_output_log_path, .readFile w.server_error_log_path]
  else []

/-- The map the parsing loop builds from lines that all have two or more fields:
line by line, the trimmed first field is mapped to the integer value of the
trimmed second field. -/
def parsedMap (m : PortMap) (lines : List String) : PortMap :=
  lines.foldl (fun m l => PortMap.set m (lineRole l) (toInt (lineNumber l))) m

/-- The message of the start-up error raised by `initAndCheckPorts`. -/
def portsErrorMessage : String :=
  "One or more ports is not available. Is Sonic Pi already running? If not, please reboot your machine and try again."

/-- A well-formed discovery line taken apart: a role name and a run of digits,
with whitespace allowed around both. -/
structure Entry where
  lead : List Char
  role : List Char
  gap : List Char
  pad : List Char
  digits : List Char
  trail : List Char

/-- The text of the line: role, optional whitespace, the separator, optional
whitespace, the number. -/
def Entry.line (e : Entry) : String :=
  ⟨e.lead ++ e.role ++ e.gap ++ [':', ' '] ++ e.pad ++ e.digits ++ e.trail⟩

/-- The parts named whitespace are whitespace, the role name has no colon and
neither starts nor ends with whitespace, and the number is a non-empty run of
decimal digits. -/
def Entry.WellFormed (e : Entry) : Prop :=
  (∀ c ∈ e.lead, isSpace c = true) ∧ (∀ c ∈ e.gap, isSpace c = true) ∧
  (∀ c ∈ e.pad, isSpace c = true) ∧ (∀ c ∈ e.trail, isSpace c = true) ∧
  (∀ c ∈ e.role, c ≠ ':') ∧
  (∀ c, e.role.head? = some c → isSpace c = false) ∧
  (∀ c, e.role.getLast? = some c → isSpace c = false) ∧
  isDigits e.digits = true

/-- Every message the call hands to the sender satisfies `P`. -/
def SendsOnly {α : Type} (P : Message → Prop) (x : Run α) : Prop :=
  ∀ m, Event.send m ∈ x.events → P m

/-- The first argument of the message is the string `id`. -/
def firstArgIs (id : String) (m : Message) : Prop := m.args.head? = some (.str id)

/-- A message handed to the sender. -/
def isSendEvent : Event → Bool
  | .send _ => true
  | _ => false

/-- A read of a file. -/
def isReadEvent : Event → Bool
  | .readFile _ => true
  | _ => false

/-- A sleep of one second: a tick of a countdown. -/
def isTickEvent : Event → Bool
  | .sleep 1 => true
  | _ => false

/-- The number of ticks the ping countdown runs when it starts at tick `t` with
`n` ticks left: the ticks up to the first one at which the server-started flag
is found set, and at most `n`. -/
def ticksRun (env : Env) : Nat → Nat → Nat
  | 0, _ => 0
  | n + 1, t => if env.server_started t then 0 else ticksRun env n (t + 1) + 1

/-- What the tick that ends at time `t` leaves in the trace: the sleep, and one
ping when the incoming port is open after it. -/
def tickTrace (env : Env) (w : MainWindow) (t : Nat) : List Event :=
  .sleep 1 :: (if env.osc_incoming_port_open t then [.send (pingMessage w)] else [])

/-- What one log poll that misses the marker leaves in the trace. -/
def missedPoll (w : MainWindow) : List Event :=
  [.processEvents, .readFile w.server_output_log_path, .sleep 1]

/-- The message of the start-up error raised when the log never shows the marker. -/
def bootErrorMessage : String := "Critical error! - Could not boot Sonic Pi Server."

/-- The message of the start-up error raised when the server never acknowledges. -/
def connectErrorMessage : String :=
  "Critical server error - could not connect to Sonic Pi Server!"

/-- The message of the start-up error the constructor raises when
`waitForServiceSync` returns false. -/
def unableToConnectMessage : String := "GUI was unable to connect to the Ruby server."

/-- The trace of the first phase of `waitForServiceSync`: the fixed sleep when the
logs cannot be read, the log polls otherwise. -/
def logPhase (env : Env) (w : MainWindow) : List Event :=
  if w.homeDirWritable = false then [.sleep 15] else (pollLog env w 60 0).events

/-- The trace of the ping phase of `waitForServiceSync`. -/
def pingPhase (env : Env) (w : MainWindow) : List Event :=
  (pingLoop env w 60 0).events

/-- The first phase of `waitForServiceSync` ends with `server_booted` set. -/
def serverBooted (env : Env) (w : MainWindow) : Prop :=
  markerObserved env w ∨ w.homeDirWritable = false

/-- Every value the call can return satisfies `Q`. -/
def ReturnsOnly {α : Type} (Q : α → Prop) (x : Run α) : Prop :=
  ∀ a, x.outcome = .ret a → Q a

/-- Every event of the call satisfies `p`. -/
def EventsOnly {α : Type} (p : Event → Prop) (x : Run α) : Prop :=
  ∀ e, e ∈ x.events → p e

/-- The last part of the constructor, run once `waitForServiceSync` has returned
true (lines 221 to 236). -/
def afterReady (env : Env) (w : MainWindow) : Run Unit := do
  loadWorkspaces env w
  requestVersion env w
  changeSystemPreAmp env w env.settings.main_volume 1
  processEvents env w

/-- The trace of the constructor up to the return of `waitForServiceSync`, for a
start-up whose ports validate (`w` is the window `initAndCheckPorts` returns) and
whose server process spawns: port resolution, the init script, the launch, the
construction of the transport, `honourPrefs`, then the boot synchroniser. -/
def bootTrace (env : Env) (w : MainWindow) : List Event :=
  (initAndCheckPorts env (initialWindow env)).events ++
    .runScript w.init_script_path :: (startRubyServer env w).events ++
    .createTransport :: (honourPrefs env { w with sonicPiOSCServer := true }).events ++
    (waitForServiceSync env { w with sonicPiOSCServer := true }).events

/-- The arguments of a launch of the server process. -/
def Event.launchArgs? : Event → Option (List String)
  | .launchServer args => some args
  | _ => none

/-- The message of a send. -/
def Event.message? : Event → Option Message
  | .send m => some m
  | _ => none

/-- The nine ports `startRubyServer` hands to the server process, in order. -/
def serverPorts (w : MainWindow) : List Int :=
  [w.server_listen_to_gui_port, w.server_send_to_gui_port, w.scsynth_port,
   w.scsynth_send_port, w.server_osc_cues_port, w.erlang_router_port,
   w.osc_midi_out_port, w.osc_midi_in_port, w.websocket_port]

/-- The addresses of the messages `honourPrefs` sends. -/
def prefsAddresses : List String :=
  ["/enable-update-checking", "/disable-update-checking", "/midi-start", "/midi-stop",
   "/osc-port-start", "/osc-port-stop"]

/-- The addresses of the messages the constructor sends once the server is ready. -/
def readyAddresses : List String := ["/load-buffer", "/version", "/mixer-amp"]

/-- The message that asks the server to exit. -/
def exitMessage (w : MainWindow) : Message := ⟨"/exit", [.str w.guiID]⟩

/-- Two calls of `onExitCleanup` in a row, each finding the widgets and the
server process in a state of its own. -/
def onExitCleanupTwice (env : Env) (first second : Gui) (w : MainWindow) : Run Unit := do
  onExitCleanup env first w
  onExitCleanup env second w

/-- A sequence of calls of `invokeStartupError`, one for each message of the list. -/
def invokeStartupErrorSeq (w : MainWindow) : List String → Run MainWindow
  | [] => pure w
  | msg :: rest => do
    let w ← invokeStartupError w msg
    invokeStartupErrorSeq w rest

/-- The message `runCode` builds for the current widget. -/
def saveAndRunMessage (env : Env) (gui : Gui) (w : MainWindow) : Message :=
  ⟨"/save-and-run-buffer",
    [.str w.guiID, .str gui.currentWidget.fileName,
     .str (codeWithPreferences env.settings gui.currentWidget.text),
     .str gui.currentWidget.fileName]⟩

/-- The end of every preference line, before its line break. -/
def nosaveMarker : String := "#__nosave__ set by Qt GUI user preferences."

/-- The preference lines in the order in which they stand in the text sent: the
line of the MIDI defaults, then one line each for timing guarantees, external
synths, argument checks, cue logging switched off and debug output switched off,
each present when its setting asks for it. -/
def preferenceLines (s : Settings) : List String :=
  ("use_midi_defaults channel: \"" ++ s.midi_default_channel_str ++
      "\" #__nosave__ set by Qt GUI user preferences.\n") ::
  ((if s.synth_trigger_timing_guarantees then
      ["use_timing_guarantees true #__nosave__ set by Qt GUI user preferences.\n"] else []) ++
   (if s.enable_external_synths then
      ["use_external_synths true #__nosave__ set by Qt GUI user preferences.\n"] else []) ++
   (if s.check_args then
      ["use_arg_checks true #__nosave__ set by Qt GUI user preferences.\n"] else []) ++
   (if s.log_cues then [] else
      ["use_cue_logging false #__nosave__ set by Qt GUI user preferences.\n"]) ++
   (if s.print_output then [] else
      ["use_debug false #__nosave__ set by Qt GUI user preferences.\n"]))

/-- An event on the transport object: its construction or its stop. -/
def isTransportEvent : Event → Bool
  | .createTransport => true
  | .stopTransport => true
  | _ => false

/-! ### Concrete start-up scenarios -/

/-- A start-up in which everything goes well: discovery yields the eleven roles
on free ports, the server spawns, the boot marker is in the log at the third
poll and the acknowledgment has arrived after the second tick. -/
def bootEnv : Env :=
  { guiID := "gui-0001"
    root_path := "/opt/sonic-pi"
    home_path := "/home/pi"
    nativeRuby := true
    macOrWin := false
    homeDirWritable := true
    discovery :=
      ["gui-send-to-server: 4557", "gui-listen-to-server: 4558", "server-listen-to-gui: 4559",
       "server-osc-cues: 4560", "server-send-to-gui: 4561", "scsynth: 4556",
       "scsynth-send: 4562", "erlang-router: 4563", "osc-midi-out: 4564",
       "osc-midi-in: 4565", "websocket: 4566"]
    sockOk := fun _ _ => true
    waitForStarted := true
    fsAtPoll := fun i _ =>
      if i < 2 then some "Booting Sonic Pi Server"
      else some "Booting Sonic Pi Server\nSonic Pi Server successfully booted.\n"
    fsAtError := fun _ => none
    server_started := fun t => decide (2 ≤ t)
    osc_incoming_port_open := fun _ => true
    oscSend := fun _ => true
    settings :=
      { check_updates := true
        midi_enabled := true
        osc_server_enabled := false
        osc_public := false
        main_volume := 80
        mixer_invert_stereo := false
        mixer_force_mono := false
        print_output := true
        log_cues := false
        check_args := true
        enable_external_synths := false
        synth_trigger_timing_guarantees := false
        midi_default_channel_str := "*"
        auto_indent_on_run := true
        clear_output_on_run := true }
    workspace_max := 10 }

/-- The window of `bootEnv` at the call of `waitForServiceSync`: ports assigned,
transport constructed, no start-up error queued. -/
def bootWindow : MainWindow :=
  { assignPorts (initialWindow bootEnv) (parsedMap [] bootEnv.discovery) with
    sonicPiOSCServer := true }

/-- As `bootEnv`, but discovery pins the role `scsynth` to port 80. -/
def lowPortEnv : Env :=
  { bootEnv with
    discovery :=
      ["gui-send-to-server: 4557", "gui-listen-to-server: 4558", "server-listen-to-gui: 4559",
       "server-osc-cues: 4560", "server-send-to-gui: 4561", "scsynth: 80",
       "scsynth-send: 4562", "erlang-router: 4563", "osc-midi-out: 4564",
       "osc-midi-in: 4565", "websocket: 4566"] }

/-- The window of `lowPortEnv` after port resolution. -/
def lowPortWindow : MainWindow :=
  assignPorts (initialWindow lowPortEnv) (parsedMap [] lowPortEnv.discovery)

/-- As `bootEnv`, but the discovery output has no line for the role `websocket`. -/
def missingRoleEnv : Env :=
  { bootEnv with
    discovery :=
      ["gui-send-to-server: 4557", "gui-listen-to-server: 4558", "server-listen-to-gui: 4559",
       "server-osc-cues: 4560", "server-send-to-gui: 4561", "scsynth: 4556",
       "scsynth-send: 4562", "erlang-router: 4563", "osc-midi-out: 4564",
       "osc-midi-in: 4565"] }

/-- As `bootEnv`, but the number on the line of `scsynth` does not fit an `int`. -/
def hugePortEnv : Env :=
  { bootEnv with
    discovery :=
      ["gui-send-to-server: 4557", "gui-listen-to-server: 4558", "server-listen-to-gui: 4559",
       "server-osc-cues: 4560", "server-send-to-gui: 4561", "scsynth: 2147483648",
       "scsynth-send: 4562", "erlang-router: 4563", "osc-midi-out: 4564",
       "osc-midi-in: 4565", "websocket: 4566"] }

/-- As `bootEnv`, but the server process cannot be spawned and the home directory
is not writable. -/
def spawnFailureEnv : Env :=
  { bootEnv with waitForStarted := false, homeDirWritable := false }

/-- A line without surrounding whitespace as an `Entry`. -/
def plainEntry (role digits : String) : Entry :=
  ⟨[], role.data, [], [], digits.data, []⟩

/-- Eleven well-formed entries, two of them with whitespace around the fields, and
`scsynth` given twice. -/
def paddedEntries : List Entry :=
  [plainEntry "gui-send-to-server" "4557", plainEntry "gui-listen-to-server" "4558",
   plainEntry "server-listen-to-gui" "4559", plainEntry "server-osc-cues" "4560",
   plainEntry "server-send-to-gui" "4561", plainEntry "scsynth" "9999",
   ⟨" ".data, "scsynth".data, " \t".data, "  ".data, "4556".data, " ".data⟩,
   plainEntry "scsynth-send" "4562", plainEntry "erlang-router" "4563",
   plainEntry "osc-midi-out" "4564", plainEntry "osc-midi-in" "4565",
   ⟨[], "websocket".data, [], " ".data, "04566".data, []⟩]

/-- As `bootEnv`, with the lines of `paddedEntries` as discovery output. -/
def paddedEnv : Env :=
  { bootEnv with discovery := paddedEntries.map Entry.line }

/-- As `bootEnv`, but the server output log never shows the boot marker. -/
def markerNeverEnv : Env :=
  { bootEnv with fsAtPoll := fun _ _ => some "Booting Sonic Pi Server" }

/-- As `bootEnv`, but the server never acknowledges the pings. -/
def ackNeverEnv : Env :=
  { bootEnv with server_started := fun _ => false }

/-- The window of `bootEnv` at the call of `waitForServiceSync` when the home
directory is not writable. -/
def degradedWindow : MainWindow :=
  { bootWindow with homeDirWritable := false }

/-- An editor widget with a few lines of code. -/
def demoWorkspace : Workspace :=
  { fileName := "workspace_zero"
    text := "play 60\nsleep 1\n"
    point_line := 1
    point_index := 0
    hasSelectedText := false
    selection_start_line := 0
    selection_finish_line := 0
    firstVisibleLine := 0
    isListActive := false }

/-- The widgets at shutdown while the server process is still running. -/
def runningGui : Gui :=
  { currentWidget := demoWorkspace
    workspaces := fun _ => demoWorkspace
    saveFileName := ""
    serverNotRunning := false }

/-- The widgets at a later shutdown call, the server process having exited. -/
def stoppedGui : Gui :=
  { runningGui with serverNotRunning := true }

/-- The window of `spawnFailureEnv` at the call of `startRubyServer`: ports
assigned, the transport not constructed yet. -/
def spawnFailureWindow : MainWindow :=
  assignPorts (initialWindow spawnFailureEnv) (parsedMap [] spawnFailureEnv.discovery)

/-- Ten tabs, the last one current. -/
def lastTab : Tabs := { count := 10, currentIndex := 9 }

/-- An event that raises the start-up error, directly or through the event queue. -/
def isStartupErrorEvent : Event → Bool
  | .startupError _ _ => true
  | .queueStartupError _ => true
  | _ => false

/-! ## Part 2: lemmas -/

/-! ### The `Run` monad and the basic calls -/

theorem run_bind {α β : Type} (x : Run α) (f : α → Run β) : (x >>= f) = Run.bind x f := rfl

theorem run_pure {α : Type} (a : α) : (pure a : Run α) = ⟨[], .ret a⟩ := rfl

theorem checkPort_outcome (port : Int) (sockOk : Bool) :
    (checkPort port sockOk).outcome = .ret (decide (1024 ≤ port) && sockOk) := by
  unfold checkPort
  by_cases h : port < 1024
  · simp [run_bind, Run.bind, emit, run_pure, h, not_le.mpr h]
  · cases sockOk <;> simp [run_bind, Run.bind, emit, run_pure, h, not_lt.mp h]

theorem processEvents_idle (env : Env) (w : MainWindow) (hq : w.queued = []) :
    processEvents env w = ⟨[.processEvents], .ret ()⟩ := by
  simp [processEvents, hq, run_bind, Run.bind, emit, run_pure]

theorem readFile_eq (fs : String → Option String) (name : String) :
    readFile fs name = ⟨[.readFile name], .ret ((fs name).getD "")⟩ := by
  unfold readFile
  cases h : fs name <;> simp [run_bind, Run.bind, emit, run_pure, h]

/-! ### The two loops of the boot synchroniser -/

/-- A bounded search that misses at `i` goes on from `i + 1`. -/
theorem exists_shift (P : Nat → Prop) (i n : Nat) (h0 : ¬ P i) :
    (∃ j, j < n + 1 ∧ P (i + j)) ↔ ∃ j, j < n ∧ P (i + 1 + j) := by
  constructor
  · rintro ⟨j, hj, hP⟩
    cases j with
    | zero => exact absurd hP h0
    | succ j => exact ⟨j, by omega, by rwa [show i + 1 + j = i + (j + 1) by omega]⟩
  · rintro ⟨j, hj, hP⟩
    exact ⟨j + 1, by omega, by rwa [show i + (j + 1) = i + 1 + j by omega]⟩

/-- The same for an inclusive bound. -/
theorem exists_le_shift (P : Nat → Prop) (i n : Nat) (h0 : ¬ P i) :
    (∃ j, j ≤ n + 1 ∧ P (i + j)) ↔ ∃ j, j ≤ n ∧ P (i + 1 + j) := by
  constructor
  · rintro ⟨j, hj, hP⟩
    cases j with
    | zero => exact absurd hP h0
    | succ j => exact ⟨j, by omega, by rwa [show i + 1 + j = i + (j + 1) by omega]⟩
  · rintro ⟨j, hj, hP⟩
    exact ⟨j + 1, by omega, by rwa [show i + (j + 1) = i + 1 + j by omega]⟩

/-- With nothing queued, the polling loop returns whether one of its `n` polls
finds the marker. -/
theorem pollLog_outcome (env : Env) (w : MainWindow) (hq : w.queued = []) (n i : Nat) :
    (pollLog env w n i).outcome = .ret (decide (∃ j, j < n ∧ markerAt env w (i + j) = true)) := by
  induction n generalizing i with
  | zero => simp [pollLog, run_pure]
  | succ n ih =>
    unfold pollLog
    simp only [processEvents_idle env w hq, readFile_eq, run_bind, Run.bind]
    by_cases h : markerAt env w i = true
    · have hex : ∃ j, j < n + 1 ∧ markerAt env w (i + j) = true := ⟨0, by omega, by simpa using h⟩
      have h2 : contains ((env.fsAtPoll i w.server_output_log_path).getD "") bootMarker = true := h
      simp [h2, hex, run_pure]
    · have h2 : ¬ contains ((env.fsAtPoll i w.server_output_log_path).getD "") bootMarker = true := h
      rw [if_neg h2]
      simp only [emit, ih (i + 1)]
      congr 1
      exact decide_eq_decide.mpr (exists_shift (fun k => markerAt env w k = true) i n h).symm

/-- The ping loop always returns, and at the tick it returns the server-started
flag is set exactly when it was set at some tick of the countdown. -/
theorem pingLoop_outcome (env : Env) (w : MainWindow) (n t0 : Nat) :
    ∃ t, (pingLoop env w n t0).outcome = .ret t ∧
      (env.server_started t = true ↔ ∃ j, j ≤ n ∧ env.server_started (t0 + j) = true) := by
  induction n generalizing t0 with
  | zero =>
    refine ⟨t0, by simp [pingLoop, run_pure], ?_⟩
    constructor
    · intro h; exact ⟨0, le_refl _, by simpa using h⟩
    · rintro ⟨j, hj, h⟩
      have : j = 0 := by omega
      subst this; simpa using h
  | succ n ih =>
    unfold pingLoop
    by_cases h : env.server_started t0 = true
    · refine ⟨t0, by simp [waitForServer, h, run_pure], ?_⟩
      constructor
      · intro _; exact ⟨0, by omega, by simpa using h⟩
      · intro _; exact h
    · obtain ⟨t, ht, hiff⟩ := ih (t0 + 1)
      refine ⟨t, ?_, ?_⟩
      · have hs : env.server_started t0 = false := by simpa using h
        simp only [waitForServer, hs, Bool.not_false, if_true]
        by_cases ho : isIncomingPortOpen env (t0 + 1) = true
        · simp [ho, run_bind, Run.bind, emit, sendOSC, run_pure, ht]
        · simp [ho, run_bind, Run.bind, emit, run_pure, ht]
      · rw [hiff]
        exact (exists_le_shift (fun k => env.server_started k = true) t0 n h).symm

/-- With the transport constructed, `invokeStartupError` returns. -/
theorem invokeStartupError_outcome (w : MainWindow) (msg : String) (hT : w.sonicPiOSCServer = true) :
    ∃ w2, (invokeStartupError w msg).outcome = .ret w2 := by
  unfold invokeStartupError
  by_cases h : w.startup_error_reported = true
  · exact ⟨w, by simp [h, run_pure]⟩
  · simp [h, hT, run_bind, Run.bind, emit, run_pure]

/-- The value returned by `waitForServiceSync`, by cases on the readiness condition. -/
theorem waitForServiceSync_outcome (env : Env) (w : MainWindow)
    (hT : w.sonicPiOSCServer = true) (hq : w.queued = []) :
    (((markerObserved env w ∨ w.homeDirWritable = false) ∧ ackObserved env) →
      ∃ w2, (waitForServiceSync env w).outcome = .ret (true, w2)) ∧
    (¬ ((markerObserved env w ∨ w.homeDirWritable = false) ∧ ackObserved env) →
      ∃ w2, (waitForServiceSync env w).outcome = .ret (false, w2)) := by
  obtain ⟨t, ht, hiff⟩ := pingLoop_outcome env w 60 0
  have hack : env.server_started t = true ↔ ackObserved env := by
    rw [hiff]; unfold ackObserved; simp
  have hpoll := pollLog_outcome env w hq 60 0
  simp only [Nat.zero_add] at hpoll
  obtain ⟨wa, hwa⟩ := invokeStartupError_outcome w "Critical error! - Could not boot Sonic Pi Server." hT
  obtain ⟨wb, hwb⟩ := invokeStartupError_outcome w "Critical server error - could not connect to Sonic Pi Server!" hT
  unfold waitForServiceSync
  by_cases hw : w.homeDirWritable = false
  · by_cases hs : env.server_started t = true
    · have hc := hack.mp hs
      simp [hw, hT, hs, hc, ht, hwb, run_bind, Run.bind, emit, run_pure, isServerStarted]
    · have hc : ¬ ackObserved env := fun h => hs (hack.mpr h)
      simp [hw, hT, hs, hc, ht, hwb, run_bind, Run.bind, emit, run_pure, isServerStarted]
  · by_cases hm : markerObserved env w
    · have hm2 : (∃ j, j < 60 ∧ markerAt env w j = true) := hm
      by_cases hs : env.server_started t = true
      · have hc := hack.mp hs
        simp [hw, hT, hs, hc, ht, hwb, hm, hm2, hpoll, run_bind, Run.bind, emit, run_pure, isServerStarted]
      · have hc : ¬ ackObserved env := fun h => hs (hack.mpr h)
        simp [hw, hT, hs, hc, ht, hwb, hm, hm2, hpoll, run_bind, Run.bind, emit, run_pure, isServerStarted]
    · have hm2 : ¬ (∃ j, j < 60 ∧ markerAt env w j = true) := hm
      simp [hw, hT, hwa, hm, hm2, hpoll, run_bind, Run.bind, emit, run_pure]

/-! ### The port map and the parsing loop -/

/-- Reading after an assignment. -/
theorem PortMap.get_set (m : PortMap) (k k2 : String) (v : Int) :
    (PortMap.set m k v).get k2 = if k = k2 then v else m.get k2 := by
  induction m with
  | nil => simp [PortMap.set, PortMap.get]
  | cons kv rest ih =>
    obtain ⟨a, b⟩ := kv
    by_cases h : a = k
    · subst h
      by_cases h2 : a = k2 <;> simp [PortMap.set, PortMap.get, h2]
    · by_cases h2 : a = k2
      · subst h2
        have h3 : ¬ k = a := fun e => h e.symm
        simp [PortMap.set, PortMap.get, h, h3]
      · simp [PortMap.set, PortMap.get, h, h2, ih]

/-- One round of the parsing loop as a pure update of the map. -/
theorem parsePortLine_eq (m : PortMap) (line : String) (h : 2 ≤ (split line ": ").length) :
    parsePortLine m line = ⟨[], .ret (m.set (lineRole line) (toInt (lineNumber line)))⟩ := by
  unfold parsePortLine lineRole lineNumber
  match hs : split line ": " with
  | [] => simp [hs] at h
  | [_] => simp [hs] at h
  | p0 :: p1 :: rest => simp [run_pure]

/-- A line with fewer than two fields makes the round index a missing field. -/
theorem parsePortLine_undefined (m : PortMap) (line : String) (h : ¬ 2 ≤ (split line ": ").length) :
    parsePortLine m line = ⟨[], .undefined⟩ := by
  unfold parsePortLine
  match hs : split line ": " with
  | [] => rfl
  | [_] => rfl
  | p0 :: p1 :: rest => simp [hs] at h

theorem parsedMap_nil (m : PortMap) : parsedMap m [] = m := rfl

theorem parsedMap_cons (m : PortMap) (l : String) (rest : List String) :
    parsedMap m (l :: rest) = parsedMap (m.set (lineRole l) (toInt (lineNumber l))) rest := rfl

theorem parsedMap_append (m : PortMap) (xs ys : List String) :
    parsedMap m (xs ++ ys) = parsedMap (parsedMap m xs) ys := by
  simp [parsedMap, List.foldl_append]

/-- The parsing loop on lines that all have two or more fields. -/
theorem parsePortLines_eq (m : PortMap) (lines : List String)
    (h : ∀ l ∈ lines, 2 ≤ (split l ": ").length) :
    parsePortLines m lines = ⟨[], .ret (parsedMap m lines)⟩ := by
  induction lines generalizing m with
  | nil => simp [parsePortLines, run_pure, parsedMap_nil]
  | cons l rest ih =>
    have h1 := h l (List.mem_cons_self _ _)
    have h2 : ∀ x ∈ rest, 2 ≤ (split x ": ").length := fun x hx => h x (List.mem_cons_of_mem _ hx)
    simp [parsePortLines, parsePortLine_eq m l h1, run_bind, Run.bind, ih _ h2, parsedMap_cons]

/-- The parsing loop returns only when every line has two or more fields. -/
theorem parsePortLines_ret (m m2 : PortMap) (lines : List String)
    (h : (parsePortLines m lines).outcome = .ret m2) :
    (∀ l ∈ lines, 2 ≤ (split l ": ").length) := by
  induction lines generalizing m with
  | nil => simp
  | cons l rest ih =>
    by_cases h1 : 2 ≤ (split l ": ").length
    · simp only [parsePortLines, parsePortLine_eq m l h1, run_bind, Run.bind] at h
      intro x hx
      rcases List.mem_cons.mp hx with rfl | hx
      · exact h1
      · exact ih _ h x hx
    · simp [parsePortLines, parsePortLine_undefined m l h1, run_bind, Run.bind] at h

/-- The parsing loop either returns a map or indexes a missing field. -/
theorem parsePortLines_outcome_cases (m : PortMap) (lines : List String) :
    (parsePortLines m lines).outcome = .undefined ∨
    ∃ m2, (parsePortLines m lines).outcome = .ret m2 := by
  induction lines generalizing m with
  | nil => right; exact ⟨m, by simp [parsePortLines, run_pure]⟩
  | cons l rest ih =>
    by_cases h1 : 2 ≤ (split l ": ").length
    · simp only [parsePortLines, parsePortLine_eq m l h1, run_bind, Run.bind]
      exact ih _
    · left
      simp [parsePortLines, parsePortLine_undefined m l h1, run_bind, Run.bind]

/-- A key that no line carries keeps its entry. -/
theorem get_foldl_absent (m : PortMap) (lines : List String) (r : String)
    (h : ∀ l ∈ lines, lineRole l ≠ r) :
    (parsedMap m lines).get r = m.get r := by
  induction lines generalizing m with
  | nil => rfl
  | cons l rest ih =>
    have h1 := h l (List.mem_cons_self _ _)
    have h2 : ∀ x ∈ rest, lineRole x ≠ r := fun x hx => h x (List.mem_cons_of_mem _ hx)
    rw [parsedMap_cons, ih _ h2, PortMap.get_set, if_neg h1]

/-- The last line of a key decides its entry. -/
theorem get_foldl_last (m : PortMap) (pre post : List String) (l : String)
    (h : ∀ x ∈ post, lineRole x ≠ lineRole l) :
    (parsedMap m (pre ++ l :: post)).get
      (lineRole l) = toInt (lineNumber l) := by
  rw [parsedMap_append, parsedMap_cons, get_foldl_absent _ post _ h, PortMap.get_set, if_pos rfl]

/-! ### Well-formed lines -/

theorem isSpace_ne_colon (c : Char) (h : isSpace c = true) : c ≠ ':' := by
  rintro rfl
  revert h
  decide

theorem isDigit_ne_colon (c : Char) (h : isDigit c = true) : c ≠ ':' := by
  rintro rfl
  revert h
  decide

theorem isDigit_not_space (c : Char) (h : isDigit c = true) : isSpace c = false := by
  simp only [isDigit, Bool.and_eq_true, decide_eq_true_eq] at h
  simp only [isSpace, Bool.or_eq_false_iff, Bool.and_eq_false_imp, decide_eq_true_eq,
    decide_eq_false_iff_not]
  omega

/-- Text without a colon is a single field. -/
theorem splitGo_no_colon (l acc : List Char) (h : ∀ c ∈ l, c ≠ ':') :
    splitGo [':', ' '] l 0 acc = [acc.reverse ++ l] := by
  induction l generalizing acc with
  | nil => simp [splitGo]
  | cons c cs ih =>
    have hc : c ≠ ':' := h c (List.mem_cons_self _ _)
    have hcs : ∀ x ∈ cs, x ≠ ':' := fun x hx => h x (List.mem_cons_of_mem _ hx)
    have hp : ¬ ([':', ' '] <+: c :: cs) := by
      rintro ⟨t, ht⟩
      simp at ht
      exact hc ht.1.symm
    simp [splitGo, hp, ih _ hcs]

/-- Text with one separator and no other colon splits into two fields. -/
theorem splitGo_one_separator (a b acc : List Char) (ha : ∀ c ∈ a, c ≠ ':')
    (hb : ∀ c ∈ b, c ≠ ':') :
    splitGo [':', ' '] (a ++ ':' :: ' ' :: b) 0 acc = [acc.reverse ++ a, b] := by
  induction a generalizing acc with
  | nil =>
    have hp : [':', ' '] <+: ':' :: ' ' :: b := ⟨b, rfl⟩
    simp [splitGo, hp, splitGo_no_colon b [] hb]
  | cons c cs ih =>
    have hc : c ≠ ':' := ha c (List.mem_cons_self _ _)
    have hcs : ∀ x ∈ cs, x ≠ ':' := fun x hx => ha x (List.mem_cons_of_mem _ hx)
    have hp : ¬ ([':', ' '] <+: c :: (cs ++ ':' :: ' ' :: b)) := by
      rintro ⟨t, ht⟩
      simp at ht
      exact hc ht.1.symm
    simp [splitGo, hp, ih _ hcs]

theorem dropWhile_all {p : Char → Bool} (a b : List Char) (ha : ∀ c ∈ a, p c = true) :
    (a ++ b).dropWhile p = b.dropWhile p := by
  induction a with
  | nil => rfl
  | cons c cs ih =>
    have hc := ha c (List.mem_cons_self _ _)
    simp [List.dropWhile, hc, ih (fun x hx => ha x (List.mem_cons_of_mem _ hx))]

theorem dropWhile_head {p : Char → Bool} (b : List Char) (hb : ∀ c, b.head? = some c → p c = false) :
    b.dropWhile p = b := by
  cases b with
  | nil => rfl
  | cons c cs => simp [List.dropWhile, hb c rfl]

/-- Trimming removes whitespace around a core that neither starts nor ends with it. -/
theorem trimmedChars_core (a core b : List Char) (ha : ∀ c ∈ a, isSpace c = true)
    (hb : ∀ c ∈ b, isSpace c = true) (hh : ∀ c, core.head? = some c → isSpace c = false)
    (hl : ∀ c, core.getLast? = some c → isSpace c = false) :
    trimmedChars (a ++ core ++ b) = core := by
  unfold trimmedChars
  rw [List.append_assoc, dropWhile_all a _ ha]
  by_cases hcore : core = []
  · subst hcore
    have h1 : b.dropWhile isSpace = [] := by
      have h2 := dropWhile_all (p := isSpace) b [] hb
      rw [List.append_nil] at h2
      rw [h2]; rfl
    rw [List.nil_append, h1]; rfl
  · have h1 : (core ++ b).dropWhile isSpace = core ++ b := by
      apply dropWhile_head
      intro c hc
      cases core with
      | nil => exact absurd rfl hcore
      | cons x xs => exact hh c (by simpa using hc)
    rw [h1, List.reverse_append, dropWhile_all b.reverse _ (fun c hc => hb c (List.mem_reverse.mp hc))]
    rw [dropWhile_head, List.reverse_reverse]
    intro c hc
    apply hl c
    rw [List.head?_reverse] at hc
    exact hc

theorem isDigits_all {ds : List Char} (h : isDigits ds = true) : ∀ c ∈ ds, isDigit c = true := by
  simp only [isDigits, Bool.and_eq_true, List.all_eq_true] at h
  exact h.2

theorem isDigits_ne_nil {ds : List Char} (h : isDigits ds = true) : ds ≠ [] := by
  rintro rfl
  simp [isDigits] at h

theorem Entry.split_line (e : Entry) (h : e.WellFormed) :
    split e.line ": " = [⟨e.lead ++ e.role ++ e.gap⟩, ⟨e.pad ++ e.digits ++ e.trail⟩] := by
  obtain ⟨h1, h2, h3, h4, h5, _, _, h8⟩ := h
  have ha : ∀ c ∈ e.lead ++ e.role ++ e.gap, c ≠ ':' := by
    intro c hc
    simp only [List.mem_append] at hc
    rcases hc with (hc | hc) | hc
    · exact isSpace_ne_colon c (h1 c hc)
    · exact h5 c hc
    · exact isSpace_ne_colon c (h2 c hc)
  have hb : ∀ c ∈ e.pad ++ e.digits ++ e.trail, c ≠ ':' := by
    intro c hc
    simp only [List.mem_append] at hc
    rcases hc with (hc | hc) | hc
    · exact isSpace_ne_colon c (h3 c hc)
    · exact isDigit_ne_colon c (isDigits_all h8 c hc)
    · exact isSpace_ne_colon c (h4 c hc)
  have hl : e.line.data = (e.lead ++ e.role ++ e.gap) ++ ':' :: ' ' :: (e.pad ++ e.digits ++ e.trail) := by
    simp [Entry.line]
  have hsep : (": " : String).data = [':', ' '] := rfl
  unfold split
  rw [hl, hsep, splitGo_one_separator _ _ [] ha hb]
  simp

theorem Entry.lineRole_line (e : Entry) (h : e.WellFormed) : lineRole e.line = ⟨e.role⟩ := by
  unfold lineRole
  rw [Entry.split_line e h]
  obtain ⟨h1, h2, _, _, _, h6, h7, _⟩ := h
  simp only [List.headD_cons, trimmed]
  rw [trimmedChars_core e.lead e.role e.gap h1 h2 h6 h7]

theorem Entry.lineNumber_line (e : Entry) (h : e.WellFormed) : lineNumber e.line = ⟨e.digits⟩ := by
  unfold lineNumber
  rw [Entry.split_line e h]
  obtain ⟨_, _, h3, h4, _, _, _, h8⟩ := h
  have hne := isDigits_ne_nil h8
  have hh : ∀ c, e.digits.head? = some c → isSpace c = false := fun c hc =>
    isDigit_not_space c (isDigits_all h8 c (List.mem_of_mem_head? hc))
  have hl : ∀ c, e.digits.getLast? = some c → isSpace c = false := fun c hc =>
    isDigit_not_space c (isDigits_all h8 c (List.mem_of_getLast?_eq_some hc))
  simp only [List.getD_cons_succ, List.getD_cons_zero, trimmed]
  rw [trimmedChars_core e.pad e.digits e.trail h3 h4 hh hl]

/-- The conversion of a run of digits: its value when it fits an `int`, else 0. -/
theorem toInt_digits (ds : List Char) (h : isDigits ds = true) :
    toInt ⟨ds⟩ = if decVal ds < 2 ^ 31 then (decVal ds : Int) else 0 := by
  have hall := isDigits_all h
  unfold toInt
  split
  · rename_i ds2 heq
    simp only at heq
    have := hall '-' (by rw [heq]; exact List.mem_cons_self _ _)
    exact absurd this (by decide)
  · rename_i ds2 heq
    simp only at heq
    have := hall '+' (by rw [heq]; exact List.mem_cons_self _ _)
    exact absurd this (by decide)
  · simp [h]

/-- The conversion of anything that is not a decimal integer answers 0. -/
theorem toInt_not_decimal (s : String) (h : isDecimalInt s.data = false) : toInt s = 0 := by
  unfold toInt
  unfold isDecimalInt at h
  split
  · rename_i ds heq
    rw [heq] at h
    simp at h
    simp [h]
  · rename_i ds heq
    rw [heq] at h
    simp at h
    simp [h]
  · rename_i ds h1 h2
    split at h
    · rename_i ds2 heq; exact absurd heq (h1 ds2)
    · rename_i ds2 heq; exact absurd heq (h2 ds2)
    · simp [h]

/-! ### Validation -/

/-- The trace and the result of one probe. -/
theorem checkPort_eq (port : Int) (sockOk : Bool) :
    checkPort port sockOk =
      ⟨[.bindTo port, .portStatus port (decide (1024 ≤ port) && sockOk)],
        .ret (decide (1024 ≤ port) && sockOk)⟩ := by
  unfold checkPort
  by_cases h : port < 1024
  · simp [run_bind, Run.bind, emit, run_pure, h, not_le.mpr h]
  · cases sockOk <;> simp [run_bind, Run.bind, emit, run_pure, h, not_lt.mp h]

theorem probePasses_eq (env : Env) (kp : Nat × Int) :
    probePasses env kp = (decide (1024 ≤ kp.2) && env.sockOk kp.1 kp.2) := by
  unfold probePasses
  rw [checkPort_eq]
  by_cases h : 1024 ≤ kp.2 <;> cases env.sockOk kp.1 kp.2 <;> simp [h]

/-- The call of `startupError` reads the logs, shows the box and ends the process. -/
theorem startupError_eq (env : Env) (w : MainWindow) (msg : String) :
    ∃ report, startupError env w msg =
      ⟨startupErrorReads w ++ [.startupError msg report], .exited⟩ := by
  unfold startupError startupErrorReads
  by_cases h : w.homeDirWritable = true
  · simp [h, readFile_eq, run_bind, Run.bind, emit, run_pure, exitProcess]
  · simp [h, run_bind, Run.bind, emit, run_pure, exitProcess]

/-- The trace and the outcome of the eleven probes. -/
theorem validatePorts_eq (env : Env) (w : MainWindow) :
    ∃ report, validatePorts env w =
      if (probeOrder w).all (probePasses env) then
        ⟨((probeOrder w).map (probeReport env)).flatten, .ret true⟩
      else
        ⟨((probeOrder w).map (probeReport env)).flatten ++ (startupErrorReads w ++
          [.startupError portsErrorMessage report]), .exited⟩ := by
  obtain ⟨report, hr⟩ := startupError_eq env w portsErrorMessage
  refine ⟨report, ?_⟩
  simp only [portsErrorMessage] at hr
  cases hB : (probeOrder w).all (probePasses env)
  · simp only [probeOrder, List.all, probePasses_eq, Bool.and_true, Bool.and_assoc] at hB
    unfold validatePorts
    simp only [checkPort_eq, probeOrder, probeReport, probePasses_eq, run_bind, Run.bind,
      List.map, List.flatten, Bool.and_assoc, hB, hr, portsErrorMessage]
    simp
  · simp only [probeOrder, List.all, probePasses_eq, Bool.and_true, Bool.and_assoc] at hB
    unfold validatePorts
    simp only [checkPort_eq, probeOrder, probeReport, probePasses_eq, run_bind, Run.bind,
      List.map, List.flatten, Bool.and_assoc, hB, hr, portsErrorMessage]
    simp [run_pure]

/-- Port resolution on lines that all have two or more fields. -/
theorem resolvePorts_eq (env : Env) (w : MainWindow)
    (h : ∀ l ∈ env.discovery, 2 ≤ (split l ": ").length) :
    resolvePorts env w = ⟨[.runScript w.port_discovery_path],
      .ret (assignPorts w (parsedMap w.port_map env.discovery))⟩ := by
  simp [resolvePorts, parsePortLines_eq _ _ h, run_bind, Run.bind, emit, run_pure]

theorem resolvePorts_ret (env : Env) (w w1 : MainWindow)
    (h : (resolvePorts env w).outcome = .ret w1) :
    (∀ l ∈ env.discovery, 2 ≤ (split l ": ").length) ∧
    w1 = assignPorts w (parsedMap w.port_map env.discovery) := by
  have hlines : ∀ l ∈ env.discovery, 2 ≤ (split l ": ").length := by
    rcases parsePortLines_outcome_cases w.port_map env.discovery with hu | ⟨m2, hm2⟩
    · simp [resolvePorts, run_bind, Run.bind, emit, hu] at h
    · exact parsePortLines_ret _ _ _ hm2
  refine ⟨hlines, ?_⟩
  rw [resolvePorts_eq env w hlines] at h
  simp at h
  exact h.symm

theorem resolvePorts_undefined (env : Env) (w : MainWindow)
    (h : ¬ ∀ l ∈ env.discovery, 2 ≤ (split l ": ").length) :
    resolvePorts env w = ⟨[.runScript w.port_discovery_path], .undefined⟩ := by
  rcases parsePortLines_outcome_cases w.port_map env.discovery with hu | ⟨m2, hm2⟩
  · have he : (parsePortLines w.port_map env.discovery).events = [] := by
      generalize w.port_map = m
      induction env.discovery generalizing m with
      | nil => rfl
      | cons l rest ih =>
        by_cases h1 : 2 ≤ (split l ": ").length
        · simp [parsePortLines, parsePortLine_eq m l h1, run_bind, Run.bind, ih]
        · simp [parsePortLines, parsePortLine_undefined m l h1, run_bind, Run.bind]
    simp [resolvePorts, run_bind, Run.bind, emit, hu, he]
  · exact absurd (parsePortLines_ret _ _ _ hm2) h

/-- The trace and the outcome of `initAndCheckPorts` once parsing has returned. -/
theorem initAndCheckPorts_eq (env : Env) (w w1 : MainWindow)
    (h : (resolvePorts env w).outcome = .ret w1) :
    ∃ report, initAndCheckPorts env w =
      if (probeOrder w1).all (probePasses env) then
        ⟨.runScript w.port_discovery_path :: ((probeOrder w1).map (probeReport env)).flatten,
          .ret (true, w1)⟩
      else
        ⟨.runScript w.port_discovery_path :: (((probeOrder w1).map (probeReport env)).flatten ++
          (startupErrorReads w1 ++ [.startupError portsErrorMessage report])), .exited⟩ := by
  obtain ⟨hlines, hw1⟩ := resolvePorts_ret env w w1 h
  obtain ⟨report, hv⟩ := validatePorts_eq env w1
  refine ⟨report, ?_⟩
  unfold initAndCheckPorts
  rw [resolvePorts_eq env w hlines, ← hw1]
  simp only [run_bind, Run.bind, hv]
  by_cases hB : (probeOrder w1).all (probePasses env) = true
  · simp [hB, run_pure]
  · simp [hB]

theorem initAndCheckPorts_undefined (env : Env) (w : MainWindow)
    (h : ¬ ∀ l ∈ env.discovery, 2 ≤ (split l ": ").length) :
    initAndCheckPorts env w = ⟨[.runScript w.port_discovery_path], .undefined⟩ := by
  unfold initAndCheckPorts
  rw [resolvePorts_undefined env w h]
  simp [run_bind, Run.bind]

theorem probePasses_low (env : Env) (kp : Nat × Int) (h : kp.2 < 1024) :
    probePasses env kp = false := by
  rw [probePasses_eq]
  simp [not_le.mpr h]

theorem requiredPorts_probed (w : MainWindow) (rp : String × Int) (h : rp ∈ requiredPorts w) :
    ∃ kp ∈ probeOrder w, kp.2 = rp.2 := by
  simp only [requiredPorts, List.mem_cons, List.mem_singleton, List.not_mem_nil, or_false] at h
  rcases h with h | h | h | h | h | h | h | h | h | h | h <;> subst h <;> simp [probeOrder]

/-- A required port below 1024 makes one of the eleven probes fail. -/
theorem not_all_pass_of_low (env : Env) (w : MainWindow) (rp : String × Int)
    (h : rp ∈ requiredPorts w) (hlow : rp.2 < 1024) :
    ¬ ((probeOrder w).all (probePasses env) = true) := by
  obtain ⟨kp, hkp, he⟩ := requiredPorts_probed w rp h
  intro hall
  rw [List.all_eq_true] at hall
  have := hall kp hkp
  rw [probePasses_low env kp (by rw [he]; exact hlow)] at this
  exact Bool.false_ne_true this

theorem requiredPorts_assign (w : MainWindow) (m : PortMap) :
    requiredPorts (assignPorts w m) = requiredRoles.map (fun r => (r, m.get r)) := rfl

/-! ### Spawn failure -/

/-- When `initAndCheckPorts` returns, parsing has returned and the value is true. -/
theorem initAndCheckPorts_ret (env : Env) (w w1 : MainWindow) (b : Bool)
    (h : (initAndCheckPorts env w).outcome = .ret (b, w1)) :
    (resolvePorts env w).outcome = .ret w1 ∧ b = true := by
  by_cases hlines : ∀ l ∈ env.discovery, 2 ≤ (split l ": ").length
  · have hout : (resolvePorts env w).outcome =
        .ret (assignPorts w (parsedMap w.port_map env.discovery)) := by
      rw [resolvePorts_eq env w hlines]
    obtain ⟨report, he⟩ := initAndCheckPorts_eq env w _ hout
    rw [he] at h
    split at h
    · simp only [Outcome.ret.injEq, Prod.mk.injEq] at h
      rw [hout, ← h.2]
      exact ⟨rfl, h.1.symm⟩
    · simp at h
  · rw [initAndCheckPorts_undefined env w hlines] at h
    simp at h

theorem number_name_some (i : Nat) (h : i < 10) : ∃ name, number_name i = some name := by
  interval_cases i <;> simp [number_name]

/-- The loop that names the editor widgets emits nothing. -/
theorem setupWindowStructureFrom_events (n i : Nat) :
    (setupWindowStructureFrom n i).events = [] := by
  induction n generalizing i with
  | zero => rfl
  | succ n ih =>
    unfold setupWindowStructureFrom
    cases hname : number_name i with
    | none => rfl
    | some name =>
      have h := ih (i + 1)
      simp only [run_bind, Run.bind]
      cases ho : (setupWindowStructureFrom n (i + 1)).outcome <;> simp [h, run_pure]

/-- As long as the indices stay below ten, the loop that names the editor widgets
returns one name per round. -/
theorem setupWindowStructureFrom_ret (n i : Nat) (h : i + n ≤ 10) :
    ∃ names, setupWindowStructureFrom n i = ⟨[], .ret names⟩ ∧ names.length = n := by
  induction n generalizing i with
  | zero => exact ⟨[], rfl, rfl⟩
  | succ n ih =>
    obtain ⟨name, hname⟩ := number_name_some i (by omega)
    obtain ⟨rest, hrest, hlen⟩ := ih (i + 1) (by omega)
    refine ⟨("workspace_" ++ name) :: rest, ?_, by simp [hlen]⟩
    unfold setupWindowStructureFrom
    simp [hname, hrest, run_bind, Run.bind, run_pure]

theorem setupWindowStructure_ret (env : Env) (hmax : env.workspace_max ≤ 10) :
    ∃ names, setupWindowStructure env = ⟨[], .ret names⟩ := by
  obtain ⟨names, h, _⟩ := setupWindowStructureFrom_ret env.workspace_max 0 (by omega)
  exact ⟨names, h⟩

/-- A spawn failure met with the transport pointer still `NULL` and no error
reported so far: `startRubyServer` runs into the null dereference of
`invokeStartupError`. -/
theorem startRubyServer_spawn_failure (env : Env) (w : MainWindow)
    (hn : w.sonicPiOSCServer = false) (hr : w.startup_error_reported = false)
    (hs : env.waitForStarted = false) :
    (startRubyServer env w).outcome = .undefined ∧
    (startRubyServer env w).events.any isStartupErrorEvent = false := by
  simp [startRubyServer, invokeStartupError, hn, hr, hs, run_bind, Run.bind, emit, run_pure,
    undefinedBehaviour, isStartupErrorEvent]

/-- Whenever the ports validate and the server cannot be spawned, the constructor
runs into undefined behaviour inside `startRubyServer`. -/
theorem ctor_spawn_failure (env : Env) (w1 : MainWindow)
    (h : (initAndCheckPorts env (initialWindow env)).outcome = .ret (true, w1))
    (hmax : env.workspace_max ≤ 10) (hs : env.waitForStarted = false) :
    (MainWindow_MainWindow env).outcome = .undefined := by
  obtain ⟨names, hnames⟩ := setupWindowStructure_ret env hmax
  obtain ⟨hres, _⟩ := initAndCheckPorts_ret env _ _ _ h
  obtain ⟨_, hw1⟩ := resolvePorts_ret env _ _ hres
  have hn : w1.sonicPiOSCServer = false := by rw [hw1]; rfl
  have hr : w1.startup_error_reported = false := by rw [hw1]; rfl
  have hu := (startRubyServer_spawn_failure env w1 hn hr hs).1
  unfold MainWindow_MainWindow
  simp [run_bind, Run.bind, h, hu, emit, hnames]

theorem mem_events_bind {α β : Type} (x : Run α) (f : α → Run β) (e : Event)
    (h : e ∈ (x >>= f).events) :
    e ∈ x.events ∨ ∃ a, x.outcome = .ret a ∧ e ∈ (f a).events := by
  rw [run_bind] at h
  unfold Run.bind at h
  cases hx : x.outcome with
  | ret a =>
    rw [hx] at h
    simp only [List.mem_append] at h
    rcases h with h | h
    · exact Or.inl h
    · exact Or.inr ⟨a, rfl, h⟩
  | exited => rw [hx] at h; exact Or.inl h
  | assertFailed => rw [hx] at h; exact Or.inl h
  | undefined => rw [hx] at h; exact Or.inl h

theorem sendsOnly_bind {α β : Type} {P : Message → Prop} {x : Run α} {f : α → Run β}
    (hx : SendsOnly P x) (hf : ∀ a, SendsOnly P (f a)) : SendsOnly P (x >>= f) := by
  intro m hm
  rcases mem_events_bind x f _ hm with h | ⟨a, _, h⟩
  · exact hx m h
  · exact hf a m h

theorem sendsOnly_pure {α : Type} {P : Message → Prop} (a : α) : SendsOnly P (pure a : Run α) := by
  intro m hm
  simp [run_pure] at hm

theorem sendsOnly_emit {P : Message → Prop} (e : Event) (h : isSendEvent e = false) :
    SendsOnly P (emit e) := by
  intro m hm
  simp only [emit, List.mem_singleton] at hm
  subst hm
  simp [isSendEvent] at h

theorem sendsOnly_sendOSC {P : Message → Prop} (env : Env) (m : Message) (h : P m) :
    SendsOnly P (sendOSC env m) := by
  intro m2 hm
  simp [sendOSC, run_bind, Run.bind, emit, run_pure] at hm
  rw [hm]; exact h

theorem sendsOnly_nil {α : Type} {P : Message → Prop} (o : Outcome α) :
    SendsOnly P (⟨[], o⟩ : Run α) := by
  intro m hm
  simp at hm

theorem sendsOnly_mono {α : Type} {P Q : Message → Prop} {x : Run α}
    (h : SendsOnly P x) (hpq : ∀ m, P m → Q m) : SendsOnly Q x :=
  fun m hm => hpq m (h m hm)

theorem sendsOnly_startupError {P : Message → Prop} (env : Env) (w : MainWindow) (msg : String) :
    SendsOnly P (startupError env w msg) := by
  obtain ⟨report, h⟩ := startupError_eq env w msg
  rw [h]
  intro m hm
  simp only [List.mem_append, List.mem_singleton] at hm
  rcases hm with hm | hm
  · unfold startupErrorReads at hm
    split at hm <;> simp at hm
  · cases hm

theorem sendsOnly_invokeStartupError {P : Message → Prop} (w : MainWindow) (msg : String) :
    SendsOnly P (invokeStartupError w msg) := by
  unfold invokeStartupError
  try dsimp only
  repeat' first
    | exact sendsOnly_pure _
    | exact sendsOnly_nil _
    | exact sendsOnly_emit _ rfl
    | refine sendsOnly_bind ?_ (fun _ => ?_)
    | split

theorem sendsOnly_processEvents {P : Message → Prop} (env : Env) (w : MainWindow) :
    SendsOnly P (processEvents env w) := by
  unfold processEvents
  refine sendsOnly_bind (sendsOnly_emit _ rfl) (fun _ => ?_)
  split
  · exact sendsOnly_pure _
  · exact sendsOnly_startupError env w _

theorem sendsOnly_readFile {P : Message → Prop} (fs : String → Option String) (name : String) :
    SendsOnly P (readFile fs name) := by
  rw [readFile_eq]
  intro m hm
  simp at hm

theorem sendsOnly_pollLog {P : Message → Prop} (env : Env) (w : MainWindow) (n i : Nat) :
    SendsOnly P (pollLog env w n i) := by
  induction n generalizing i with
  | zero => exact sendsOnly_pure _
  | succ n ih =>
    unfold pollLog
    try dsimp only
    repeat' first
      | exact sendsOnly_pure _
      | exact sendsOnly_emit _ rfl
      | exact sendsOnly_processEvents _ _
      | exact sendsOnly_readFile _ _
      | exact ih _
      | refine sendsOnly_bind ?_ (fun _ => ?_)
      | split

theorem sendsOnly_pingLoop (env : Env) (w : MainWindow) (n t : Nat) :
    SendsOnly (fun m => m = pingMessage w) (pingLoop env w n t) := by
  induction n generalizing t with
  | zero => exact sendsOnly_pure _
  | succ n ih =>
    unfold pingLoop
    try dsimp only
    repeat' first
      | exact sendsOnly_pure _
      | exact sendsOnly_emit _ rfl
      | exact sendsOnly_sendOSC _ _ rfl
      | exact ih _
      | refine sendsOnly_bind ?_ (fun _ => ?_)
      | split

theorem sendsOnly_waitForServiceSync (env : Env) (w : MainWindow) :
    SendsOnly (fun m => m = pingMessage w) (waitForServiceSync env w) := by
  unfold waitForServiceSync
  try dsimp only
  repeat' first
    | exact sendsOnly_pure _
    | exact sendsOnly_nil _
    | exact sendsOnly_emit _ rfl
    | exact sendsOnly_invokeStartupError _ _
    | exact sendsOnly_pollLog _ _ _ _
    | exact sendsOnly_pingLoop _ _ _ _
    | refine sendsOnly_bind ?_ (fun _ => ?_)
    | split

/-- With nothing queued and no marker in sight, each of the `n` rounds of the
polling loop is a missed poll. -/
theorem pollLog_never (env : Env) (w : MainWindow) (hq : w.queued = []) (n i : Nat)
    (h : ∀ j, j < n → markerAt env w (i + j) = false) :
    pollLog env w n i = ⟨(List.replicate n (missedPoll w)).flatten, .ret false⟩ := by
  induction n generalizing i with
  | zero => simp [pollLog, run_pure]
  | succ n ih =>
    have h0 : markerAt env w i = false := by simpa using h 0 (by omega)
    have h0b : contains ((env.fsAtPoll i w.server_output_log_path).getD "") bootMarker = false := h0
    have hn : ∀ j, j < n → markerAt env w (i + 1 + j) = false := by
      intro j hj
      have := h (j + 1) (by omega)
      rwa [show i + (j + 1) = i + 1 + j by omega] at this
    unfold pollLog
    simp only [processEvents_idle env w hq, readFile_eq, run_bind, Run.bind, h0b, emit,
      ih (i + 1) hn]
    simp [List.replicate_succ, missedPoll]

theorem ticksRun_le (env : Env) (n t : Nat) : ticksRun env n t ≤ n := by
  induction n generalizing t with
  | zero => simp [ticksRun]
  | succ n ih =>
    unfold ticksRun
    split
    · omega
    · have := ih (t + 1); omega

theorem ticksRun_never (env : Env) (n t : Nat)
    (h : ∀ j, j ≤ n → env.server_started (t + j) = false) : ticksRun env n t = n := by
  induction n generalizing t with
  | zero => simp [ticksRun]
  | succ n ih =>
    have h0 : env.server_started t = false := by simpa using h 0 (by omega)
    have hn : ∀ j, j ≤ n → env.server_started (t + 1 + j) = false := by
      intro j hj
      have := h (j + 1) (by omega)
      rwa [show t + (j + 1) = t + 1 + j by omega] at this
    simp [ticksRun, h0, ih (t + 1) hn]

/-- The trace and the result of the ping loop: one `tickTrace` per tick run. -/
theorem pingLoop_eq (env : Env) (w : MainWindow) (n t : Nat) :
    pingLoop env w n t =
      ⟨((List.range (ticksRun env n t)).map fun j => tickTrace env w (t + j + 1)).flatten,
        .ret (t + ticksRun env n t)⟩ := by
  induction n generalizing t with
  | zero => simp [pingLoop, ticksRun, run_pure]
  | succ n ih =>
    unfold pingLoop ticksRun
    by_cases h : env.server_started t = true
    · simp [waitForServer, h, run_pure]
    · have hs : env.server_started t = false := by simpa using h
      simp only [waitForServer, hs, Bool.not_false, if_true, Bool.false_eq_true, if_false]
      have hr : (List.range (ticksRun env n (t + 1) + 1)).map (fun j => tickTrace env w (t + j + 1))
          = tickTrace env w (t + 1) ::
            (List.range (ticksRun env n (t + 1))).map (fun j => tickTrace env w (t + 1 + j + 1)) := by
        rw [List.range_succ_eq_map, List.map_cons, List.map_map]
        congr 1
        apply List.map_congr_left
        intro j _
        simp only [Function.comp, Nat.succ_eq_add_one]
        congr 1
        omega
      rw [hr, List.flatten_cons]
      by_cases ho : env.osc_incoming_port_open (t + 1) = true
      · simp [isIncomingPortOpen, ho, run_bind, Run.bind, emit, sendOSC, run_pure, ih (t + 1),
          tickTrace]
        omega
      · simp [isIncomingPortOpen, ho, run_bind, Run.bind, emit, run_pure, ih (t + 1), tickTrace]
        omega

/-- The server-started flag at the tick the countdown stops is set exactly when
the acknowledgment is observed within the countdown. -/
theorem started_at_ticksRun (env : Env) (w : MainWindow) :
    env.server_started (ticksRun env 60 0) = true ↔ ackObserved env := by
  obtain ⟨t, ht, hiff⟩ := pingLoop_outcome env w 60 0
  rw [pingLoop_eq] at ht
  simp only [Nat.zero_add, Outcome.ret.injEq] at ht
  rw [ht, hiff]
  unfold ackObserved
  simp

/-- The first report of a start-up error: the transport is stopped and
`startupError` is queued. -/
theorem invokeStartupError_eq (w : MainWindow) (msg : String)
    (hT : w.sonicPiOSCServer = true) (hr : w.startup_error_reported = false) :
    invokeStartupError w msg = ⟨[.stopTransport, .queueStartupError msg],
      .ret { w with startup_error_reported := true, queued := w.queued ++ [msg] }⟩ := by
  simp [invokeStartupError, hT, hr, run_bind, Run.bind, emit, run_pure]

/-- A later report of a start-up error does nothing. -/
theorem invokeStartupError_reported (w : MainWindow) (msg : String)
    (hr : w.startup_error_reported = true) :
    invokeStartupError w msg = ⟨[], .ret w⟩ := by
  simp [invokeStartupError, hr, run_pure]

/-- With the transport constructed, a report of a start-up error returns, having
either done nothing or stopped the transport and queued `startupError`. -/
theorem invokeStartupError_cases (w : MainWindow) (msg : String)
    (hT : w.sonicPiOSCServer = true) :
    ∃ tail w2, invokeStartupError w msg = ⟨tail, .ret w2⟩ ∧
      (tail = [] ∨ tail = [.stopTransport, .queueStartupError msg]) ∧
      (w.startup_error_reported = false → tail = [.stopTransport, .queueStartupError msg]) ∧
      w2.guiID = w.guiID := by
  cases hr : w.startup_error_reported
  · exact ⟨_, _, invokeStartupError_eq w msg hT hr, Or.inr rfl, fun _ => rfl, rfl⟩
  · exact ⟨_, _, invokeStartupError_reported w msg hr, Or.inl rfl, fun h => by simp at h, rfl⟩

/-- The whole trace of `waitForServiceSync`: the log phase, then either the error
report, or the ping phase followed by the error report unless the server has
acknowledged. -/
theorem waitForServiceSync_trace (env : Env) (w : MainWindow)
    (hT : w.sonicPiOSCServer = true) (hq : w.queued = []) :
    ∃ tail w2, w2.guiID = w.guiID ∧
      ((serverBooted env w ∧ ackObserved env ∧ tail = [] ∧
          waitForServiceSync env w =
            ⟨logPhase env w ++ pingPhase env w, .ret (true, w2)⟩) ∨
       (serverBooted env w ∧ ¬ ackObserved env ∧
          (invokeStartupError w connectErrorMessage).events = tail ∧
          waitForServiceSync env w =
            ⟨logPhase env w ++ pingPhase env w ++ tail, .ret (false, w2)⟩) ∨
       (¬ serverBooted env w ∧
          (invokeStartupError w bootErrorMessage).events = tail ∧
          waitForServiceSync env w = ⟨logPhase env w ++ tail, .ret (false, w2)⟩)) := by
  have hping := pingLoop_eq env w 60 0
  have hack := started_at_ticksRun env w
  have hpoll := pollLog_outcome env w hq 60 0
  simp only [Nat.zero_add] at hpoll hping
  obtain ⟨ta, wa, hwa, _, _, hga⟩ := invokeStartupError_cases w bootErrorMessage hT
  obtain ⟨tb, wb, hwb, _, _, hgb⟩ := invokeStartupError_cases w connectErrorMessage hT
  simp only [bootErrorMessage] at hwa
  simp only [connectErrorMessage] at hwb
  have hpe : pingPhase env w = (pingLoop env w 60 0).events := rfl
  by_cases hw : w.homeDirWritable = false
  · have hb : serverBooted env w := Or.inr hw
    have hl : logPhase env w = [.sleep 15] := by simp [logPhase, hw]
    by_cases hs : env.server_started (ticksRun env 60 0) = true
    · refine ⟨[], w, rfl, Or.inl ⟨hb, hack.mp hs, rfl, ?_⟩⟩
      rw [hl, hpe, hping]
      simp [waitForServiceSync, hw, hT, hs, hping, run_bind, Run.bind, emit, run_pure,
        isServerStarted]
    · refine ⟨tb, wb, hgb, Or.inr (Or.inl ⟨hb, fun h => hs (hack.mpr h), ?_, ?_⟩)⟩
      · simp [connectErrorMessage, hwb]
      · rw [hl, hpe, hping]
        simp [waitForServiceSync, hw, hT, hs, hping, hwb, run_bind, Run.bind, emit, run_pure,
          isServerStarted]
  · have hl : logPhase env w = (pollLog env w 60 0).events := by simp [logPhase, hw]
    by_cases hm : markerObserved env w
    · have hb : serverBooted env w := Or.inl hm
      have hm2 : (∃ j, j < 60 ∧ markerAt env w j = true) := hm
      by_cases hs : env.server_started (ticksRun env 60 0) = true
      · refine ⟨[], w, rfl, Or.inl ⟨hb, hack.mp hs, rfl, ?_⟩⟩
        rw [hl, hpe, hping]
        simp [waitForServiceSync, hw, hT, hs, hping, hpoll, hm2, run_bind, Run.bind, emit,
          run_pure, isServerStarted]
      · refine ⟨tb, wb, hgb, Or.inr (Or.inl ⟨hb, fun h => hs (hack.mpr h), ?_, ?_⟩)⟩
        · simp [connectErrorMessage, hwb]
        · rw [hl, hpe, hping]
          simp [waitForServiceSync, hw, hT, hs, hping, hwb, hpoll, hm2, run_bind, Run.bind,
            emit, run_pure, isServerStarted]
    · have hb : ¬ serverBooted env w := fun h => h.elim hm hw
      have hm2 : ¬ (∃ j, j < 60 ∧ markerAt env w j = true) := hm
      refine ⟨ta, wa, hga, Or.inr (Or.inr ⟨hb, ?_, ?_⟩)⟩
      · simp [bootErrorMessage, hwa]
      · rw [hl]
        simp [waitForServiceSync, hw, hwa, hpoll, hm2, run_bind, Run.bind, run_pure]

/-! ### Counting events -/

theorem countP_send_eq_zero {α : Type} (x : Run α) (h : SendsOnly (fun _ => False) x) :
    x.events.countP isSendEvent = 0 := by
  rw [List.countP_eq_zero]
  intro e he
  cases e with
  | send m => exact absurd (h m he) id
  | _ => simp [isSendEvent]

theorem countP_send_invokeStartupError (w : MainWindow) (msg : String) :
    (invokeStartupError w msg).events.countP isSendEvent = 0 :=
  countP_send_eq_zero _ (sendsOnly_invokeStartupError w msg)

theorem countP_send_logPhase (env : Env) (w : MainWindow) :
    (logPhase env w).countP isSendEvent = 0 := by
  unfold logPhase
  split
  · rfl
  · exact countP_send_eq_zero _ (sendsOnly_pollLog env w 60 0)

theorem countP_tick_tickTrace (env : Env) (w : MainWindow) (t : Nat) :
    (tickTrace env w t).countP isTickEvent = 1 := by
  unfold tickTrace
  split <;> simp [isTickEvent, pingMessage]

theorem countP_send_tickTrace (env : Env) (w : MainWindow) (t : Nat) :
    (tickTrace env w t).countP isSendEvent = if env.osc_incoming_port_open t then 1 else 0 := by
  unfold tickTrace
  split <;> simp [isSendEvent]

theorem countP_read_tickTrace (env : Env) (w : MainWindow) (t : Nat) :
    (tickTrace env w t).countP isReadEvent = 0 := by
  unfold tickTrace
  split <;> simp [isReadEvent]

theorem count_sleep15_tickTrace (env : Env) (w : MainWindow) (t : Nat) :
    (tickTrace env w t).count (.sleep 15) = 0 := by
  unfold tickTrace
  split <;> simp [List.count_cons]

theorem sum_map_const (l : List Nat) (f : Nat → Nat) (c : Nat) (h : ∀ j, f j = c) :
    (l.map f).sum = l.length * c := by
  induction l with
  | nil => simp
  | cons a l ih => simp [ih, h a, Nat.add_mul, Nat.add_comm]

theorem sum_map_indicator (l : List Nat) (p : Nat → Bool) :
    (l.map fun j => if p j then 1 else 0).sum = (l.filter p).length := by
  induction l with
  | nil => simp
  | cons a l ih =>
    by_cases h : p a = true
    · simp [h, ih, Nat.add_comm]
    · simp [h, ih]

theorem pingPhase_eq (env : Env) (w : MainWindow) :
    pingPhase env w =
      ((List.range (ticksRun env 60 0)).map fun j => tickTrace env w (j + 1)).flatten := by
  unfold pingPhase
  rw [pingLoop_eq]
  simp

theorem countP_tick_pingPhase (env : Env) (w : MainWindow) :
    (pingPhase env w).countP isTickEvent = ticksRun env 60 0 := by
  rw [pingPhase_eq, List.countP_flatten, List.map_map]
  rw [sum_map_const _ _ 1 (fun j => by simp [Function.comp, countP_tick_tickTrace])]
  simp

theorem countP_send_pingPhase (env : Env) (w : MainWindow) :
    (pingPhase env w).countP isSendEvent =
      ((List.range (ticksRun env 60 0)).filter fun j => env.osc_incoming_port_open (j + 1)).length := by
  rw [pingPhase_eq, List.countP_flatten, List.map_map]
  rw [← sum_map_indicator]
  congr 1
  apply List.map_congr_left
  intro j _
  simp [Function.comp, countP_send_tickTrace]

theorem countP_send_pingPhase_le (env : Env) (w : MainWindow) :
    (pingPhase env w).countP isSendEvent ≤ 60 := by
  rw [countP_send_pingPhase]
  calc ((List.range (ticksRun env 60 0)).filter fun j => env.osc_incoming_port_open (j + 1)).length
      ≤ (List.range (ticksRun env 60 0)).length := List.length_filter_le _ _
    _ = ticksRun env 60 0 := List.length_range _
    _ ≤ 60 := ticksRun_le env 60 0

theorem countP_read_pingPhase (env : Env) (w : MainWindow) :
    (pingPhase env w).countP isReadEvent = 0 := by
  rw [pingPhase_eq, List.countP_flatten, List.map_map]
  rw [sum_map_const _ _ 0 (fun j => by simp [Function.comp, countP_read_tickTrace])]
  simp

theorem count_sleep15_pingPhase (env : Env) (w : MainWindow) :
    (pingPhase env w).count (.sleep 15) = 0 := by
  rw [pingPhase_eq, List.count_flatten, List.map_map]
  rw [sum_map_const _ _ 0 (fun j => by simp [Function.comp, count_sleep15_tickTrace])]
  simp

/-- The messages `waitForServiceSync` sends are those of its ping phase: at most 60. -/
theorem countP_send_waitForServiceSync_le (env : Env) (w : MainWindow)
    (hT : w.sonicPiOSCServer = true) (hq : w.queued = []) :
    (waitForServiceSync env w).events.countP isSendEvent ≤ 60 := by
  obtain ⟨tail, w2, _, h⟩ := waitForServiceSync_trace env w hT hq
  rcases h with ⟨_, _, _, h⟩ | ⟨_, _, ht, h⟩ | ⟨_, ht, h⟩
  · rw [h]
    simp only [List.countP_append, countP_send_logPhase, Nat.zero_add]
    exact countP_send_pingPhase_le env w
  · rw [h]
    simp only [List.countP_append, countP_send_logPhase, Nat.zero_add, ← ht,
      countP_send_invokeStartupError, Nat.add_zero]
    exact countP_send_pingPhase_le env w
  · rw [h]
    simp only [List.countP_append, countP_send_logPhase, ← ht,
      countP_send_invokeStartupError]
    omega

/-! ### Messages and returned windows of the operations -/

theorem sendsOnly_undefinedBehaviour {α : Type} {P : Message → Prop} :
    SendsOnly P (undefinedBehaviour : Run α) := by
  intro m hm
  simp [undefinedBehaviour] at hm

theorem sendsOnly_bind_ret {α β : Type} {P : Message → Prop} {x : Run α} {f : α → Run β}
    (hx : SendsOnly P x) (hf : ∀ a, x.outcome = .ret a → SendsOnly P (f a)) :
    SendsOnly P (x >>= f) := by
  intro m hm
  rcases mem_events_bind x f _ hm with h | ⟨a, ha, h⟩
  · exact hx m h
  · exact hf a ha m h

theorem returnsOnly_bind {α β : Type} {Q : β → Prop} {x : Run α} {f : α → Run β}
    (hf : ∀ a, x.outcome = .ret a → ReturnsOnly Q (f a)) : ReturnsOnly Q (x >>= f) := by
  intro b hb
  rw [run_bind] at hb
  unfold Run.bind at hb
  cases hx : x.outcome with
  | ret a => rw [hx] at hb; exact hf a hx b hb
  | exited => rw [hx] at hb; cases hb
  | assertFailed => rw [hx] at hb; cases hb
  | undefined => rw [hx] at hb; cases hb

theorem returnsOnly_pure {α : Type} {Q : α → Prop} (a : α) (h : Q a) :
    ReturnsOnly Q (pure a : Run α) := by
  intro b hb
  simp only [run_pure, Outcome.ret.injEq] at hb
  rw [← hb]; exact h

theorem returnsOnly_invokeStartupError (w : MainWindow) (msg : String) :
    ReturnsOnly (fun w2 => w2.guiID = w.guiID) (invokeStartupError w msg) := by
  unfold invokeStartupError
  try dsimp only
  repeat' first
    | exact returnsOnly_pure _ rfl
    | refine returnsOnly_bind (fun _ _ => ?_)
    | split

theorem returnsOnly_waitForServiceSync (env : Env) (w : MainWindow) :
    ReturnsOnly (fun r => r.2.guiID = w.guiID) (waitForServiceSync env w) := by
  unfold waitForServiceSync
  try dsimp only
  repeat' first
    | exact returnsOnly_pure _ rfl
    | exact returnsOnly_bind (fun w2 h2 =>
        returnsOnly_pure _ (returnsOnly_invokeStartupError w _ w2 h2))
    | refine returnsOnly_bind (fun _ _ => ?_)
    | split

theorem sendsOnly_loadWorkspacesFrom (env : Env) (w : MainWindow) (n i : Nat) :
    SendsOnly (fun m => firstArgIs w.guiID m ∧ m.address = "/load-buffer")
      (loadWorkspacesFrom env w n i) := by
  induction n generalizing i with
  | zero => exact sendsOnly_pure _
  | succ n ih =>
    unfold loadWorkspacesFrom
    try dsimp only
    repeat' first
      | exact sendsOnly_pure _
      | exact sendsOnly_nil _
      | exact sendsOnly_sendOSC _ _ ⟨rfl, rfl⟩
      | exact ih _
      | refine sendsOnly_bind ?_ (fun _ => ?_)
      | split

theorem sendsOnly_saveWorkspacesFrom (env : Env) (gui : Gui) (w : MainWindow) (n i : Nat) :
    SendsOnly (fun m => firstArgIs w.guiID m ∧ m.address = "/save-buffer")
      (saveWorkspacesFrom env gui w n i) := by
  induction n generalizing i with
  | zero => exact sendsOnly_pure _
  | succ n ih =>
    unfold saveWorkspacesFrom
    try dsimp only
    repeat' first
      | exact sendsOnly_pure _
      | exact sendsOnly_nil _
      | exact sendsOnly_sendOSC _ _ ⟨rfl, rfl⟩
      | exact ih _
      | refine sendsOnly_bind ?_ (fun _ => ?_)
      | split

theorem sendsOnly_sendOSC_guiID (env : Env) (id address : String) (rest : List Arg) :
    SendsOnly (firstArgIs id) (sendOSC env ⟨address, .str id :: rest⟩) :=
  sendsOnly_sendOSC env _ rfl

theorem firstArgIs_pingMessage (w : MainWindow) : firstArgIs w.guiID (pingMessage w) := rfl

/-- Every message an operation hands to the sender carries `guiID` first. -/
theorem sendsOnly_operation (env : Env) (gui : Gui) (w : MainWindow) (op : Operation) :
    SendsOnly (firstArgIs w.guiID) (op.run env gui w) := by
  have hsync : SendsOnly (firstArgIs w.guiID) (waitForServiceSync env w) :=
    sendsOnly_mono (sendsOnly_waitForServiceSync env w)
      (fun m hm => by rw [hm]; exact firstArgIs_pingMessage w)
  have hload : ∀ n i, SendsOnly (firstArgIs w.guiID) (loadWorkspacesFrom env w n i) :=
    fun n i => sendsOnly_mono (sendsOnly_loadWorkspacesFrom env w n i) (fun m hm => hm.1)
  have hsave : ∀ n i, SendsOnly (firstArgIs w.guiID) (saveWorkspacesFrom env gui w n i) :=
    fun n i => sendsOnly_mono (sendsOnly_saveWorkspacesFrom env gui w n i) (fun m hm => hm.1)
  cases op <;>
  · simp only [Operation.run, completeSnippetListOrIndentLine,
      completeSnippetOrIndentCurrentLineOrSelection, toggleCommentInCurrentWorkspace,
      toggleComment, mixerSettingsChanged, update_check_updates, honourPrefs, loadWorkspaces,
      saveWorkspaces, runBufferIdx, runCode, beautifyCode, reloadServerCode,
      check_for_updates_now, enableCheckUpdates, disableCheckUpdates, mixerHpfEnable,
      mixerHpfDisable, mixerLpfEnable, mixerLpfDisable, mixerInvertStereo, mixerStandardStereo,
      mixerMonoMode, mixerStereoMode, stopCode, changeSystemPreAmp, stopRunningSynths,
      toggleRecording, onExitCleanup, requestVersion, toggleMidi, resetMidi, toggleOSCServer]
    repeat' first
      | with_reducible exact hsync
      | with_reducible exact hload _ _
      | with_reducible exact hsave _ _
      | with_reducible refine sendsOnly_bind ?_ (fun _ => ?_)
      | with_reducible exact sendsOnly_pure _
      | with_reducible exact sendsOnly_nil _
      | with_reducible exact sendsOnly_undefinedBehaviour
      | with_reducible refine sendsOnly_emit _ ?_
      | with_reducible exact sendsOnly_sendOSC_guiID _ _ _ _
      | rfl
      | split

theorem returnsOnly_operation (env : Env) (gui : Gui) (w : MainWindow) (op : Operation) :
    ReturnsOnly (fun w2 => w2.guiID = w.guiID) (op.run env gui w) := by
  cases op <;>
  · simp only [Operation.run, toggleRecording]
    repeat' first
      | exact returnsOnly_bind (fun r hr =>
          returnsOnly_pure _ (returnsOnly_waitForServiceSync env w r hr))
      | with_reducible refine returnsOnly_bind (fun _ _ => ?_)
      | with_reducible refine returnsOnly_pure _ ?_
      | rfl
      | split

theorem parsePortLines_events (m : PortMap) (lines : List String) :
    (parsePortLines m lines).events = [] := by
  induction lines generalizing m with
  | nil => rfl
  | cons l rest ih =>
    by_cases h1 : 2 ≤ (split l ": ").length
    · simp [parsePortLines, parsePortLine_eq m l h1, run_bind, Run.bind, ih]
    · simp [parsePortLines, parsePortLine_undefined m l h1, run_bind, Run.bind]

theorem sendsOnly_checkPort {P : Message → Prop} (port : Int) (ok : Bool) :
    SendsOnly P (checkPort port ok) := by
  rw [checkPort_eq]
  intro m hm
  simp at hm

theorem sendsOnly_initAndCheckPorts {P : Message → Prop} (env : Env) (w : MainWindow) :
    SendsOnly P (initAndCheckPorts env w) := by
  have hparse : SendsOnly P (parsePortLines w.port_map env.discovery) := by
    intro m hm
    rw [parsePortLines_events] at hm
    simp at hm
  simp only [initAndCheckPorts, resolvePorts, validatePorts]
  repeat' first
    | with_reducible exact hparse
    | with_reducible exact sendsOnly_checkPort _ _
    | with_reducible exact sendsOnly_startupError _ _ _
    | with_reducible refine sendsOnly_bind ?_ (fun _ => ?_)
    | with_reducible exact sendsOnly_pure _
    | with_reducible refine sendsOnly_emit _ ?_
    | rfl
    | split

theorem returnsOnly_initAndCheckPorts (env : Env) (w : MainWindow) :
    ReturnsOnly (fun r => r.2.guiID = w.guiID) (initAndCheckPorts env w) := by
  intro r hr
  obtain ⟨b, w1⟩ := r
  obtain ⟨hres, _⟩ := initAndCheckPorts_ret env w w1 b hr
  obtain ⟨_, hw1⟩ := resolvePorts_ret env w w1 hres
  simp only [hw1]
  rfl

theorem sendsOnly_startRubyServer {P : Message → Prop} (env : Env) (w : MainWindow) :
    SendsOnly P (startRubyServer env w) := by
  simp only [startRubyServer]
  repeat' first
    | with_reducible exact sendsOnly_invokeStartupError _ _
    | with_reducible refine sendsOnly_bind ?_ (fun _ => ?_)
    | with_reducible exact sendsOnly_pure _
    | with_reducible refine sendsOnly_emit _ ?_
    | rfl
    | split

theorem returnsOnly_startRubyServer (env : Env) (w : MainWindow) :
    ReturnsOnly (fun w2 => w2.guiID = w.guiID) (startRubyServer env w) := by
  simp only [startRubyServer]
  repeat' first
    | with_reducible exact returnsOnly_invokeStartupError _ _
    | with_reducible refine returnsOnly_bind (fun _ _ => ?_)
    | with_reducible refine returnsOnly_pure _ ?_
    | rfl
    | split

/-- The messages of `honourPrefs`: preference messages that carry `guiID` first. -/
theorem sendsOnly_honourPrefs (env : Env) (w : MainWindow) :
    SendsOnly (fun m => firstArgIs w.guiID m ∧ m.address ∈ prefsAddresses)
      (honourPrefs env w) := by
  simp only [honourPrefs, update_check_updates, enableCheckUpdates, disableCheckUpdates,
    toggleMidi, toggleOSCServer]
  repeat' first
    | with_reducible refine sendsOnly_bind ?_ (fun _ => ?_)
    | with_reducible exact sendsOnly_pure _
    | refine sendsOnly_sendOSC _ _ ⟨rfl, ?_⟩
    | simp [prefsAddresses, readyAddresses]
    | split

/-- The messages of the last part of the constructor: `/load-buffer`, `/version`
and `/mixer-amp`, each carrying `guiID` first. -/
theorem sendsOnly_afterReady (env : Env) (w : MainWindow) :
    SendsOnly (fun m => firstArgIs w.guiID m ∧ m.address ∈ readyAddresses)
      (afterReady env w) := by
  have hload : SendsOnly (fun m => firstArgIs w.guiID m ∧ m.address ∈ readyAddresses)
      (loadWorkspacesFrom env w env.workspace_max 0) :=
    sendsOnly_mono (sendsOnly_loadWorkspacesFrom env w _ _)
      (fun m hm => ⟨hm.1, by rw [hm.2]; decide⟩)
  simp only [afterReady, loadWorkspaces, requestVersion, changeSystemPreAmp]
  repeat' first
    | with_reducible exact hload
    | with_reducible exact sendsOnly_processEvents _ _
    | with_reducible refine sendsOnly_bind ?_ (fun _ => ?_)
    | with_reducible exact sendsOnly_pure _
    | refine sendsOnly_sendOSC _ _ ⟨rfl, ?_⟩
    | simp [prefsAddresses, readyAddresses]

theorem Run.bind_assoc {α β γ : Type} (x : Run α) (f : α → Run β) (g : β → Run γ) :
    (x >>= f >>= g) = x >>= fun a => f a >>= g := by
  simp only [run_bind, Run.bind]
  cases hx : x.outcome with
  | ret a =>
    simp only
    cases hf : (f a).outcome <;> simp [hf]
  | exited => simp
  | assertFailed => simp
  | undefined => simp

theorem events_bind_pure {α β : Type} (x : Run α) (b : β) :
    (x >>= fun _ => (pure b : Run β)).events = x.events := by
  simp only [run_bind, Run.bind, run_pure]
  cases x.outcome <;> simp

theorem honourPrefs_outcome (env : Env) (w : MainWindow) :
    (honourPrefs env w).outcome = .ret () := by
  simp only [honourPrefs, update_check_updates, enableCheckUpdates, disableCheckUpdates,
    toggleMidi, toggleOSCServer]
  cases env.settings.check_updates <;> cases env.settings.midi_enabled <;>
    cases env.settings.osc_server_enabled <;>
    simp [sendOSC, run_bind, Run.bind, emit, run_pure]

theorem honourPrefs_three_messages (env : Env) (w : MainWindow) :
    (honourPrefs env w).events.countP isSendEvent = 3 := by
  simp only [honourPrefs, update_check_updates, enableCheckUpdates, disableCheckUpdates,
    toggleMidi, toggleOSCServer]
  cases env.settings.check_updates <;> cases env.settings.midi_enabled <;>
    cases env.settings.osc_server_enabled <;>
    simp [sendOSC, run_bind, Run.bind, emit, run_pure, isSendEvent]

theorem startRubyServer_spawned (env : Env) (w : MainWindow) (hs : env.waitForStarted = true) :
    (startRubyServer env w).outcome = .ret w := by
  simp [startRubyServer, hs, run_bind, Run.bind, emit, run_pure]

/-- The trace of the constructor when the ports validate, there are at most ten
workspaces and the server spawns: the boot trace, then the last part of the
constructor if `waitForServiceSync` returned true, the start-up error otherwise. -/
theorem ctor_boot (env : Env) (w1 : MainWindow)
    (h : (initAndCheckPorts env (initialWindow env)).outcome = .ret (true, w1))
    (hmax : env.workspace_max ≤ 10) (hs : env.waitForStarted = true) :
    ∃ ready w3, (waitForServiceSync env { w1 with sonicPiOSCServer := true }).outcome =
        .ret (ready, w3) ∧
      (MainWindow_MainWindow env).events = bootTrace env w1 ++
        (if ready then (afterReady env w3).events
         else (startupError env w3 unableToConnectMessage).events) := by
  obtain ⟨hres, _⟩ := initAndCheckPorts_ret env _ _ _ h
  obtain ⟨_, hw1⟩ := resolvePorts_ret env _ _ hres
  obtain ⟨names, hnames⟩ := setupWindowStructure_ret env hmax
  have hq : ({ w1 with sonicPiOSCServer := true } : MainWindow).queued = [] := by
    rw [hw1]; rfl
  have hsync := waitForServiceSync_outcome env { w1 with sonicPiOSCServer := true } rfl hq
  have hstart := startRubyServer_spawned env w1 hs
  have hhon := honourPrefs_outcome env { w1 with sonicPiOSCServer := true }
  obtain ⟨report, hse⟩ : ∃ report, ∀ w3, startupError env w3 unableToConnectMessage =
      ⟨startupErrorReads w3 ++ [.startupError unableToConnectMessage (report w3)], .exited⟩ :=
    ⟨fun w3 => (startupError_eq env w3 unableToConnectMessage).choose,
      fun w3 => (startupError_eq env w3 unableToConnectMessage).choose_spec⟩
  simp only [unableToConnectMessage] at hse
  by_cases hc : (markerObserved env { w1 with sonicPiOSCServer := true } ∨
      ({ w1 with sonicPiOSCServer := true } : MainWindow).homeDirWritable = false) ∧
      ackObserved env
  · obtain ⟨w3, h3⟩ := hsync.1 hc
    refine ⟨true, w3, h3, ?_⟩
    have hafter : (afterReady env w3 >>= fun _ => (pure w3 : Run MainWindow)).events =
        (afterReady env w3).events := events_bind_pure _ _
    simp only [afterReady, Run.bind_assoc] at hafter
    simp only [MainWindow_MainWindow, bootTrace, run_bind, Run.bind, h, hstart, hhon, h3, emit,
      hnames, if_true]
    simp only [run_bind, Run.bind] at hafter
    simp only [afterReady, run_bind, Run.bind]
    simp [← hafter]
  · obtain ⟨w3, h3⟩ := hsync.2 hc
    refine ⟨false, w3, h3, ?_⟩
    simp [MainWindow_MainWindow, bootTrace, run_bind, Run.bind, h, hstart, hhon, h3, emit, hse,
      hnames, unableToConnectMessage]

theorem sendsOnly_ctor (env : Env) :
    SendsOnly (firstArgIs env.guiID) (MainWindow_MainWindow env) := by
  unfold MainWindow_MainWindow
  dsimp only
  refine sendsOnly_bind_ret (sendsOnly_initAndCheckPorts env _) (fun a ha => ?_)
  obtain ⟨b, w1⟩ := a
  have hg1 : w1.guiID = env.guiID := returnsOnly_initAndCheckPorts env _ _ ha
  dsimp only
  refine sendsOnly_bind (sendsOnly_emit _ rfl) (fun _ => ?_)
  refine sendsOnly_bind (fun m hm => ?_) (fun _ => ?_)
  · rw [setupWindowStructure, setupWindowStructureFrom_events] at hm
    cases hm
  refine sendsOnly_bind_ret (sendsOnly_startRubyServer env w1) (fun w2 hw2 => ?_)
  have hg2 : w2.guiID = env.guiID := (returnsOnly_startRubyServer env w1 w2 hw2).trans hg1
  refine sendsOnly_bind (sendsOnly_emit _ rfl) (fun _ => ?_)
  refine sendsOnly_bind ?_ (fun _ => ?_)
  · have := sendsOnly_honourPrefs env { w2 with sonicPiOSCServer := true }
    exact sendsOnly_mono this (fun m hm => by rw [← hg2]; exact hm.1)
  refine sendsOnly_bind_ret ?_ (fun r hr => ?_)
  · have := sendsOnly_waitForServiceSync env { w2 with sonicPiOSCServer := true }
    exact sendsOnly_mono this (fun m hm => by rw [hm, ← hg2]; rfl)
  obtain ⟨ready, w3⟩ := r
  have hg3 : w3.guiID = env.guiID :=
    (returnsOnly_waitForServiceSync env _ _ hr).trans hg2
  dsimp only
  split
  · have hafter := sendsOnly_afterReady env w3
    simp only [afterReady] at hafter
    have h2 : SendsOnly (firstArgIs env.guiID)
        ((do loadWorkspaces env w3
             requestVersion env w3
             changeSystemPreAmp env w3 env.settings.main_volume 1
             processEvents env w3 : Run Unit) >>= fun _ => (pure w3 : Run MainWindow)) :=
      sendsOnly_bind (sendsOnly_mono hafter (fun m hm => by rw [← hg3]; exact hm.1))
        (fun _ => sendsOnly_pure _)
    simp only [Run.bind_assoc] at h2
    exact h2
  · exact sendsOnly_bind (sendsOnly_startupError env w3 _) (fun _ => sendsOnly_pure _)

theorem returnsOnly_ctor (env : Env) :
    ReturnsOnly (fun w => w.guiID = env.guiID) (MainWindow_MainWindow env) := by
  unfold MainWindow_MainWindow
  dsimp only
  refine returnsOnly_bind (fun a ha => ?_)
  obtain ⟨b, w1⟩ := a
  have hg1 : w1.guiID = env.guiID := returnsOnly_initAndCheckPorts env _ _ ha
  dsimp only
  refine returnsOnly_bind (fun _ _ => returnsOnly_bind (fun _ _ =>
    returnsOnly_bind (fun w2 hw2 => ?_)))
  have hg2 : w2.guiID = env.guiID := (returnsOnly_startRubyServer env w1 w2 hw2).trans hg1
  refine returnsOnly_bind (fun _ _ => returnsOnly_bind (fun _ _ =>
    returnsOnly_bind (fun r hr => ?_)))
  obtain ⟨ready, w3⟩ := r
  have hg3 : w3.guiID = env.guiID :=
    (returnsOnly_waitForServiceSync env _ _ hr).trans hg2
  dsimp only
  split
  · repeat' first
      | with_reducible refine returnsOnly_bind (fun _ _ => ?_)
      | exact returnsOnly_pure _ hg3
  · repeat' first
      | with_reducible refine returnsOnly_bind (fun _ _ => ?_)
      | exact returnsOnly_pure _ hg3

/-! ### Shutdown -/

/-- With at most ten workspaces, saving them returns, and its trace consists of
`/save-buffer` messages. -/
theorem saveWorkspacesFrom_eq (env : Env) (gui : Gui) (w : MainWindow) (n i : Nat)
    (h : i + n ≤ 10) :
    (saveWorkspacesFrom env gui w n i).outcome = .ret () ∧
    ∀ e ∈ (saveWorkspacesFrom env gui w n i).events,
      ∃ m, e = .send m ∧ m.address = "/save-buffer" := by
  induction n generalizing i with
  | zero => simp [saveWorkspacesFrom, run_pure]
  | succ n ih =>
    obtain ⟨name, hname⟩ := number_name_some i (by omega)
    obtain ⟨ho, he⟩ := ih (i + 1) (by omega)
    unfold saveWorkspacesFrom
    simp only [hname, sendOSC, run_bind, Run.bind, emit, run_pure, ho]
    refine ⟨trivial, ?_⟩
    intro e hmem
    simp only [List.append_nil, List.cons_append, List.nil_append, List.mem_cons] at hmem
    rcases hmem with rfl | hmem
    · exact ⟨_, rfl, rfl⟩
    · exact he e hmem

/-- The events of the save step of `onExitCleanup`. -/
theorem onExitCleanup_eq (env : Env) (gui : Gui) (w : MainWindow)
    (hT : w.sonicPiOSCServer = true) (hmax : env.workspace_max ≤ 10) :
    ∃ saves, (∀ e ∈ saves, ∃ m, e = Event.send m ∧ m.address = "/save-buffer") ∧
      onExitCleanup env gui w =
        ⟨.stopTransport :: ((if w.protocol = .TCP then [.closeClientSocket] else []) ++
          (if gui.serverNotRunning then []
           else saves ++ [.sleep 1, .send (exitMessage w)]) ++
          (if w.protocol = .UDP then [.waitForOscThread] else []) ++
          [.sleep 2, .runScript w.exit_script_path]), .ret ()⟩ := by
  obtain ⟨ho, he⟩ := saveWorkspacesFrom_eq env gui w env.workspace_max 0 (by omega)
  refine ⟨if w.loaded_workspaces then (saveWorkspaces env gui w).events else [], ?_, ?_⟩
  · intro e hmem
    split at hmem
    · exact he e hmem
    · simp at hmem
  · have ho2 : (saveWorkspaces env gui w).outcome = .ret () := ho
    cases hp : w.protocol <;> cases hn : gui.serverNotRunning <;>
      cases hl : w.loaded_workspaces <;>
      simp [onExitCleanup, hT, hp, hn, hl, ho2, sendOSC, run_bind, Run.bind, emit, run_pure,
        exitMessage]

/-! ### Repeated error reports -/

/-- Once a start-up error has been reported, further reports do nothing. -/
theorem invokeStartupErrorSeq_reported (w : MainWindow) (msgs : List String)
    (hr : w.startup_error_reported = true) :
    invokeStartupErrorSeq w msgs = ⟨[], .ret w⟩ := by
  induction msgs with
  | nil => rfl
  | cons msg rest ih =>
    unfold invokeStartupErrorSeq
    simp [invokeStartupError_reported w msg hr, run_bind, Run.bind, ih]

/-! ### Workspace names -/

theorem number_name_injective (i j : Nat) (hi : i < 10) (hj : j < 10)
    (h : number_name i = number_name j) : i = j := by
  interval_cases i <;> interval_cases j <;> first | rfl | exact absurd h (by decide)

theorem workspace_name_inj (a b : String) (h : "workspace_" ++ a = "workspace_" ++ b) :
    a = b := by
  have hd := congrArg String.data h
  simp only [String.data_append] at hd
  exact String.ext (List.append_cancel_left hd)

/-- The search of `filenameToWorkspace` stops at the index whose name it is given. -/
theorem filenameToWorkspaceFrom_hit (n i j : Nat) (name : String) (h : i + n ≤ 10)
    (hij : i ≤ j) (hj : j < i + n) (hname : number_name j = some name) :
    filenameToWorkspaceFrom ("workspace_" ++ name) n i = ⟨[], .ret j⟩ := by
  induction n generalizing i with
  | zero => omega
  | succ n ih =>
    obtain ⟨name0, h0⟩ := number_name_some i (by omega)
    unfold filenameToWorkspaceFrom
    by_cases he : i = j
    · subst he
      rw [hname] at h0
      cases h0
      simp [hname, run_pure]
    · have hne : "workspace_" ++ name ≠ "workspace_" ++ name0 := by
        intro heq
        have hn := workspace_name_inj _ _ heq
        exact he (number_name_injective i j (by omega) (by omega) (by rw [h0, hname, hn]))
      simp only [h0, if_neg hne]
      exact ih (i + 1) (by omega) (by omega) (by omega)

/-- The search of `filenameToWorkspace` ends with index 0 when no name matches. -/
theorem filenameToWorkspaceFrom_miss (filename : String) (n i : Nat) (h : i + n ≤ 10)
    (hmiss : ∀ j name, i ≤ j → j < i + n → number_name j = some name →
      filename ≠ "workspace_" ++ name) :
    filenameToWorkspaceFrom filename n i = ⟨[], .ret 0⟩ := by
  induction n generalizing i with
  | zero => rfl
  | succ n ih =>
    obtain ⟨name0, h0⟩ := number_name_some i (by omega)
    unfold filenameToWorkspaceFrom
    have hne := hmiss i name0 (le_refl _) (by omega) h0
    simp only [h0, if_neg hne]
    exact ih (i + 1) (by omega) (fun j name h1 h2 h3 => hmiss j name (by omega) (by omega) h3)

/-- With the indices below ten the search of `filenameToWorkspace` returns. -/
theorem filenameToWorkspaceFrom_ret (filename : String) (n i : Nat) (h : i + n ≤ 10) :
    ∃ j, filenameToWorkspaceFrom filename n i = ⟨[], .ret j⟩ ∧
      (j = 0 ∨ (i ≤ j ∧ j < i + n)) := by
  induction n generalizing i with
  | zero => exact ⟨0, rfl, Or.inl rfl⟩
  | succ n ih =>
    obtain ⟨name0, h0⟩ := number_name_some i (by omega)
    unfold filenameToWorkspaceFrom
    by_cases he : filename = "workspace_" ++ name0
    · exact ⟨i, by simp [h0, he, run_pure], Or.inr ⟨le_refl _, by omega⟩⟩
    · obtain ⟨j, hj, hr⟩ := ih (i + 1) (by omega)
      refine ⟨j, by simp only [h0, if_neg he]; exact hj, ?_⟩
      rcases hr with hr | hr
      · exact Or.inl hr
      · exact Or.inr ⟨by omega, by omega⟩

theorem number_name_none (i : Nat) (h : 10 ≤ i) : number_name i = none := by
  obtain ⟨k, rfl⟩ : ∃ k, i = k + 10 := ⟨i - 10, by omega⟩
  rfl

/-- With the indices below ten the loop of `loadWorkspaces` returns. -/
theorem loadWorkspacesFrom_ret (env : Env) (w : MainWindow) (n i : Nat) (h : i + n ≤ 10) :
    (loadWorkspacesFrom env w n i).outcome = .ret () := by
  induction n generalizing i with
  | zero => rfl
  | succ n ih =>
    obtain ⟨name, hname⟩ := number_name_some i (by omega)
    unfold loadWorkspacesFrom
    simp [hname, sendOSC, run_bind, Run.bind, emit, run_pure, ih (i + 1) (by omega)]

/-! ### The text sent by `runCode` -/

theorem string_nil_append (s : String) : "" ++ s = s := by
  apply String.ext
  simp

/-- The text `runCode` sends is the preference lines, one after the other,
followed by the buffer text. -/
theorem codeWithPreferences_eq (s : Settings) (text : String) :
    codeWithPreferences s text = String.join (preferenceLines s) ++ text := by
  unfold codeWithPreferences preferenceLines
  cases s.print_output <;> cases s.log_cues <;> cases s.check_args <;>
    cases s.enable_external_synths <;> cases s.synth_trigger_timing_guarantees <;>
    simp only [String.join, List.foldl_cons, List.foldl_nil, String.append_assoc,
      List.cons_append, List.nil_append, List.append_nil, ↓reduceIte,
      Bool.not_true, Bool.not_false, Bool.false_eq_true, string_nil_append]

/-- Every preference line ends with the marker and a line break; its only line
break is the last one unless the MIDI channel of the settings has one. -/
theorem preferenceLines_end (s : Settings) (l : String) (hl : l ∈ preferenceLines s) :
    ∃ body, l = body ++ nosaveMarker ++ "\n" ∧
      ('\n' ∉ s.midi_default_channel_str.data → '\n' ∉ (body ++ nosaveMarker).data) := by
  unfold preferenceLines at hl
  simp only [List.mem_cons, List.mem_append] at hl
  rcases hl with rfl | (((hl | hl) | hl) | hl) | hl
  · refine ⟨"use_midi_defaults channel: \"" ++ s.midi_default_channel_str ++ "\" ", ?_, ?_⟩
    · simp only [String.append_assoc]
      rfl
    · intro hch
      simp only [String.data_append, List.mem_append, not_or]
      exact ⟨⟨⟨by decide, hch⟩, by decide⟩, by decide⟩
  all_goals
    split at hl
    all_goals simp only [List.mem_singleton, List.not_mem_nil] at hl
  · exact ⟨"use_timing_guarantees true ", by rw [hl]; decide, fun _ => by decide⟩
  · exact ⟨"use_external_synths true ", by rw [hl]; decide, fun _ => by decide⟩
  · exact ⟨"use_arg_checks true ", by rw [hl]; decide, fun _ => by decide⟩
  · exact ⟨"use_cue_logging false ", by rw [hl]; decide, fun _ => by decide⟩
  · exact ⟨"use_debug false ", by rw [hl]; decide, fun _ => by decide⟩

/-- The preference lines written out: the line of the MIDI defaults first, then
the optional lines in their order. -/
theorem preferenceLines_eq (s : Settings) :
    preferenceLines s =
      ("use_midi_defaults channel: \"" ++ s.midi_default_channel_str ++ "\" " ++
        nosaveMarker ++ "\n") ::
      ((if s.synth_trigger_timing_guarantees then
          ["use_timing_guarantees true " ++ nosaveMarker ++ "\n"] else []) ++
       (if s.enable_external_synths then
          ["use_external_synths true " ++ nosaveMarker ++ "\n"] else []) ++
       (if s.check_args then
          ["use_arg_checks true " ++ nosaveMarker ++ "\n"] else []) ++
       (if s.log_cues = false then
          ["use_cue_logging false " ++ nosaveMarker ++ "\n"] else []) ++
       (if s.print_output = false then
          ["use_debug false " ++ nosaveMarker ++ "\n"] else [])) := by
  have hhead : "use_midi_defaults channel: \"" ++ s.midi_default_channel_str ++
      "\" #__nosave__ set by Qt GUI user preferences.\n" =
      "use_midi_defaults channel: \"" ++ s.midi_default_channel_str ++ "\" " ++
        nosaveMarker ++ "\n" := by
    simp only [String.append_assoc]
    rfl
  unfold preferenceLines
  rw [hhead]
  congr 1
  cases s.print_output <;> cases s.log_cues <;> cases s.check_args <;>
    cases s.enable_external_synths <;> cases s.synth_trigger_timing_guarantees <;> decide

/-! ### Tabs -/

theorem wrapInt_eq (x : Int) (h1 : -2147483648 ≤ x) (h2 : x ≤ 2147483647) : wrapInt x = x := by
  unfold wrapInt
  omega

/-! ## Part 3: the claims -/

/-! ### C1 -/

/-- C1: `checkPort(port)` returns true exactly when `port >= 1024` and the throwaway
socket bound successfully, returns false in every other case, and so returns
false for every port below 1024 whatever the bind did. -/
theorem checkPort_available_iff (port : Int) (sockOk : Bool) :
    ((checkPort port sockOk).outcome = .ret true ↔ (1024 ≤ port ∧ sockOk = true)) ∧
    ((checkPort port sockOk).outcome = .ret false ↔ ¬ (1024 ≤ port ∧ sockOk = true)) ∧
    (port < 1024 → (checkPort port sockOk).outcome = .ret false) := by
  rw [checkPort_outcome]
  by_cases h : 1024 ≤ port <;> cases sockOk <;> simp [h]

/-! ### C2 -/

/-- C2: called with the transport constructed and no start-up error queued,
`waitForServiceSync` returns true exactly when (the boot marker is seen in one of
the 60 log polls or the home directory is not writable) and the server-started
acknowledgment is seen within the 60-tick countdown; otherwise it returns false. -/
theorem waitForServiceSync_ready_iff (env : Env) (w : MainWindow)
    (hT : w.sonicPiOSCServer = true) (hq : w.queued = []) :
    ((waitForServiceSync env w).result.map Prod.fst = some true ↔
      (markerObserved env w ∨ w.homeDirWritable = false) ∧ ackObserved env) ∧
    ((waitForServiceSync env w).result.map Prod.fst = some false ↔
      ¬ ((markerObserved env w ∨ w.homeDirWritable = false) ∧ ackObserved env)) := by
  obtain ⟨hpos, hneg⟩ := waitForServiceSync_outcome env w hT hq
  by_cases hc : (markerObserved env w ∨ w.homeDirWritable = false) ∧ ackObserved env
  · obtain ⟨w2, h2⟩ := hpos hc
    simp [Run.result, h2, hc]
  · obtain ⟨w2, h2⟩ := hneg hc
    simp [Run.result, h2, hc]

/-- Witness of C2: in `bootEnv` the marker is first seen at the third poll and the
acknowledgment at the second tick, and `waitForServiceSync` returns true. -/
theorem waitForServiceSync_ready_witness :
    bootWindow.sonicPiOSCServer = true ∧ bootWindow.queued = [] ∧
    markerAt bootEnv bootWindow 0 = false ∧ markerAt bootEnv bootWindow 1 = false ∧
    markerAt bootEnv bootWindow 2 = true ∧
    bootEnv.server_started 1 = false ∧ bootEnv.server_started 2 = true ∧
    (waitForServiceSync bootEnv bootWindow).result.map Prod.fst = some true :=
  ⟨rfl, rfl, by decide, by decide, by decide, by decide, by decide,
    (waitForServiceSync_ready_iff bootEnv bootWindow rfl rfl).1.mpr
      ⟨Or.inl ⟨2, by decide, by decide⟩, ⟨2, by decide, by decide⟩⟩⟩

/-! ### C3 -/

/-- C3, counterexample: the line `scsynth: 4556: 99` splits into three fields, yet
the parsing loop completes without any error and stores 4556 for `scsynth`. -/
theorem parsePortLines_extra_field_accepted :
    (split "scsynth: 4556: 99" ": ").length = 3 ∧
    (parsePortLines [] ["scsynth: 4556: 99"]).outcome = .ret [("scsynth", 4556)] := by
  decide

/-- C3, amended: when every discovery line splits on `": "` into two or more fields,
port resolution completes without raising any error; line by line it stores the
integer value of the trimmed second field under the trimmed first field and
ignores further fields, so the last line of a key decides its port. -/
theorem resolvePorts_accepts_two_or_more_fields (env : Env) (w : MainWindow)
    (h : ∀ l ∈ env.discovery, 2 ≤ (split l ": ").length) :
    (resolvePorts env w).outcome =
      .ret (assignPorts w (parsedMap w.port_map env.discovery)) ∧
    ∀ pre l post, env.discovery = pre ++ l :: post →
      (∀ x ∈ post, lineRole x ≠ lineRole l) →
      (parsedMap w.port_map env.discovery).get (lineRole l) = toInt (lineNumber l) := by
  refine ⟨by rw [resolvePorts_eq env w h], ?_⟩
  intro pre l post hd hpost
  rw [hd]
  exact get_foldl_last _ pre post l hpost

/-- Witness of C3 amended: a discovery output whose only line has three fields. -/
theorem resolvePorts_accepts_two_or_more_fields_witness :
    (∀ l ∈ ({ bootEnv with discovery := ["scsynth: 4556: 99"] } : Env).discovery,
      2 ≤ (split l ": ").length) ∧
    (resolvePorts { bootEnv with discovery := ["scsynth: 4556: 99"] }
      (initialWindow bootEnv)).result.map (fun w => w.scsynth_port) = some 4556 := by
  have h : ∀ l ∈ ({ bootEnv with discovery := ["scsynth: 4556: 99"] } : Env).discovery,
      2 ≤ (split l ": ").length := by decide
  refine ⟨h, ?_⟩
  have h2 := (resolvePorts_accepts_two_or_more_fields
    { bootEnv with discovery := ["scsynth: 4556: 99"] } (initialWindow bootEnv) h).1
  simp only [Run.result, h2]
  decide

/-! ### C4 -/

/-- C4, counterexample: on the line `scsynth: abc`, whose second field is not a
decimal integer, the parsing loop completes without any error and stores the
port number 0 for `scsynth`. -/
theorem parsePortLines_non_numeric_accepted :
    isDecimalInt (lineNumber "scsynth: abc").data = false ∧
    (parsePortLines [] ["scsynth: abc"]).outcome = .ret [("scsynth", 0)] := by
  decide

/-- C4, amended: for every discovery line with two or more fields whose trimmed
second field is not a decimal integer, the round of the parsing loop raises no
error and stores the port number 0 under the trimmed first field. -/
theorem parsePortLine_non_numeric_stores_zero (m : PortMap) (line : String)
    (h2 : 2 ≤ (split line ": ").length)
    (hn : isDecimalInt (lineNumber line).data = false) :
    (parsePortLine m line).outcome = .ret (m.set (lineRole line) 0) ∧
    (m.set (lineRole line) 0).get (lineRole line) = 0 := by
  rw [parsePortLine_eq m line h2, toInt_not_decimal _ hn, PortMap.get_set]
  simp

/-- Witness of C4 amended: the line `scsynth: abc` on a map that has `scsynth` at 4556. -/
theorem parsePortLine_non_numeric_stores_zero_witness :
    2 ≤ (split "scsynth: abc" ": ").length ∧
    isDecimalInt (lineNumber "scsynth: abc").data = false ∧
    (parsePortLine [("scsynth", 4556)] "scsynth: abc").outcome =
      .ret (PortMap.set [("scsynth", 4556)] (lineRole "scsynth: abc") 0) ∧
    (PortMap.set [("scsynth", 4556)] (lineRole "scsynth: abc") 0).get (lineRole "scsynth: abc") = 0 :=
  ⟨by decide, by decide,
    parsePortLine_non_numeric_stores_zero [("scsynth", 4556)] "scsynth: abc" (by decide) (by decide)⟩

/-! ### C5 -/

theorem Entry.toInt_lineNumber (e : Entry) (h : e.WellFormed) (hfit : decVal e.digits < 2 ^ 31) :
    toInt (lineNumber e.line) = (decVal e.digits : Int) := by
  rw [Entry.lineNumber_line e h, toInt_digits e.digits h.2.2.2.2.2.2.2, if_pos hfit]

theorem Entry.two_fields (e : Entry) (h : e.WellFormed) : 2 ≤ (split e.line ": ").length := by
  rw [Entry.split_line e h]; simp

/-- C5, counterexample: every line of `hugePortEnv` has the form role, separator,
decimal number and all eleven roles are there, yet after parsing `scsynth_port`
is 0 and not the number 2147483648 given on the line of `scsynth`. -/
theorem resolvePorts_number_beyond_int :
    "scsynth: 2147483648" ∈ hugePortEnv.discovery ∧
    (requiredRoles.all fun r => hugePortEnv.discovery.any fun l => lineRole l == r) = true ∧
    (resolvePorts hugePortEnv (initialWindow hugePortEnv)).result.map
      (fun w => w.scsynth_port) = some 0 := by
  decide

/-- C5, amended: when the discovery output consists of well-formed lines (a role
name without colon, the separator, a run of decimal digits, whitespace allowed
around both fields), port resolution completes, and each of the eleven port
variables whose role has a line equals the number on the last line of that role,
provided the number fits the 32-bit `int`. -/
theorem resolvePorts_wellFormed (env : Env) (w : MainWindow) (es : List Entry)
    (hd : env.discovery = es.map Entry.line) (hwf : ∀ e ∈ es, e.WellFormed) :
    (resolvePorts env w).outcome =
      .ret (assignPorts w (parsedMap w.port_map env.discovery)) ∧
    ∀ pre e post, es = pre ++ e :: post → (∀ x ∈ post, x.role ≠ e.role) →
      decVal e.digits < 2 ^ 31 →
      ∀ rp ∈ requiredPorts (assignPorts w (parsedMap w.port_map env.discovery)),
        rp.1.data = e.role → rp.2 = (decVal e.digits : Int) := by
  have hlines : ∀ l ∈ env.discovery, 2 ≤ (split l ": ").length := by
    intro l hl
    rw [hd, List.mem_map] at hl
    obtain ⟨e, he, rfl⟩ := hl
    exact Entry.two_fields e (hwf e he)
  refine ⟨by rw [resolvePorts_eq env w hlines], ?_⟩
  intro pre e post hes hpost hfit rp hrp hrole
  have he : e.WellFormed := hwf e (by rw [hes]; simp)
  rw [requiredPorts_assign, List.mem_map] at hrp
  obtain ⟨r, _, rfl⟩ := hrp
  have hr : r = lineRole e.line := by
    rw [Entry.lineRole_line e he]
    simp only at hrole
    rw [← hrole]
  have hpost2 : ∀ x ∈ post.map Entry.line, lineRole x ≠ lineRole e.line := by
    intro x hx
    rw [List.mem_map] at hx
    obtain ⟨y, hy, rfl⟩ := hx
    rw [Entry.lineRole_line y (hwf y (by rw [hes]; simp [hy])), Entry.lineRole_line e he]
    intro hc
    exact hpost y hy (congrArg String.data hc)
  have hsplit : env.discovery = pre.map Entry.line ++ e.line :: post.map Entry.line := by
    rw [hd, hes]; simp
  show (parsedMap w.port_map env.discovery).get r = _
  rw [hr, hsplit, get_foldl_last _ _ _ _ hpost2, Entry.toInt_lineNumber e he hfit]

/-- Witness of C5 amended: in `paddedEnv` the last line of `scsynth` carries 4556
between whitespace, and `scsynth_port` is 4556 after parsing. -/
theorem resolvePorts_wellFormed_witness :
    paddedEnv.discovery = paddedEntries.map Entry.line ∧
    (∀ e ∈ paddedEntries, e.WellFormed) ∧
    (assignPorts (initialWindow paddedEnv)
      (parsedMap (initialWindow paddedEnv).port_map paddedEnv.discovery)).scsynth_port = 4556 := by
  have hwf : ∀ e ∈ paddedEntries, e.WellFormed := by
    intro e he
    simp only [paddedEntries, List.mem_cons, List.mem_singleton, List.not_mem_nil, or_false] at he
    rcases he with h | h | h | h | h | h | h | h | h | h | h | h <;> subst h <;>
      exact ⟨by decide, by decide, by decide, by decide, by decide, by decide, by decide, by decide⟩
  refine ⟨rfl, hwf, ?_⟩
  have h := (resolvePorts_wellFormed paddedEnv (initialWindow paddedEnv) paddedEntries rfl hwf).2
    (paddedEntries.take 6) ⟨" ".data, "scsynth".data, " \t".data, "  ".data, "4556".data, " ".data⟩
    (paddedEntries.drop 7) rfl (by decide) (by decide)
    ("scsynth", (assignPorts (initialWindow paddedEnv)
      (parsedMap (initialWindow paddedEnv).port_map paddedEnv.discovery)).scsynth_port)
    (by simp [requiredPorts]) rfl
  exact h.trans (by decide)

/-! ### C6 -/

/-- C6, counterexample: in `lowPortEnv` the port of `scsynth` fails `checkPort`, and
`initAndCheckPorts` does not return false: the process ends inside `startupError`
and the call returns nothing. -/
theorem initAndCheckPorts_never_returns_false :
    (checkPort 80 (lowPortEnv.sockOk 3 80)).outcome = .ret false ∧
    (initAndCheckPorts lowPortEnv (initialWindow lowPortEnv)).outcome = .exited ∧
    (initAndCheckPorts lowPortEnv (initialWindow lowPortEnv)).result = none := by
  decide

/-- C6, amended: once the discovery output is parsed, `initAndCheckPorts` returns
true exactly when every one of the eleven ports passes `checkPort`; when at least
one fails it raises the start-up error as its last action and the process ends
there, so the call does not return. -/
theorem initAndCheckPorts_all_or_nothing (env : Env) (w w1 : MainWindow)
    (h : (resolvePorts env w).outcome = .ret w1) :
    ((initAndCheckPorts env w).outcome = .ret (true, w1) ↔
      ∀ kp ∈ probeOrder w1, probePasses env kp = true) ∧
    (¬ (∀ kp ∈ probeOrder w1, probePasses env kp = true) →
      (initAndCheckPorts env w).outcome = .exited ∧
      ∃ report, (initAndCheckPorts env w).events.getLast? =
        some (.startupError portsErrorMessage report)) := by
  obtain ⟨report, he⟩ := initAndCheckPorts_eq env w w1 h
  by_cases hB : (probeOrder w1).all (probePasses env) = true
  · have hall : ∀ kp ∈ probeOrder w1, probePasses env kp = true := List.all_eq_true.mp hB
    rw [he, if_pos hB]
    exact ⟨⟨fun _ => hall, fun _ => rfl⟩, fun hn => absurd hall hn⟩
  · have hall : ¬ ∀ kp ∈ probeOrder w1, probePasses env kp = true :=
      fun hc => hB (List.all_eq_true.mpr hc)
    rw [he, if_neg hB]
    refine ⟨⟨fun hc => by simp at hc, fun hc => absurd hc hall⟩, fun _ => ⟨rfl, report, ?_⟩⟩
    rw [← List.append_assoc, ← List.cons_append, List.getLast?_concat]

/-- Witness of C6 amended: `bootEnv` parses and all eleven probes pass. -/
theorem initAndCheckPorts_all_or_nothing_witness :
    (resolvePorts bootEnv (initialWindow bootEnv)).outcome =
      .ret (assignPorts (initialWindow bootEnv) (parsedMap [] bootEnv.discovery)) ∧
    (initAndCheckPorts bootEnv (initialWindow bootEnv)).outcome =
      .ret (true, assignPorts (initialWindow bootEnv) (parsedMap [] bootEnv.discovery)) :=
  ⟨by decide,
    (initAndCheckPorts_all_or_nothing bootEnv (initialWindow bootEnv) _ (by decide)).1.mpr
      (by decide)⟩

/-! ### C7 -/

/-- C7: once the discovery output is parsed, `initAndCheckPorts` probes all eleven
ports in turn whatever the earlier probes gave, and the status line of each
probe reads `[Not Available]` exactly when that probe failed; the port of every
required role is among the eleven, and nothing after the eleven reports is a
probe or a status line. -/
theorem initAndCheckPorts_reports_every_port (env : Env) (w w1 : MainWindow)
    (h : (resolvePorts env w).outcome = .ret w1) :
    (probeOrder w1).length = 11 ∧
    (∀ rp ∈ requiredPorts w1, ∃ kp ∈ probeOrder w1, kp.2 = rp.2) ∧
    ∃ tail, (initAndCheckPorts env w).events =
        (resolvePorts env w).events ++
        ((probeOrder w1).map fun kp =>
          [Event.bindTo kp.2, Event.portStatus kp.2 (probePasses env kp)]).flatten ++ tail ∧
      (∀ e ∈ tail, isProbeEvent e = false) := by
  obtain ⟨report, he⟩ := initAndCheckPorts_eq env w w1 h
  obtain ⟨hlines, _⟩ := resolvePorts_ret env w w1 h
  refine ⟨rfl, requiredPorts_probed w1, ?_⟩
  have hp : probeReport env =
      fun kp => [Event.bindTo kp.2, Event.portStatus kp.2 (probePasses env kp)] := rfl
  rw [resolvePorts_eq env w hlines, he, hp]
  by_cases hB : (probeOrder w1).all (probePasses env) = true
  · refine ⟨[], ?_, by simp⟩
    rw [if_pos hB]
    simp
  · refine ⟨startupErrorReads w1 ++ [.startupError portsErrorMessage report], ?_, ?_⟩
    · rw [if_neg hB]
      simp
    · intro e he2
      rw [List.mem_append] at he2
      rcases he2 with he2 | he2
      · unfold startupErrorReads at he2
        split at he2
        · simp only [List.mem_cons, List.mem_singleton, List.not_mem_nil, or_false] at he2
          rcases he2 with rfl | rfl | rfl | rfl | rfl <;> rfl
        · simp at he2
      · simp only [List.mem_singleton] at he2
        subst he2
        rfl

/-- Witness of C7: `lowPortEnv` parses; the probe of port 80 fails, the ten others
pass, and all eleven are reported. -/
theorem initAndCheckPorts_reports_every_port_witness :
    (resolvePorts lowPortEnv (initialWindow lowPortEnv)).outcome = .ret lowPortWindow ∧
    ((probeOrder lowPortWindow).map fun kp =>
      [Event.bindTo kp.2, Event.portStatus kp.2 (probePasses lowPortEnv kp)]).flatten =
      [.bindTo 4558, .portStatus 4558 true, .bindTo 4559, .portStatus 4559 true,
       .bindTo 4560, .portStatus 4560 true, .bindTo 80, .portStatus 80 false,
       .bindTo 4561, .portStatus 4561 true, .bindTo 4557, .portStatus 4557 true,
       .bindTo 4562, .portStatus 4562 true, .bindTo 4563, .portStatus 4563 true,
       .bindTo 4564, .portStatus 4564 true, .bindTo 4565, .portStatus 4565 true,
       .bindTo 4566, .portStatus 4566 true] ∧
    ∃ tail, (initAndCheckPorts lowPortEnv (initialWindow lowPortEnv)).events =
        (resolvePorts lowPortEnv (initialWindow lowPortEnv)).events ++
        ((probeOrder lowPortWindow).map fun kp =>
          [Event.bindTo kp.2, Event.portStatus kp.2 (probePasses lowPortEnv kp)]).flatten ++ tail ∧
      (∀ e ∈ tail, isProbeEvent e = false) :=
  ⟨by decide, by decide,
    (initAndCheckPorts_reports_every_port lowPortEnv (initialWindow lowPortEnv) lowPortWindow
      (by decide)).2.2⟩

/-! ### C8 -/

theorem requiredRoles_port (w : MainWindow) (m : PortMap) (role : String)
    (hr : role ∈ requiredRoles) : (role, m.get role) ∈ requiredPorts (assignPorts w m) := by
  rw [requiredPorts_assign]
  exact List.mem_map.mpr ⟨role, hr, rfl⟩

/-- C8: when the port map starts empty and one of the eleven required roles is the
key of no discovery line, `initAndCheckPorts` never returns; and as long as every
line has its two fields the call ends the process by raising the start-up error,
whatever the binds give. -/
theorem initAndCheckPorts_missing_role (env : Env) (w : MainWindow) (role : String)
    (hm : w.port_map = []) (hr : role ∈ requiredRoles)
    (habs : ∀ l ∈ env.discovery, lineRole l ≠ role) :
    (∀ b w2, (initAndCheckPorts env w).outcome ≠ .ret (b, w2)) ∧
    ((∀ l ∈ env.discovery, 2 ≤ (split l ": ").length) →
      (initAndCheckPorts env w).outcome = .exited ∧
      ∃ report, (initAndCheckPorts env w).events.getLast? =
        some (.startupError portsErrorMessage report)) := by
  by_cases hlines : ∀ l ∈ env.discovery, 2 ≤ (split l ": ").length
  · have hres := resolvePorts_eq env w hlines
    have hout : (resolvePorts env w).outcome =
        .ret (assignPorts w (parsedMap w.port_map env.discovery)) := by rw [hres]
    obtain ⟨report, he⟩ := initAndCheckPorts_eq env w _ hout
    have hzero : (parsedMap w.port_map env.discovery).get role = 0 := by
      rw [get_foldl_absent _ _ _ habs, hm]; rfl
    have hmem := requiredRoles_port w (parsedMap w.port_map env.discovery) role hr
    have hB := not_all_pass_of_low env _ _ hmem (by simp only [hzero]; decide)
    rw [if_neg hB] at he
    rw [he]
    refine ⟨fun b w2 hc => by simp at hc, fun _ => ⟨rfl, report, ?_⟩⟩
    rw [← List.append_assoc, ← List.cons_append, List.getLast?_concat]
  · rw [initAndCheckPorts_undefined env w hlines]
    exact ⟨fun b w2 hc => by simp at hc, fun hc => absurd hc hlines⟩

/-- Witness of C8: `missingRoleEnv` has no line for `websocket`; all binds succeed,
and `initAndCheckPorts` ends the process with the start-up error. -/
theorem initAndCheckPorts_missing_role_witness :
    (initialWindow missingRoleEnv).port_map = [] ∧ "websocket" ∈ requiredRoles ∧
    (∀ l ∈ missingRoleEnv.discovery, lineRole l ≠ "websocket") ∧
    (∀ l ∈ missingRoleEnv.discovery, 2 ≤ (split l ": ").length) ∧
    (initAndCheckPorts missingRoleEnv (initialWindow missingRoleEnv)).outcome = .exited :=
  ⟨rfl, by decide, by decide, by decide,
    ((initAndCheckPorts_missing_role missingRoleEnv (initialWindow missingRoleEnv) "websocket"
      rfl (by decide) (by decide)).2 (by decide)).1⟩

/-! ### C9 -/

theorem ctor_of_ports_exited (env : Env)
    (h : (initAndCheckPorts env (initialWindow env)).outcome = .exited) :
    MainWindow_MainWindow env = ⟨(initAndCheckPorts env (initialWindow env)).events, .exited⟩ := by
  unfold MainWindow_MainWindow
  simp [run_bind, Run.bind, h]

/-- C9: when discovery resolves one of the eleven required roles to a port below
1024, the constructor ends the process by raising the start-up error as its last
action, and no server process is launched. -/
theorem ctor_low_port_never_launches (env : Env) (w1 : MainWindow)
    (h : (resolvePorts env (initialWindow env)).outcome = .ret w1)
    (rp : String × Int) (hrp : rp ∈ requiredPorts w1) (hlow : rp.2 < 1024) :
    (MainWindow_MainWindow env).outcome = .exited ∧
    (∃ report, (MainWindow_MainWindow env).events.getLast? =
      some (.startupError portsErrorMessage report)) ∧
    (∀ args, Event.launchServer args ∉ (MainWindow_MainWindow env).events) := by
  obtain ⟨report, he⟩ := initAndCheckPorts_eq env (initialWindow env) w1 h
  have hB := not_all_pass_of_low env w1 rp hrp hlow
  rw [if_neg hB] at he
  have hex : (initAndCheckPorts env (initialWindow env)).outcome = .exited := by rw [he]
  rw [ctor_of_ports_exited env hex, he]
  refine ⟨rfl, ⟨report, ?_⟩, ?_⟩
  · show (_ :: (_ ++ (_ ++ [_]))).getLast? = _
    rw [← List.append_assoc, ← List.cons_append, List.getLast?_concat]
  · intro args hmem
    simp only [List.mem_cons, List.mem_append, List.mem_flatten, List.mem_map,
      List.mem_singleton, List.not_mem_nil, or_false] at hmem
    rcases hmem with hmem | ⟨l, ⟨kp, _, rfl⟩, hmem⟩ | hmem | hmem
    · cases hmem
    · simp [probeReport] at hmem
    · unfold startupErrorReads at hmem
      split at hmem
      · simp at hmem
      · simp at hmem
    · cases hmem

/-- Witness of C9: `lowPortEnv` pins `scsynth` to port 80; the constructor raises the
start-up error and launches nothing. -/
theorem ctor_low_port_never_launches_witness :
    (resolvePorts lowPortEnv (initialWindow lowPortEnv)).outcome = .ret lowPortWindow ∧
    (("scsynth", 80) : String × Int) ∈ requiredPorts lowPortWindow ∧
    (MainWindow_MainWindow lowPortEnv).outcome = .exited ∧
    (∃ report, (MainWindow_MainWindow lowPortEnv).events.getLast? =
      some (.startupError portsErrorMessage report)) ∧
    (∀ args, Event.launchServer args ∉ (MainWindow_MainWindow lowPortEnv).events) :=
  ⟨by decide, by decide,
    ctor_low_port_never_launches lowPortEnv lowPortWindow (by decide) ("scsynth", 80)
      (by decide) (by decide)⟩

/-! ### C10 -/

/-- C12: called where the constructor calls it (transport constructed, nothing
queued, no error reported yet) with a writable home directory and no marker in
any of the log reads, `waitForServiceSync` performs exactly 60 polls, raises the
start-up error through `invokeStartupError`, returns false and sends no message:
the ping phase is never entered. -/
theorem waitForServiceSync_marker_never (env : Env) (w : MainWindow)
    (hT : w.sonicPiOSCServer = true) (hq : w.queued = [])
    (hr : w.startup_error_reported = false) (hw : w.homeDirWritable = true)
    (hnever : ∀ i, i < 60 → markerAt env w i = false) :
    (waitForServiceSync env w).events =
      (List.replicate 60 (missedPoll w)).flatten ++
        [.stopTransport, .queueStartupError bootErrorMessage] ∧
    (waitForServiceSync env w).result.map Prod.fst = some false ∧
    (waitForServiceSync env w).events.countP isReadEvent = 60 ∧
    (waitForServiceSync env w).events.countP isSendEvent = 0 := by
  have hpoll := pollLog_never env w hq 60 0 (by simpa using hnever)
  have hinv := invokeStartupError_eq w bootErrorMessage hT hr
  simp only [bootErrorMessage] at hinv
  have he : waitForServiceSync env w =
      ⟨(List.replicate 60 (missedPoll w)).flatten ++
        [.stopTransport, .queueStartupError bootErrorMessage],
       .ret (false, { w with startup_error_reported := true,
                             queued := w.queued ++ [bootErrorMessage] })⟩ := by
    simp [waitForServiceSync, hw, hpoll, hinv, run_bind, Run.bind, run_pure, bootErrorMessage]
  rw [he]
  refine ⟨rfl, rfl, ?_, ?_⟩
  · simp only [List.countP_append, List.countP_flatten, List.map_replicate]
    simp [missedPoll, isReadEvent, List.countP_cons]
  · simp only [List.countP_append, List.countP_flatten, List.map_replicate]
    simp [missedPoll, isSendEvent, List.countP_cons]

/-- Witness of C12: `markerNeverEnv` never shows the marker. -/
theorem waitForServiceSync_marker_never_witness :
    bootWindow.sonicPiOSCServer = true ∧ bootWindow.queued = [] ∧
    bootWindow.startup_error_reported = false ∧ bootWindow.homeDirWritable = true ∧
    (∀ i, i < 60 → markerAt markerNeverEnv bootWindow i = false) ∧
    (waitForServiceSync markerNeverEnv bootWindow).result.map Prod.fst = some false ∧
    (waitForServiceSync markerNeverEnv bootWindow).events.countP isReadEvent = 60 ∧
    (waitForServiceSync markerNeverEnv bootWindow).events.countP isSendEvent = 0 :=
  ⟨rfl, rfl, rfl, rfl, fun _ _ =>
      (by decide : markerAt markerNeverEnv bootWindow 0 = false),
    (waitForServiceSync_marker_never markerNeverEnv bootWindow rfl rfl rfl rfl
      (fun _ _ =>
      (by decide : markerAt markerNeverEnv bootWindow 0 = false))).2⟩

/-! ### C13 -/

/-- The trace of `waitForServiceSync` when the home directory is not writable. -/
theorem waitForServiceSync_unwritable (env : Env) (w : MainWindow)
    (hT : w.sonicPiOSCServer = true) (hw : w.homeDirWritable = false) :
    ∃ tail w2, waitForServiceSync env w =
        ⟨.sleep 15 :: (pingPhase env w ++ tail),
          .ret (env.server_started (ticksRun env 60 0), w2)⟩ ∧
      (tail = [] ∨ tail = [.stopTransport, .queueStartupError connectErrorMessage]) := by
  have hping := pingLoop_eq env w 60 0
  simp only [Nat.zero_add] at hping
  obtain ⟨tb, wb, hwb, htb, _, _⟩ := invokeStartupError_cases w connectErrorMessage hT
  simp only [connectErrorMessage] at hwb
  have hpe : pingPhase env w = (pingLoop env w 60 0).events := rfl
  by_cases hs : env.server_started (ticksRun env 60 0) = true
  · refine ⟨[], w, ?_, Or.inl rfl⟩
    rw [hpe, hping]
    simp [waitForServiceSync, hw, hT, hs, hping, run_bind, Run.bind, emit, run_pure,
      isServerStarted]
  · refine ⟨tb, wb, ?_, htb⟩
    rw [hpe, hping]
    simp [waitForServiceSync, hw, hT, hs, hping, hwb, run_bind, Run.bind, emit, run_pure,
      isServerStarted]

/-- C13: called with the transport constructed and a home directory that is not
writable, `waitForServiceSync` never reads a file, sleeps 15 seconds once and
goes straight into the ping phase; it returns true exactly when the
server-started acknowledgment is observed within the countdown, and false
otherwise. -/
theorem waitForServiceSync_degraded (env : Env) (w : MainWindow)
    (hT : w.sonicPiOSCServer = true) (hw : w.homeDirWritable = false) :
    (∃ tail, (waitForServiceSync env w).events = .sleep 15 :: (pingPhase env w ++ tail) ∧
      (tail = [] ∨ tail = [.stopTransport, .queueStartupError connectErrorMessage])) ∧
    (waitForServiceSync env w).events.countP isReadEvent = 0 ∧
    (waitForServiceSync env w).events.count (.sleep 15) = 1 ∧
    ((waitForServiceSync env w).result.map Prod.fst = some true ↔ ackObserved env) ∧
    ((waitForServiceSync env w).result.map Prod.fst = some false ↔ ¬ ackObserved env) := by
  obtain ⟨tail, w2, he, ht⟩ := waitForServiceSync_unwritable env w hT hw
  have hack := started_at_ticksRun env w
  rw [he]
  refine ⟨⟨tail, rfl, ht⟩, ?_, ?_, ?_, ?_⟩
  · rcases ht with rfl | rfl <;>
      simp [List.countP_cons, List.countP_append, countP_read_pingPhase, isReadEvent]
  · rcases ht with rfl | rfl <;>
      simp [List.count_cons, List.count_append, count_sleep15_pingPhase]
  · simp only [Run.result, Option.map_some', Option.some.injEq]
    exact hack
  · simp only [Run.result, Option.map_some', Option.some.injEq]
    rw [← hack]
    simp

/-- Witness of C13: `degradedWindow` has no writable home directory; in `bootEnv`
the acknowledgment arrives and the call returns true without reading a file. -/
theorem waitForServiceSync_degraded_witness :
    degradedWindow.sonicPiOSCServer = true ∧ degradedWindow.homeDirWritable = false ∧
    (waitForServiceSync bootEnv degradedWindow).events.countP isReadEvent = 0 ∧
    (waitForServiceSync bootEnv degradedWindow).events.count (.sleep 15) = 1 ∧
    (waitForServiceSync bootEnv degradedWindow).result.map Prod.fst = some true :=
  have h := waitForServiceSync_degraded bootEnv degradedWindow rfl rfl
  ⟨rfl, rfl, h.2.1, h.2.2.1, h.2.2.2.1.mpr ⟨2, by decide, by decide⟩⟩

/-! ### C14 -/

/-- C14: the ping phase of `waitForServiceSync` runs tick after tick; each tick
sleeps one second and then sends exactly one message if the incoming port of the
transport is open at that tick and none otherwise; every message sent by
`waitForServiceSync` is `/ping` with the arguments `guiID` and
`QtClient/1/hello`; so the number of pings is the number of ticks run at which
the incoming port was open. -/
theorem pingLoop_one_ping_per_open_tick (env : Env) (w : MainWindow) :
    (pingLoop env w 60 0).outcome = .ret (ticksRun env 60 0) ∧
    (pingLoop env w 60 0).events =
      ((List.range (ticksRun env 60 0)).map fun j =>
        Event.sleep 1 :: (if env.osc_incoming_port_open (j + 1)
          then [Event.send ⟨"/ping", [.str w.guiID, .str "QtClient/1/hello"]⟩]
          else [])).flatten ∧
    SendsOnly (fun m => m = ⟨"/ping", [.str w.guiID, .str "QtClient/1/hello"]⟩)
      (waitForServiceSync env w) ∧
    (pingLoop env w 60 0).events.countP isSendEvent =
      ((List.range (ticksRun env 60 0)).filter
        fun j => env.osc_incoming_port_open (j + 1)).length := by
  refine ⟨?_, ?_, sendsOnly_waitForServiceSync env w, countP_send_pingPhase env w⟩
  · rw [pingLoop_eq]; simp
  · exact pingPhase_eq env w

/-! ### C15 -/

/-- C15: the ping loop always returns, after at most 60 ticks and at most 60
pings, and `waitForServiceSync` as a whole sends at most 60 messages (the ping
phase is run once); when the acknowledgment is never observed the loop runs
exactly 60 ticks and `waitForServiceSync` returns false. -/
theorem pingLoop_bounded (env : Env) (w : MainWindow)
    (hT : w.sonicPiOSCServer = true) (hq : w.queued = []) :
    ticksRun env 60 0 ≤ 60 ∧
    (pingLoop env w 60 0).outcome = .ret (ticksRun env 60 0) ∧
    (pingLoop env w 60 0).events.countP isTickEvent = ticksRun env 60 0 ∧
    (pingLoop env w 60 0).events.countP isSendEvent ≤ 60 ∧
    (waitForServiceSync env w).events.countP isSendEvent ≤ 60 ∧
    ((∀ t, t ≤ 60 → env.server_started t = false) →
      ticksRun env 60 0 = 60 ∧
      (waitForServiceSync env w).result.map Prod.fst = some false) := by
  refine ⟨ticksRun_le env 60 0, by rw [pingLoop_eq]; simp, countP_tick_pingPhase env w,
    countP_send_pingPhase_le env w, countP_send_waitForServiceSync_le env w hT hq, ?_⟩
  intro hnever
  refine ⟨ticksRun_never env 60 0 (by simpa using hnever), ?_⟩
  have hno : ¬ ((markerObserved env w ∨ w.homeDirWritable = false) ∧ ackObserved env) := by
    rintro ⟨_, t, ht, hs⟩
    rw [hnever t ht] at hs
    exact Bool.false_ne_true hs
  obtain ⟨w2, h2⟩ := (waitForServiceSync_outcome env w hT hq).2 hno
  simp [Run.result, h2]

/-- Witness of C15: in `ackNeverEnv` the server never acknowledges; the countdown
runs its 60 ticks and `waitForServiceSync` returns false. -/
theorem pingLoop_bounded_witness :
    bootWindow.sonicPiOSCServer = true ∧ bootWindow.queued = [] ∧
    (∀ t, t ≤ 60 → ackNeverEnv.server_started t = false) ∧
    ticksRun ackNeverEnv 60 0 = 60 ∧
    (waitForServiceSync ackNeverEnv bootWindow).result.map Prod.fst = some false :=
  ⟨rfl, rfl, fun _ _ => rfl,
    (pingLoop_bounded ackNeverEnv bootWindow rfl rfl).2.2.2.2.2 (fun _ _ => rfl)⟩

/-! ### C11 -/

/-- C11, the code at the failing inputs: when the log never shows the marker
(`markerNeverEnv`) or the server never acknowledges (`ackNeverEnv`), the
start-up error is raised twice, once queued by `invokeStartupError` inside
`waitForServiceSync` and once more by the direct call of `startupError` in the
constructor; when the server cannot be spawned (`spawnFailureEnv`) it is not
raised at all; only an unavailable port (`lowPortEnv`) raises it exactly once. -/
theorem ctor_startup_error_not_once :
    (MainWindow_MainWindow markerNeverEnv).events.filter isStartupErrorEvent =
      [.queueStartupError bootErrorMessage,
       .startupError unableToConnectMessage ⟨"", "", "", "", ""⟩] ∧
    (MainWindow_MainWindow ackNeverEnv).events.filter isStartupErrorEvent =
      [.queueStartupError connectErrorMessage,
       .startupError unableToConnectMessage ⟨"", "", "", "", ""⟩] ∧
    (MainWindow_MainWindow spawnFailureEnv).events.filter isStartupErrorEvent = [] ∧
    (MainWindow_MainWindow lowPortEnv).events.countP isStartupErrorEvent = 1 := by
  decide

/-! ### C16 -/

/-- C16, counterexample: in `bootEnv` the constructor sends three preference
messages before the first `/ping`, so before `waitForServiceSync` has returned
at all. -/
theorem ctor_sends_preferences_before_ready :
    ((MainWindow_MainWindow bootEnv).events.filterMap Event.message?).map Message.address =
      ["/enable-update-checking", "/midi-start", "/osc-port-stop", "/ping", "/ping",
       "/load-buffer", "/load-buffer", "/load-buffer", "/load-buffer", "/load-buffer",
       "/load-buffer", "/load-buffer", "/load-buffer", "/load-buffer", "/load-buffer",
       "/version", "/mixer-amp"] := by
  decide

/-- C16, amended: when the ports validate, there are at most ten workspaces and
the server spawns, the messages the constructor sends before `waitForServiceSync` returns are the three preference
messages of `honourPrefs` followed by the boot `/ping` messages; whatever is sent
afterwards is `/load-buffer`, `/version` or `/mixer-amp`, and nothing is sent
afterwards unless `waitForServiceSync` returned true. -/
theorem ctor_sends_before_and_after_ready (env : Env) (w1 : MainWindow)
    (h : (initAndCheckPorts env (initialWindow env)).outcome = .ret (true, w1))
    (hmax : env.workspace_max ≤ 10) (hs : env.waitForStarted = true) :
    ∃ rest, (MainWindow_MainWindow env).events = bootTrace env w1 ++ rest ∧
      (honourPrefs env { w1 with sonicPiOSCServer := true }).events.countP isSendEvent = 3 ∧
      (∀ m, Event.send m ∈ bootTrace env w1 →
        m.address ∈ prefsAddresses ∨ m = pingMessage { w1 with sonicPiOSCServer := true }) ∧
      (∀ m, Event.send m ∈ rest → m.address ∈ readyAddresses) ∧
      ((waitForServiceSync env { w1 with sonicPiOSCServer := true }).result.map Prod.fst ≠
          some true → ∀ m, Event.send m ∉ rest) := by
  obtain ⟨ready, w3, h3, he⟩ := ctor_boot env w1 h hmax hs
  refine ⟨_, he, honourPrefs_three_messages env _, ?_, ?_, ?_⟩
  · intro m hm
    simp only [bootTrace, List.mem_append, List.mem_cons] at hm
    rcases hm with ((hm | hm | hm) | hm | hm) | hm
    · exact absurd (sendsOnly_initAndCheckPorts (P := fun _ => False) env _ m hm) id
    · cases hm
    · exact absurd (sendsOnly_startRubyServer (P := fun _ => False) env _ m hm) id
    · cases hm
    · exact Or.inl (sendsOnly_honourPrefs env _ m hm).2
    · exact Or.inr (sendsOnly_waitForServiceSync env _ m hm)
  · intro m hm
    split at hm
    · exact (sendsOnly_afterReady env w3 m hm).2
    · exact absurd (sendsOnly_startupError (P := fun _ => False) env w3 _ m hm) id
  · intro hnot m hm
    have hr : ready = false := by
      cases ready
      · rfl
      · exact absurd (by simp [Run.result, h3]) hnot
    subst hr
    exact absurd (sendsOnly_startupError (P := fun _ => False) env w3 _ m hm) id

/-- Witness of C16 amended: `bootEnv` validates its ports, has ten workspaces and
spawns the server. -/
theorem ctor_sends_before_and_after_ready_witness :
    (initAndCheckPorts bootEnv (initialWindow bootEnv)).outcome =
      .ret (true, assignPorts (initialWindow bootEnv) (parsedMap [] bootEnv.discovery)) ∧
    bootEnv.workspace_max ≤ 10 ∧ bootEnv.waitForStarted = true ∧
    ∃ rest, (MainWindow_MainWindow bootEnv).events =
        bootTrace bootEnv (assignPorts (initialWindow bootEnv) (parsedMap [] bootEnv.discovery))
          ++ rest ∧
      (honourPrefs bootEnv bootWindow).events.countP isSendEvent = 3 ∧
      (∀ m, Event.send m ∈
          bootTrace bootEnv (assignPorts (initialWindow bootEnv) (parsedMap [] bootEnv.discovery)) →
        m.address ∈ prefsAddresses ∨ m = pingMessage bootWindow) ∧
      (∀ m, Event.send m ∈ rest → m.address ∈ readyAddresses) ∧
      ((waitForServiceSync bootEnv bootWindow).result.map Prod.fst ≠ some true →
        ∀ m, Event.send m ∉ rest) :=
  ⟨by decide, by decide, rfl,
    ctor_sends_before_and_after_ready bootEnv
      (assignPorts (initialWindow bootEnv) (parsedMap [] bootEnv.discovery)) (by decide)
      (by decide) rfl⟩

/-! ### C17 -/

/-- C17: every message an operation of `MainWindow` hands to `sendOSC` has the
string `guiID` as its first argument, no operation changes `guiID`, and the same
holds for the constructor, which sets `guiID` once and for all. -/
theorem first_argument_is_guiID (env : Env) (gui : Gui) (w : MainWindow) (op : Operation) :
    SendsOnly (firstArgIs w.guiID) (op.run env gui w) ∧
    ReturnsOnly (fun w2 => w2.guiID = w.guiID) (op.run env gui w) ∧
    (initialWindow env).guiID = env.guiID ∧
    SendsOnly (firstArgIs env.guiID) (MainWindow_MainWindow env) ∧
    ReturnsOnly (fun w2 => w2.guiID = env.guiID) (MainWindow_MainWindow env) :=
  ⟨sendsOnly_operation env gui w op, returnsOnly_operation env gui w op, rfl,
    sendsOnly_ctor env, returnsOnly_ctor env⟩

/-! ### C18 -/

/-- C18, counterexample: in `bootEnv` all eleven ports validate, the server is
launched once with nine port arguments, and the ports of the roles
`gui-send-to-server` (4557) and `gui-listen-to-server` (4558) are not among the
launch arguments. -/
theorem startRubyServer_omits_gui_ports :
    (MainWindow_MainWindow bootEnv).events.filterMap Event.launchArgs? =
      [["-E", "utf-8", "/opt/sonic-pi/app/server/ruby/bin/sonic-pi-server.rb", "-u",
        "4559", "4561", "4556", "4562", "4560", "4563", "4564", "4565", "4566"]] ∧
    bootWindow.gui_send_to_server_port = 4557 ∧
    bootWindow.gui_listen_to_server_port = 4558 ∧
    (∀ args ∈ (MainWindow_MainWindow bootEnv).events.filterMap Event.launchArgs?,
      toString bootWindow.gui_send_to_server_port ∉ args ∧
      toString bootWindow.gui_listen_to_server_port ∉ args) := by
  decide

/-- C18, amended: `startRubyServer` launches the server process exactly once, and
the launch arguments are the optional frozen-string flag, the encoding, the path
of the server script, the transport-mode flag and then, in this order, the
decimal renderings of the nine ports of `serverPorts`; the ports of
`gui-send-to-server` and `gui-listen-to-server` are not passed. -/
theorem startRubyServer_passes_nine_ports (env : Env) (w : MainWindow) :
    (startRubyServer env w).events.filterMap Event.launchArgs? =
      [(if env.macOrWin then ["--enable-frozen-string-literal"] else []) ++
        ["-E", "utf-8", w.ruby_server_path, if w.protocol = .TCP then "-t" else "-u"] ++
        (serverPorts w).map toString] ∧
    (∀ p ∈ serverPorts w, ∀ args ∈ (startRubyServer env w).events.filterMap Event.launchArgs?,
      toString p ∈ args) ∧
    (serverPorts w).length = 9 := by
  have hE : (startRubyServer env w).events.filterMap Event.launchArgs? =
      [(if env.macOrWin then ["--enable-frozen-string-literal"] else []) ++
        ["-E", "utf-8", w.ruby_server_path, if w.protocol = .TCP then "-t" else "-u"] ++
        (serverPorts w).map toString] := by
    cases hs : env.waitForStarted <;> cases hr : w.startup_error_reported <;>
      cases hT : w.sonicPiOSCServer <;>
      simp [startRubyServer, invokeStartupError, undefinedBehaviour, hs, hr, hT, run_bind,
        Run.bind, emit, run_pure, Event.launchArgs?, serverPorts]
  refine ⟨hE, ?_, rfl⟩
  intro p hp args hargs
  rw [hE] at hargs
  rw [List.mem_singleton.mp hargs]
  exact List.mem_append_right _ (List.mem_map_of_mem _ hp)

/-! ### C19 -/

/-- C19, counterexample: two calls of `onExitCleanup` in a row with the server
process still running at both (`runningGui`) stop the transport twice, send
`/exit` twice and run the exit script twice; when the server process has exited
before the second call (`stoppedGui`) the second call still stops the transport
and runs the exit script again. -/
theorem onExitCleanup_second_call_repeats_teardown :
    (onExitCleanupTwice bootEnv runningGui runningGui bootWindow).events =
      [.stopTransport, .sleep 1, .send (exitMessage bootWindow), .waitForOscThread, .sleep 2,
       .runScript "/opt/sonic-pi/app/server/ruby/bin/exit-script.rb",
       .stopTransport, .sleep 1, .send (exitMessage bootWindow), .waitForOscThread, .sleep 2,
       .runScript "/opt/sonic-pi/app/server/ruby/bin/exit-script.rb"] ∧
    (onExitCleanupTwice bootEnv runningGui stoppedGui bootWindow).events =
      [.stopTransport, .sleep 1, .send (exitMessage bootWindow), .waitForOscThread, .sleep 2,
       .runScript "/opt/sonic-pi/app/server/ruby/bin/exit-script.rb",
       .stopTransport, .waitForOscThread, .sleep 2,
       .runScript "/opt/sonic-pi/app/server/ruby/bin/exit-script.rb"] := by
  decide

/-- C19, amended: `onExitCleanup` has no guard against repeated invocation. With
the transport constructed, two calls in a row run to completion and the trace is
the trace of the first call followed by the trace of the second; the second call
stops the transport once more and runs the exit script once more, and it sends
`/exit` exactly when the server process is still running at that call. -/
theorem onExitCleanupTwice_repeats (env : Env) (first second : Gui) (w : MainWindow)
    (hT : w.sonicPiOSCServer = true) (hmax : env.workspace_max ≤ 10) :
    (onExitCleanupTwice env first second w).outcome = .ret () ∧
    (onExitCleanupTwice env first second w).events =
      (onExitCleanup env first w).events ++ (onExitCleanup env second w).events ∧
    (onExitCleanup env second w).events.count .stopTransport = 1 ∧
    (onExitCleanup env second w).events.count (.runScript w.exit_script_path) = 1 ∧
    (Event.send (exitMessage w) ∈ (onExitCleanup env second w).events ↔
      second.serverNotRunning = false) := by
  obtain ⟨s1, _, h1⟩ := onExitCleanup_eq env first w hT hmax
  obtain ⟨s2, hs2, h2⟩ := onExitCleanup_eq env second w hT hmax
  have hstop : s2.count .stopTransport = 0 := by
    apply List.count_eq_zero.mpr
    intro hm
    obtain ⟨m, hm2, _⟩ := hs2 _ hm
    cases hm2
  have hscript : s2.count (.runScript w.exit_script_path) = 0 := by
    apply List.count_eq_zero.mpr
    intro hm
    obtain ⟨m, hm2, _⟩ := hs2 _ hm
    cases hm2
  have hexit : Event.send (exitMessage w) ∉ s2 := by
    intro hm
    obtain ⟨m, hm2, ha⟩ := hs2 _ hm
    cases hm2
    simp [exitMessage] at ha
  refine ⟨?_, ?_, ?_, ?_, ?_⟩
  · simp [onExitCleanupTwice, run_bind, Run.bind, h1, h2]
  · simp [onExitCleanupTwice, run_bind, Run.bind, h1, h2]
  · rw [h2]
    cases w.protocol <;> cases second.serverNotRunning <;> simp [hstop]
  · rw [h2]
    cases w.protocol <;> cases second.serverNotRunning <;> simp [hscript]
  · rw [h2]
    cases w.protocol <;> cases second.serverNotRunning <;> simp [hexit]

/-- Witness of C19 amended: the booted window, the server process running at the
first call and stopped at the second. -/
theorem onExitCleanupTwice_repeats_witness :
    bootWindow.sonicPiOSCServer = true ∧ bootEnv.workspace_max ≤ 10 ∧
    (onExitCleanupTwice bootEnv runningGui stoppedGui bootWindow).outcome = .ret () ∧
    (onExitCleanupTwice bootEnv runningGui stoppedGui bootWindow).events =
      (onExitCleanup bootEnv runningGui bootWindow).events ++
        (onExitCleanup bootEnv stoppedGui bootWindow).events ∧
    (onExitCleanup bootEnv stoppedGui bootWindow).events.count .stopTransport = 1 ∧
    (onExitCleanup bootEnv stoppedGui bootWindow).events.count
      (.runScript bootWindow.exit_script_path) = 1 ∧
    (Event.send (exitMessage bootWindow) ∈ (onExitCleanup bootEnv stoppedGui bootWindow).events ↔
      stoppedGui.serverNotRunning = false) :=
  ⟨rfl, by decide, onExitCleanupTwice_repeats bootEnv runningGui stoppedGui bootWindow rfl
    (by decide)⟩

/-! ### C20 -/

/-- C20, counterexample: in a run of `onExitCleanup` with the server process
running, the transport is stopped first and the `/exit` message is sent after
it. -/
theorem onExitCleanup_stops_transport_before_exit :
    runningGui.serverNotRunning = false ∧
    (onExitCleanup bootEnv runningGui bootWindow).events =
      [.stopTransport, .sleep 1, .send (exitMessage bootWindow), .waitForOscThread, .sleep 2,
       .runScript "/opt/sonic-pi/app/server/ruby/bin/exit-script.rb"] := by
  decide

/-- C20, amended: in every run of `onExitCleanup` with the transport constructed
and the server process running, the call `sonicPiOSCServer->stop()` is the first
action, it happens once, and the `/exit` message is sent once, after it; between
the two come the closing of the TCP socket, the `/save-buffer` messages and a
sleep of one second. -/
theorem onExitCleanup_exit_after_stop (env : Env) (gui : Gui) (w : MainWindow)
    (hT : w.sonicPiOSCServer = true) (hmax : env.workspace_max ≤ 10)
    (hrun : gui.serverNotRunning = false) :
    ∃ mid rest, (onExitCleanup env gui w).events =
        .stopTransport :: (mid ++ .send (exitMessage w) :: rest) ∧
      Event.stopTransport ∉ mid ++ rest ∧
      Event.send (exitMessage w) ∉ mid ++ rest := by
  obtain ⟨s, hs, h⟩ := onExitCleanup_eq env gui w hT hmax
  have hstop : Event.stopTransport ∉ s := by
    intro hm
    obtain ⟨m, hm2, _⟩ := hs _ hm
    cases hm2
  have hexit : Event.send (exitMessage w) ∉ s := by
    intro hm
    obtain ⟨m, hm2, ha⟩ := hs _ hm
    cases hm2
    simp [exitMessage] at ha
  refine ⟨(if w.protocol = .TCP then [.closeClientSocket] else []) ++ s ++ [.sleep 1],
    (if w.protocol = .UDP then [.waitForOscThread] else []) ++
      [.sleep 2, .runScript w.exit_script_path], ?_, ?_, ?_⟩
  · rw [h]
    simp [hrun]
  · cases w.protocol <;> simp [hstop]
  · cases w.protocol <;> simp [hexit]

/-- Witness of C20 amended: the booted window with the server process running. -/
theorem onExitCleanup_exit_after_stop_witness :
    bootWindow.sonicPiOSCServer = true ∧ bootEnv.workspace_max ≤ 10 ∧
    runningGui.serverNotRunning = false ∧
    ∃ mid rest, (onExitCleanup bootEnv runningGui bootWindow).events =
        .stopTransport :: (mid ++ .send (exitMessage bootWindow) :: rest) ∧
      Event.stopTransport ∉ mid ++ rest ∧
      Event.send (exitMessage bootWindow) ∉ mid ++ rest :=
  ⟨rfl, by decide, rfl,
    onExitCleanup_exit_after_stop bootEnv runningGui bootWindow rfl (by decide) rfl⟩

/-! ### C21 -/

/-- C21: with the transport constructed and at most ten workspaces,
`onExitCleanup` returns, and its trace ends with the sleep of two seconds and the
exit script, which runs once, after every message; an `/exit` message is sent
(once, carrying `guiID`) exactly when the server process is not in state
`NotRunning`. -/
theorem onExitCleanup_requests_then_forces (env : Env) (gui : Gui) (w : MainWindow)
    (hT : w.sonicPiOSCServer = true) (hmax : env.workspace_max ≤ 10) :
    (onExitCleanup env gui w).outcome = .ret () ∧
    ∃ before, (onExitCleanup env gui w).events =
        before ++ [.sleep 2, .runScript w.exit_script_path] ∧
      (∀ script, Event.runScript script ∉ before) ∧
      (Event.send (exitMessage w) ∈ before ↔ gui.serverNotRunning = false) ∧
      before.count (.send (exitMessage w)) = (if gui.serverNotRunning then 0 else 1) ∧
      (∀ m, Event.send m ∈ before → m.address = "/exit" → m = exitMessage w) := by
  obtain ⟨s, hs, h⟩ := onExitCleanup_eq env gui w hT hmax
  have hscript : ∀ script, Event.runScript script ∉ s := by
    intro script hm
    obtain ⟨m, hm2, _⟩ := hs _ hm
    cases hm2
  have hexit : Event.send (exitMessage w) ∉ s := by
    intro hm
    obtain ⟨m, hm2, ha⟩ := hs _ hm
    cases hm2
    simp [exitMessage] at ha
  have hcount : s.count (.send (exitMessage w)) = 0 := List.count_eq_zero.mpr hexit
  have haddr : ∀ m, Event.send m ∈ s → m.address = "/exit" → m = exitMessage w := by
    intro m hm ha
    obtain ⟨m2, hm2, ha2⟩ := hs _ hm
    cases hm2
    rw [ha] at ha2
    simp at ha2
  rw [h]
  refine ⟨rfl, .stopTransport :: ((if w.protocol = .TCP then [.closeClientSocket] else []) ++
      (if gui.serverNotRunning then [] else s ++ [.sleep 1, .send (exitMessage w)]) ++
      (if w.protocol = .UDP then [.waitForOscThread] else [])), by simp, ?_, ?_, ?_, ?_⟩
  · intro script
    cases w.protocol <;> cases gui.serverNotRunning <;> simp [hscript]
  · cases w.protocol <;> cases gui.serverNotRunning <;> simp [hexit]
  · cases w.protocol <;> cases gui.serverNotRunning <;> simp [hcount]
  · intro m hm ha
    cases hp : w.protocol <;> cases hn : gui.serverNotRunning <;>
      simp [hp, hn] at hm
    · rcases hm with hm | hm
      · exact haddr m hm ha
      · exact hm
    · rcases hm with hm | hm
      · exact haddr m hm ha
      · exact hm

/-- Witness of C21: the booted window with the server process running. -/
theorem onExitCleanup_requests_then_forces_witness :
    bootWindow.sonicPiOSCServer = true ∧ bootEnv.workspace_max ≤ 10 ∧
    (onExitCleanup bootEnv runningGui bootWindow).outcome = .ret () ∧
    ∃ before, (onExitCleanup bootEnv runningGui bootWindow).events =
        before ++ [.sleep 2, .runScript bootWindow.exit_script_path] ∧
      (∀ script, Event.runScript script ∉ before) ∧
      (Event.send (exitMessage bootWindow) ∈ before ↔ runningGui.serverNotRunning = false) ∧
      before.count (.send (exitMessage bootWindow)) =
        (if runningGui.serverNotRunning then 0 else 1) ∧
      (∀ m, Event.send m ∈ before → m.address = "/exit" → m = exitMessage bootWindow) :=
  ⟨rfl, by decide,
    onExitCleanup_requests_then_forces bootEnv runningGui bootWindow rfl (by decide)⟩

/-! ### C22 -/

/-- C22: `startupError` ends the process after showing the error box, and the
five log sections of its report are, when the home directory is not writable,
the text "Permissions error: unable to access log" each, and otherwise what
`readFile` returns for the GUI log, the server error log, the server output log,
the scsynth log and the process log; `readFile` returns the content of a file
that can be opened and the empty string for one that cannot. -/
theorem startupError_diagnostics (env : Env) (w : MainWindow) (msg : String) :
    startupError env w msg =
      ⟨startupErrorReads w ++
        [.startupError msg
          (if w.homeDirWritable then
            { gui_log := (env.fsAtError w.gui_log_path).getD ""
              server_error_log := (env.fsAtError w.server_error_log_path).getD ""
              server_output_log := (env.fsAtError w.server_output_log_path).getD ""
              scsynth_log := (env.fsAtError w.scsynth_log_path).getD ""
              processes_log := (env.fsAtError w.process_log_path).getD "" }
           else
            { gui_log := "Permissions error: unable to access log"
              server_error_log := "Permissions error: unable to access log"
              server_output_log := "Permissions error: unable to access log"
              scsynth_log := "Permissions error: unable to access log"
              processes_log := "Permissions error: unable to access log" })],
       .exited⟩ ∧
    (w.homeDirWritable = false → startupErrorReads w = []) ∧
    (∀ fs name content, fs name = some content →
      (readFile fs name).outcome = .ret content) ∧
    (∀ fs name, fs name = none → (readFile fs name).outcome = .ret "") := by
  refine ⟨?_, ?_, ?_, ?_⟩
  · unfold startupError startupErrorReads
    by_cases h : w.homeDirWritable = true
    · simp [h, readFile_eq, run_bind, Run.bind, emit, run_pure, exitProcess]
    · simp [h, run_bind, Run.bind, emit, run_pure, exitProcess]
  · intro h
    simp [startupErrorReads, h]
  · intro fs name content h
    simp [readFile_eq, h]
  · intro fs name h
    simp [readFile_eq, h]

/-! ### C23 -/

/-- C23: `sendOSC` hands the message to the sender once and returns the answer
of the sender, whatever it is; `runCode` returns in both cases, leaves the window
as it was, and after the message of the run it shows the buffer capacity error
when the answer was false and reports "Running Code..." only when it was true;
no start-up error is raised or queued. -/
theorem sendOSC_failure_is_reported (env : Env) (gui : Gui) (w : MainWindow) (m : Message) :
    sendOSC env m = ⟨[.send m], .ret (env.oscSend m)⟩ ∧
    (∃ before, (∀ e ∈ before, ∃ m2, e = Event.send m2 ∧ m2.address = "/buffer-beautify") ∧
      runCode env gui w =
        ⟨before ++ [.send (saveAndRunMessage env gui w),
          if env.oscSend (saveAndRunMessage env gui w) then .statusMessage "Running Code..."
          else .showError bufferCapacityError], .ret ()⟩) ∧
    (env.oscSend (saveAndRunMessage env gui w) = false →
      Event.statusMessage "Running Code..." ∉ (runCode env gui w).events) ∧
    (runCode env gui w).events.any isStartupErrorEvent = false ∧
    (Operation.runCode.run env gui w).outcome = .ret w := by
  have hrun : ∃ before,
      (∀ e ∈ before, ∃ m2, e = Event.send m2 ∧ m2.address = "/buffer-beautify") ∧
      runCode env gui w =
        ⟨before ++ [.send (saveAndRunMessage env gui w),
          if env.oscSend (saveAndRunMessage env gui w) then .statusMessage "Running Code..."
          else .showError bufferCapacityError], .ret ()⟩ := by
    cases hi : env.settings.auto_indent_on_run
    · refine ⟨[], by simp, ?_⟩
      cases hres : env.oscSend (saveAndRunMessage env gui w) <;>
        simp [saveAndRunMessage] at hres <;>
        simp [runCode, beautifyCode, sendOSC, saveAndRunMessage, hi, hres, run_bind, Run.bind,
          emit, run_pure]
    · refine ⟨[.send ⟨"/buffer-beautify",
          [.str w.guiID, .str gui.currentWidget.fileName, .str gui.currentWidget.text,
           .int32 gui.currentWidget.point_line, .int32 gui.currentWidget.point_index,
           .int32 gui.currentWidget.firstVisibleLine]⟩], by simp, ?_⟩
      cases hres : env.oscSend (saveAndRunMessage env gui w) <;>
        simp [saveAndRunMessage] at hres <;>
        simp [runCode, beautifyCode, sendOSC, saveAndRunMessage, hi, hres, run_bind, Run.bind,
          emit, run_pure]
  obtain ⟨before, hb, he⟩ := hrun
  have hnostatus : ∀ text, Event.statusMessage text ∉ before := by
    intro text hm
    obtain ⟨m2, hm2, _⟩ := hb _ hm
    cases hm2
  have hnoerr : ∀ e ∈ before, isStartupErrorEvent e = false := by
    intro e hm
    obtain ⟨m2, hm2, _⟩ := hb _ hm
    subst hm2
    rfl
  refine ⟨rfl, ⟨before, hb, he⟩, ?_, ?_, ?_⟩
  · intro hfalse
    rw [he, hfalse]
    simp [hnostatus]
  · rw [he]
    cases env.oscSend (saveAndRunMessage env gui w) <;>
      simpa [isStartupErrorEvent] using hnoerr
  · show (runCode env gui w >>= fun _ => (pure w : Run MainWindow)).outcome = .ret w
    rw [he]
    rfl

/-! ### C24 -/

/-- C24: `startRubyServer` starts the server process first, and once; the
arguments that follow the path of the server script are the transport-mode flag,
"-t" for TCP and "-u" otherwise, and then the decimal renderings of the nine
ports `server_listen_to_gui_port`, `server_send_to_gui_port`, `scsynth_port`,
`scsynth_send_port`, `server_osc_cues_port`, `erlang_router_port`,
`osc_midi_out_port`, `osc_midi_in_port` and `websocket_port`, with nothing after
them. -/
theorem startRubyServer_launch_arguments (env : Env) (w : MainWindow) :
    ∃ rest, (startRubyServer env w).events =
        .launchServer ((if env.macOrWin then ["--enable-frozen-string-literal"] else []) ++
          ["-E", "utf-8", w.ruby_server_path, (if w.protocol = .TCP then "-t" else "-u"),
           toString w.server_listen_to_gui_port, toString w.server_send_to_gui_port,
           toString w.scsynth_port, toString w.scsynth_send_port,
           toString w.server_osc_cues_port, toString w.erlang_router_port,
           toString w.osc_midi_out_port, toString w.osc_midi_in_port,
           toString w.websocket_port]) :: rest ∧
      ∀ args, Event.launchServer args ∉ rest := by
  cases hs : env.waitForStarted <;> cases hr : w.startup_error_reported <;>
    cases hT : w.sonicPiOSCServer <;>
    simp [startRubyServer, invokeStartupError, undefinedBehaviour, hs, hr, hT, run_bind,
      Run.bind, emit, run_pure]

/-! ### C25 -/

/-- C25: in a sequence of calls of `invokeStartupError` that starts with the
transport constructed and no error reported, the first call stops the transport,
queues `startupError` with its message and sets `startup_error_reported`; all
the later calls together add no event and leave the window as the first call
left it.  From any window with `startup_error_reported` set, a sequence of calls
has no effect at all, so the flag stays set. -/
theorem invokeStartupError_only_first_call (w : MainWindow) (msg : String)
    (msgs : List String) (hT : w.sonicPiOSCServer = true)
    (hr : w.startup_error_reported = false) :
    invokeStartupError w msg = ⟨[.stopTransport, .queueStartupError msg],
      .ret { w with startup_error_reported := true, queued := w.queued ++ [msg] }⟩ ∧
    invokeStartupErrorSeq w (msg :: msgs) = invokeStartupError w msg ∧
    (∀ w2 : MainWindow, w2.startup_error_reported = true →
      ∀ later, invokeStartupErrorSeq w2 later = ⟨[], .ret w2⟩) := by
  have h1 := invokeStartupError_eq w msg hT hr
  refine ⟨h1, ?_, fun w2 h2 later => invokeStartupErrorSeq_reported w2 later h2⟩
  unfold invokeStartupErrorSeq
  rw [h1]
  simp [run_bind, Run.bind, invokeStartupErrorSeq_reported]

/-- Witness of C25: three reports in a row on the booted window. -/
theorem invokeStartupError_only_first_call_witness :
    bootWindow.sonicPiOSCServer = true ∧ bootWindow.startup_error_reported = false ∧
    invokeStartupError bootWindow bootErrorMessage =
      ⟨[.stopTransport, .queueStartupError bootErrorMessage],
        .ret { bootWindow with
          startup_error_reported := true, queued := bootWindow.queued ++ [bootErrorMessage] }⟩ ∧
    invokeStartupErrorSeq bootWindow
        (bootErrorMessage :: [connectErrorMessage, unableToConnectMessage]) =
      invokeStartupError bootWindow bootErrorMessage ∧
    (∀ w2 : MainWindow, w2.startup_error_reported = true →
      ∀ later, invokeStartupErrorSeq w2 later = ⟨[], .ret w2⟩) :=
  ⟨rfl, rfl, invokeStartupError_only_first_call bootWindow bootErrorMessage
    [connectErrorMessage, unableToConnectMessage] rfl rfl⟩

/-! ### C26 -/

/-- C26, the code at the failing input: in `spawnFailureEnv` the ports validate
and the server cannot be spawned; `startRubyServer` calls `invokeStartupError`
on a window whose `sonicPiOSCServer` is still `NULL`, the call dereferences it,
and the constructor never gets to construct the transport.  On the other two
paths that report through `invokeStartupError` the transport is constructed
before it is stopped. -/
theorem invokeStartupError_before_transport_exists :
    (initAndCheckPorts spawnFailureEnv (initialWindow spawnFailureEnv)).outcome =
      .ret (true, spawnFailureWindow) ∧
    spawnFailureWindow.sonicPiOSCServer = false ∧
    (invokeStartupError spawnFailureWindow "The Sonic Pi Server could not be started!").outcome =
      .undefined ∧
    (startRubyServer spawnFailureEnv spawnFailureWindow).outcome = .undefined ∧
    (MainWindow_MainWindow spawnFailureEnv).outcome = .undefined ∧
    (MainWindow_MainWindow spawnFailureEnv).events.filter isTransportEvent = [] ∧
    (MainWindow_MainWindow markerNeverEnv).events.filter isTransportEvent =
      [.createTransport, .stopTransport] ∧
    (MainWindow_MainWindow ackNeverEnv).events.filter isTransportEvent =
      [.createTransport, .stopTransport] := by
  decide

/-! ### C27 -/

/-- C27: for every buffer text and all settings, `runCode` sends exactly one
`/save-and-run-buffer` message; its arguments are `guiID`, the file name of the
current widget, the code and the file name again, and the code is the preference
lines followed by the buffer text as it is.  The preference lines are the line of
the MIDI defaults, then the lines for timing guarantees, external synths,
argument checks, cue logging off and debug off, each present exactly when its
setting asks for it, and each ends with the marker
"#__nosave__ set by Qt GUI user preferences." and a line break. -/
theorem runCode_message (env : Env) (gui : Gui) (w : MainWindow) :
    (∃ before after, (runCode env gui w).events =
        before ++ .send ⟨"/save-and-run-buffer",
          [.str w.guiID, .str gui.currentWidget.fileName,
           .str (String.join (preferenceLines env.settings) ++ gui.currentWidget.text),
           .str gui.currentWidget.fileName]⟩ :: after ∧
      (∀ m, Event.send m ∈ before ++ after → m.address ≠ "/save-and-run-buffer")) ∧
    preferenceLines env.settings =
      ("use_midi_defaults channel: \"" ++ env.settings.midi_default_channel_str ++ "\" " ++
        nosaveMarker ++ "\n") ::
      ((if env.settings.synth_trigger_timing_guarantees then
          ["use_timing_guarantees true " ++ nosaveMarker ++ "\n"] else []) ++
       (if env.settings.enable_external_synths then
          ["use_external_synths true " ++ nosaveMarker ++ "\n"] else []) ++
       (if env.settings.check_args then
          ["use_arg_checks true " ++ nosaveMarker ++ "\n"] else []) ++
       (if env.settings.log_cues = false then
          ["use_cue_logging false " ++ nosaveMarker ++ "\n"] else []) ++
       (if env.settings.print_output = false then
          ["use_debug false " ++ nosaveMarker ++ "\n"] else [])) ∧
    (∀ l ∈ preferenceLines env.settings, ∃ body, l = body ++ nosaveMarker ++ "\n" ∧
      ('\n' ∉ env.settings.midi_default_channel_str.data →
        '\n' ∉ (body ++ nosaveMarker).data)) := by
  refine ⟨?_, preferenceLines_eq env.settings, preferenceLines_end env.settings⟩
  · rw [← codeWithPreferences_eq]
    cases hi : env.settings.auto_indent_on_run
    · refine ⟨[], [if env.oscSend (saveAndRunMessage env gui w) then
          .statusMessage "Running Code..." else .showError bufferCapacityError], ?_, ?_⟩
      · cases hres : env.oscSend (saveAndRunMessage env gui w) <;>
          simp [saveAndRunMessage] at hres <;>
          simp [runCode, sendOSC, hi, hres, run_bind, Run.bind, emit, run_pure]
      · intro m hm
        cases hres : env.oscSend (saveAndRunMessage env gui w) <;> simp [hres] at hm
    · refine ⟨[.send ⟨"/buffer-beautify",
          [.str w.guiID, .str gui.currentWidget.fileName, .str gui.currentWidget.text,
           .int32 gui.currentWidget.point_line, .int32 gui.currentWidget.point_index,
           .int32 gui.currentWidget.firstVisibleLine]⟩],
        [if env.oscSend (saveAndRunMessage env gui w) then
          .statusMessage "Running Code..." else .showError bufferCapacityError], ?_, ?_⟩
      · cases hres : env.oscSend (saveAndRunMessage env gui w) <;>
          simp [saveAndRunMessage] at hres <;>
          simp [runCode, beautifyCode, sendOSC, hi, hres, run_bind, Run.bind, emit, run_pure]
      · intro m hm
        cases hres : env.oscSend (saveAndRunMessage env gui w) <;> simp [hres] at hm <;>
          subst hm <;>
          exact fun h => (by decide : ¬ ("/buffer-beautify" = "/save-and-run-buffer")) h

/-! ### C28 -/

/-- C28: with at most ten workspaces, `filenameToWorkspace` called with the name
"workspace_" followed by `number_name(i)`, for an index `i` below
`workspace_max`, returns `workspaces[i]`, and called with any other file name it
returns `workspaces[0]`. -/
theorem filenameToWorkspace_inverts_names (env : Env) (hmax : env.workspace_max ≤ 10) :
    (∀ i, i < env.workspace_max → ∃ name, number_name i = some name ∧
      filenameToWorkspace env ("workspace_" ++ name) = ⟨[], .ret i⟩) ∧
    (∀ filename,
      (∀ i name, i < env.workspace_max → number_name i = some name →
        filename ≠ "workspace_" ++ name) →
      filenameToWorkspace env filename = ⟨[], .ret 0⟩) := by
  constructor
  · intro i hi
    obtain ⟨name, hname⟩ := number_name_some i (by omega)
    exact ⟨name, hname,
      filenameToWorkspaceFrom_hit env.workspace_max 0 i name (by omega) (by omega) (by omega)
        hname⟩
  · intro filename hmiss
    exact filenameToWorkspaceFrom_miss filename env.workspace_max 0 (by omega)
      (fun j name _ h2 h3 => hmiss j name (by omega) h3)

/-- Witness of C28: the ten workspaces of `bootEnv`. -/
theorem filenameToWorkspace_inverts_names_witness :
    bootEnv.workspace_max ≤ 10 ∧
    (filenameToWorkspace bootEnv "workspace_seven").outcome = .ret 7 ∧
    (filenameToWorkspace bootEnv "workspace_ten").outcome = .ret 0 ∧
    (∀ i, i < bootEnv.workspace_max → ∃ name, number_name i = some name ∧
      filenameToWorkspace bootEnv ("workspace_" ++ name) = ⟨[], .ret i⟩) ∧
    (∀ filename,
      (∀ i name, i < bootEnv.workspace_max → number_name i = some name →
        filename ≠ "workspace_" ++ name) →
      filenameToWorkspace bootEnv filename = ⟨[], .ret 0⟩) :=
  ⟨by decide, by decide, by decide,
    filenameToWorkspace_inverts_names bootEnv (by decide)⟩

/-! ### C29 -/

/-- C29: with `n` tabs, `n` at least 1, and the current index `i` among them,
`tabNext` selects `(i + 1) mod n` and `tabPrev` selects `(i + n - 1) mod n`, the
index selected is again one of the `n` tabs, and `tabPrev` after `tabNext`, as
well as `tabNext` after `tabPrev`, leads back to `i`. -/
theorem tabNext_tabPrev_cycle (t : Tabs) (hn : 1 ≤ t.count) (hint : t.count ≤ 2147483647)
    (h0 : 0 ≤ t.currentIndex) (hlt : t.currentIndex < t.count) :
    (tabNext t).currentIndex = (t.currentIndex + 1) % t.count ∧
    (tabPrev t).currentIndex = (t.currentIndex + t.count - 1) % t.count ∧
    (0 ≤ (tabNext t).currentIndex ∧ (tabNext t).currentIndex < t.count) ∧
    (0 ≤ (tabPrev t).currentIndex ∧ (tabPrev t).currentIndex < t.count) ∧
    (tabNext t).count = t.count ∧ (tabPrev t).count = t.count ∧
    tabPrev (tabNext t) = t ∧ tabNext (tabPrev t) = t := by
  obtain ⟨n, i⟩ := t
  simp only at hn hint h0 hlt
  have hw1 : wrapInt (n - 1) = n - 1 := wrapInt_eq _ (by omega) (by omega)
  have hw2 : wrapInt (i + 1) = i + 1 := wrapInt_eq _ (by omega) (by omega)
  have hw3 : wrapInt (i - 1) = i - 1 := wrapInt_eq _ (by omega) (by omega)
  have hnext : tabNext ⟨n, i⟩ = ⟨n, if i = n - 1 then 0 else i + 1⟩ := by
    unfold tabNext Tabs.setCurrentIndex
    simp only [hw1, hw2]
    by_cases hi : i = n - 1
    · simp only [if_pos hi]
      rw [if_pos ⟨le_refl _, by omega⟩]
    · simp only [if_neg hi]
      rw [if_pos ⟨by omega, by omega⟩]
  have hprev : tabPrev ⟨n, i⟩ = ⟨n, if i = 0 then n - 1 else i - 1⟩ := by
    unfold tabPrev Tabs.setCurrentIndex
    simp only [hw1, hw3]
    by_cases hi : i = 0
    · simp only [if_pos hi]
      rw [if_pos ⟨by omega, by omega⟩]
    · simp only [if_neg hi]
      rw [if_pos ⟨by omega, by omega⟩]
  have hmodn : (if i = n - 1 then 0 else i + 1) = (i + 1) % n := by
    by_cases hi : i = n - 1
    · rw [if_pos hi, hi]
      simp
    · rw [if_neg hi, Int.emod_eq_of_lt (by omega) (by omega)]
  have hmodp : (if i = 0 then n - 1 else i - 1) = (i + n - 1) % n := by
    by_cases hi : i = 0
    · rw [if_pos hi, hi, Int.emod_eq_of_lt (by omega) (by omega)]
      omega
    · rw [if_neg hi, show i + n - 1 = i - 1 + n by omega, Int.add_emod_self,
        Int.emod_eq_of_lt (by omega) (by omega)]
  refine ⟨by rw [hnext, hmodn], by rw [hprev, hmodp], ?_, ?_, by rw [hnext], by rw [hprev],
    ?_, ?_⟩
  · rw [hnext]
    by_cases hi : i = n - 1
    · simp only [if_pos hi]; omega
    · simp only [if_neg hi]; omega
  · rw [hprev]
    by_cases hi : i = 0
    · simp only [if_pos hi]; omega
    · simp only [if_neg hi]; omega
  · rw [hnext]
    unfold tabPrev Tabs.setCurrentIndex
    simp only [hw1]
    by_cases hi : i = n - 1
    · simp only [if_pos hi, if_true]
      rw [if_pos ⟨by omega, by omega⟩, hi]
    · have hne : ¬ (i + 1 = 0) := by omega
      have hw : wrapInt (i + 1 - 1) = i := by
        rw [wrapInt_eq _ (by omega) (by omega)]
        omega
      simp only [if_neg hi, if_neg hne, hw]
      rw [if_pos ⟨h0, hlt⟩]
  · rw [hprev]
    unfold tabNext Tabs.setCurrentIndex
    simp only [hw1]
    by_cases hi : i = 0
    · simp only [if_pos hi, if_true]
      rw [if_pos ⟨le_refl _, by omega⟩, hi]
    · have hne : ¬ (i - 1 = n - 1) := by omega
      have hw : wrapInt (i - 1 + 1) = i := by
        rw [wrapInt_eq _ (by omega) (by omega)]
        omega
      simp only [if_neg hi, if_neg hne, hw]
      rw [if_pos ⟨h0, hlt⟩]

/-- Witness of C29: ten tabs with the last one current. -/
theorem tabNext_tabPrev_cycle_witness :
    1 ≤ lastTab.count ∧ lastTab.count ≤ 2147483647 ∧ 0 ≤ lastTab.currentIndex ∧
    lastTab.currentIndex < lastTab.count ∧
    tabNext lastTab = { count := 10, currentIndex := 0 } ∧
    tabPrev lastTab = { count := 10, currentIndex := 8 } ∧
    (tabNext lastTab).currentIndex = (lastTab.currentIndex + 1) % lastTab.count ∧
    (tabPrev lastTab).currentIndex =
      (lastTab.currentIndex + lastTab.count - 1) % lastTab.count ∧
    (0 ≤ (tabNext lastTab).currentIndex ∧ (tabNext lastTab).currentIndex < lastTab.count) ∧
    (0 ≤ (tabPrev lastTab).currentIndex ∧ (tabPrev lastTab).currentIndex < lastTab.count) ∧
    (tabNext lastTab).count = lastTab.count ∧ (tabPrev lastTab).count = lastTab.count ∧
    tabPrev (tabNext lastTab) = lastTab ∧ tabNext (tabPrev lastTab) = lastTab :=
  ⟨by decide, by decide, by decide, by decide, by decide, by decide,
    tabNext_tabPrev_cycle lastTab (by decide) (by decide) (by decide) (by decide)⟩

/-! ### C30 -/

/-- C30: `number_name` gives the ten names "zero" to "nine" for the indices 0 to
9, all different and none empty, and fails only from 10 on; with at most ten
workspaces none of its callers reaches the failing branch: the loops of
`setupWindowStructure`, `loadWorkspaces` and `saveWorkspaces` and the search of
`filenameToWorkspace` all return. -/
theorem number_name_default_unreachable (env : Env) (gui : Gui) (w : MainWindow)
    (hmax : env.workspace_max ≤ 10) :
    (List.range 10).map number_name =
      [some "zero", some "one", some "two", some "three", some "four", some "five",
       some "six", some "seven", some "eight", some "nine"] ∧
    (∀ i j, i < 10 → j < 10 → number_name i = number_name j → i = j) ∧
    (∀ i, number_name i ≠ some "") ∧
    (∀ i, number_name i = none ↔ 10 ≤ i) ∧
    (∃ names, setupWindowStructure env = ⟨[], .ret names⟩ ∧
      names.length = env.workspace_max) ∧
    (loadWorkspaces env w).outcome = .ret () ∧
    (saveWorkspaces env gui w).outcome = .ret () ∧
    (∀ filename, ∃ i, (filenameToWorkspace env filename).outcome = .ret i ∧
      (i = 0 ∨ i < env.workspace_max)) := by
  refine ⟨by decide, number_name_injective, ?_, ?_,
    setupWindowStructureFrom_ret env.workspace_max 0 (by omega),
    loadWorkspacesFrom_ret env w env.workspace_max 0 (by omega),
    (saveWorkspacesFrom_eq env gui w env.workspace_max 0 (by omega)).1, ?_⟩
  · intro i
    by_cases hi : i < 10
    · interval_cases i <;> decide
    · rw [number_name_none i (by omega)]
      simp
  · intro i
    constructor
    · intro hnone
      by_contra hlt
      obtain ⟨name, hname⟩ := number_name_some i (by omega)
      rw [hname] at hnone
      cases hnone
    · exact number_name_none i
  · intro filename
    obtain ⟨j, hj, hr⟩ := filenameToWorkspaceFrom_ret filename env.workspace_max 0 (by omega)
    refine ⟨j, by rw [filenameToWorkspace, hj], ?_⟩
    rcases hr with hr | hr
    · exact Or.inl hr
    · exact Or.inr (by omega)

/-- Witness of C30: the ten workspaces of `bootEnv`. -/
theorem number_name_default_unreachable_witness :
    bootEnv.workspace_max ≤ 10 ∧
    (List.range 10).map number_name =
      [some "zero", some "one", some "two", some "three", some "four", some "five",
       some "six", some "seven", some "eight", some "nine"] ∧
    (∀ i j, i < 10 → j < 10 → number_name i = number_name j → i = j) ∧
    (∀ i, number_name i ≠ some "") ∧
    (∀ i, number_name i = none ↔ 10 ≤ i) ∧
    (∃ names, setupWindowStructure bootEnv = ⟨[], .ret names⟩ ∧
      names.length = bootEnv.workspace_max) ∧
    (loadWorkspaces bootEnv bootWindow).outcome = .ret () ∧
    (saveWorkspaces bootEnv runningGui bootWindow).outcome = .ret () ∧
    (∀ filename, ∃ i, (filenameToWorkspace bootEnv filename).outcome = .ret i ∧
      (i = 0 ∨ i < bootEnv.workspace_max)) :=
  ⟨by decide, number_name_default_unreachable bootEnv runningGui bootWindow (by decide)⟩

end SonicPi
